import Mathlib

/-!
Verification of the `earth_distance` coordinate toolkit
(`src/earth_distance/utils.py`) against its natural-language specification.

The Python source is shallowly embedded: pure float arithmetic is modelled
over `ℚ` where the code only performs field operations, truncations and
floor divisions, and over `ℝ` where the code calls transcendental
functions (`math.sin`, `math.atan`, ...).  Functions that can raise are
modelled with `Option`/`Except`, one error constructor per distinct
`raise` site.  Python specifics that the embedding reproduces:

* `int(x)` truncates toward zero (`pyInt`);
* `x % y` returns a remainder with the sign of `y` (`pyMod`);
* `divmod(a, b)` is `(a // b, a % b)` with `//` the floor division;
* `ord`/`chr` work on code points (`Char.toNat` / `chr`);
* a string is falsy iff empty, a float is falsy iff zero.
-/


/-- Python `int()` applied to a rational/real value: truncation toward zero. -/
def pyInt {α : Type} [LinearOrderedField α] [FloorRing α] (x : α) : ℤ :=
  if 0 ≤ x then ⌊x⌋ else -⌊-x⌋

/-- Python `%` on numbers: `a % b = a - b * floor (a / b)` (sign of the result
follows `b`; the code never reaches `%` with `b = 0`). -/
def pyMod {α : Type} [LinearOrderedField α] [FloorRing α] (a b : α) : α :=
  a - b * ⌊a / b⌋

/-- Python `chr` (the embedding only meets code points below `0xD800`). -/
def chr (n : ℤ) : Char :=
  Char.ofNat n.toNat

/-- Python `str.lower` on a single ASCII character. -/
def pyLower (c : Char) : Char :=
  if 'A' ≤ c ∧ c ≤ 'Z' then Char.ofNat (c.toNat + 32) else c

/-- Python `int()` on a one-character string: the digit value, or a raised
`ValueError` (`none`) when the character is not an ASCII digit. -/
def digitVal (c : Char) : Option ℤ :=
  if '0' ≤ c ∧ c ≤ '9' then some ((c.toNat : ℤ) - 48) else none

/-! ### Maidenhead locator constants (`utils.py` lines 58-66) -/

def LONGITUDE_FIELD : ℚ := 20

def LATITUDE_FIELD : ℚ := 10

def LONGITUDE_SQUARE : ℚ := LONGITUDE_FIELD / 10

def LATITUDE_SQUARE : ℚ := LATITUDE_FIELD / 10

def LONGITUDE_SUBSQUARE : ℚ := LONGITUDE_SQUARE / 24

def LATITUDE_SUBSQUARE : ℚ := LATITUDE_SQUARE / 24

def LONGITUDE_EXTSQUARE : ℚ := LONGITUDE_SUBSQUARE / 10

def LATITUDE_EXTSQUARE : ℚ := LATITUDE_SUBSQUARE / 10

/-- The distinct `raise ValueError` sites of `from_grid_locator`. -/
inductive GridError : Type
  | badLength    -- locator must be 4, 6 or 8 characters long
  | badInt       -- `int()` applied to a non-digit character
  | badValues    -- invalid values in locator
  deriving DecidableEq, Repr

/-- `from_grid_locator` (`utils.py` lines 673-758).  The locator characters
are converted to numbers first (`ord`-based for letters, `int()` for digits,
which raises on a non-digit), then range-checked, then combined. -/
def from_grid_locator (locator : String) : Except GridError (ℚ × ℚ) :=
  match locator.data with
  | [a, b, c, d] =>
    let l0 : ℤ := (a.toNat : ℤ) - 65
    let l1 : ℤ := (b.toNat : ℤ) - 65
    match digitVal c, digitVal d with
    | some l2, some l3 =>
      if ¬(0 ≤ l0 ∧ l0 ≤ 17) ∨ ¬(0 ≤ l1 ∧ l1 ≤ 17) ∨
         ¬(0 ≤ l2 ∧ l2 ≤ 9) ∨ ¬(0 ≤ l3 ∧ l3 ≤ 9) then
        .error .badValues
      else
        let longitude : ℚ := LONGITUDE_FIELD * l0 + LONGITUDE_SQUARE * l2
          + LONGITUDE_EXTSQUARE * 5 - 180
        let latitude : ℚ := LATITUDE_FIELD * l1 + LATITUDE_SQUARE * l3
          + LATITUDE_EXTSQUARE * 5 - 90
        .ok (latitude, longitude)
    | _, _ => .error .badInt
  | [a, b, c, d, e, f] =>
    let l0 : ℤ := (a.toNat : ℤ) - 65
    let l1 : ℤ := (b.toNat : ℤ) - 65
    match digitVal c, digitVal d with
    | some l2, some l3 =>
      let l4 : ℤ := ((pyLower e).toNat : ℤ) - 97
      let l5 : ℤ := ((pyLower f).toNat : ℤ) - 97
      if ¬(0 ≤ l0 ∧ l0 ≤ 17) ∨ ¬(0 ≤ l1 ∧ l1 ≤ 17) ∨
         ¬(0 ≤ l2 ∧ l2 ≤ 9) ∨ ¬(0 ≤ l3 ∧ l3 ≤ 9) then
        .error .badValues
      else if ¬(0 ≤ l4 ∧ l4 ≤ 23) ∨ ¬(0 ≤ l5 ∧ l5 ≤ 23) then
        .error .badValues
      else
        let longitude : ℚ := LONGITUDE_FIELD * l0 + LONGITUDE_SQUARE * l2
          + LONGITUDE_SUBSQUARE * l4 + LONGITUDE_EXTSQUARE * 5 - 180
        let latitude : ℚ := LATITUDE_FIELD * l1 + LATITUDE_SQUARE * l3
          + LATITUDE_SUBSQUARE * l5 + LATITUDE_EXTSQUARE * 5 - 90
        .ok (latitude, longitude)
    | _, _ => .error .badInt
  | [a, b, c, d, e, f, g, h] =>
    let l0 : ℤ := (a.toNat : ℤ) - 65
    let l1 : ℤ := (b.toNat : ℤ) - 65
    match digitVal c, digitVal d, digitVal g, digitVal h with
    | some l2, some l3, some l6, some l7 =>
      let l4 : ℤ := ((pyLower e).toNat : ℤ) - 97
      let l5 : ℤ := ((pyLower f).toNat : ℤ) - 97
      if ¬(0 ≤ l0 ∧ l0 ≤ 17) ∨ ¬(0 ≤ l1 ∧ l1 ≤ 17) ∨
         ¬(0 ≤ l2 ∧ l2 ≤ 9) ∨ ¬(0 ≤ l3 ∧ l3 ≤ 9) then
        .error .badValues
      else if ¬(0 ≤ l4 ∧ l4 ≤ 23) ∨ ¬(0 ≤ l5 ∧ l5 ≤ 23) then
        .error .badValues
      else if ¬(0 ≤ l6 ∧ l6 ≤ 9) ∨ ¬(0 ≤ l7 ∧ l7 ≤ 9) then
        .error .badValues
      else
        let longitude : ℚ := LONGITUDE_FIELD * l0 + LONGITUDE_SQUARE * l2
          + LONGITUDE_SUBSQUARE * l4
          + (LONGITUDE_EXTSQUARE * l6 + LONGITUDE_EXTSQUARE / 2) - 180
        let latitude : ℚ := LATITUDE_FIELD * l1 + LATITUDE_SQUARE * l3
          + LATITUDE_SUBSQUARE * l5
          + (LATITUDE_EXTSQUARE * l7 + LATITUDE_EXTSQUARE / 2) - 90
        .ok (latitude, longitude)
    | _, _, _, _ => .error .badInt
  | _ => .error .badLength

/-- The three precision identifiers accepted by `to_grid_locator`; any other
string raises before any computation and is not modelled. -/
inductive Precision : Type
  | square | subsquare | extsquare
  deriving DecidableEq, Repr

/-- `to_grid_locator` (`utils.py` lines 760-827).  `none` models the
`ValueError` raised for an out-of-range latitude or longitude.  The divisions
feed `int()`, which truncates toward zero (`pyInt`). -/
def to_grid_locator (latitude longitude : ℚ) (precision : Precision) :
    Option String :=
  if ¬(-90 ≤ latitude ∧ latitude ≤ 90) then none
  else if ¬(-180 ≤ longitude ∧ longitude ≤ 180) then none
  else
    let lat0 := latitude + 90
    let lon0 := longitude + 180
    let fieldLon : ℤ := pyInt (lon0 / LONGITUDE_FIELD)
    let lon1 := lon0 - fieldLon * LONGITUDE_FIELD
    let fieldLat : ℤ := pyInt (lat0 / LATITUDE_FIELD)
    let lat1 := lat0 - fieldLat * LATITUDE_FIELD
    let squareLon : ℤ := pyInt (lon1 / LONGITUDE_SQUARE)
    let lon2 := lon1 - squareLon * LONGITUDE_SQUARE
    let squareLat : ℤ := pyInt (lat1 / LATITUDE_SQUARE)
    let lat2 := lat1 - squareLat * LATITUDE_SQUARE
    let base := String.singleton (chr (fieldLon + 65))
      ++ String.singleton (chr (fieldLat + 65))
      ++ toString squareLon ++ toString squareLat
    match precision with
    | .square => some base
    | .subsquare =>
      let subLon : ℤ := pyInt (lon2 / LONGITUDE_SUBSQUARE)
      let subLat : ℤ := pyInt (lat2 / LATITUDE_SUBSQUARE)
      some (base ++ String.singleton (chr (subLon + 97))
        ++ String.singleton (chr (subLat + 97)))
    | .extsquare =>
      let subLon : ℤ := pyInt (lon2 / LONGITUDE_SUBSQUARE)
      let lon3 := lon2 - subLon * LONGITUDE_SUBSQUARE
      let subLat : ℤ := pyInt (lat2 / LATITUDE_SUBSQUARE)
      let lat3 := lat2 - subLat * LATITUDE_SUBSQUARE
      let extLon : ℤ := pyInt (lon3 / LONGITUDE_EXTSQUARE)
      let extLat : ℤ := pyInt (lat3 / LATITUDE_EXTSQUARE)
      some (base ++ String.singleton (chr (subLon + 97))
        ++ String.singleton (chr (subLat + 97))
        ++ toString extLon ++ toString extLat)


/-! ### Helper lemmas for the locator codec proofs -/

theorem pyInt_of_nonneg {α : Type} [LinearOrderedField α] [FloorRing α]
    {q : α} (h : 0 ≤ q) : pyInt q = ⌊q⌋ :=
  if_pos h

/-- One step of the encoder's digit extraction: dividing a value
`0 ≤ x < k * w` by the span `w` and flooring gives a digit in `[0, k-1]`
and a remainder in `[0, w)`. -/
theorem extract_digit {x w : ℚ} (k : ℤ) (hw : 0 < w) (h0 : 0 ≤ x)
    (hk : x < k * w) :
    0 ≤ ⌊x / w⌋ ∧ ⌊x / w⌋ ≤ k - 1 ∧
      0 ≤ x - ⌊x / w⌋ * w ∧ x - ⌊x / w⌋ * w < w := by
  have h1 : 0 ≤ x / w := div_nonneg h0 hw.le
  have hf0 : 0 ≤ ⌊x / w⌋ := Int.floor_nonneg.mpr h1
  have hlt : ⌊x / w⌋ < k :=
    Int.floor_lt.mpr ((div_lt_iff₀ hw).mpr (by linarith))
  have hle : (⌊x / w⌋ : ℚ) * w ≤ x := by
    have := Int.floor_le (x / w)
    calc (⌊x / w⌋ : ℚ) * w ≤ x / w * w := by
          exact mul_le_mul_of_nonneg_right this hw.le
    _ = x := div_mul_cancel₀ _ hw.ne'
  have hgt : x < ((⌊x / w⌋ : ℚ) + 1) * w := by
    have := Int.lt_floor_add_one (x / w)
    calc x = x / w * w := (div_mul_cancel₀ _ hw.ne').symm
    _ < ((⌊x / w⌋ : ℚ) + 1) * w := by
          exact mul_lt_mul_of_pos_right this hw
  exact ⟨hf0, by omega, by linarith, by linarith⟩

/-- Variant for a closed upper bound: at `x = k * w` the digit is exactly
`k` (this is how the encoder emits the out-of-range field letter `S`). -/
theorem extract_digit_le {x w : ℚ} (k : ℤ) (hw : 0 < w) (h0 : 0 ≤ x)
    (hk : x ≤ k * w) :
    0 ≤ ⌊x / w⌋ ∧ ⌊x / w⌋ ≤ k ∧
      0 ≤ x - ⌊x / w⌋ * w ∧ x - ⌊x / w⌋ * w < w := by
  have h1 : 0 ≤ x / w := div_nonneg h0 hw.le
  have hf0 : 0 ≤ ⌊x / w⌋ := Int.floor_nonneg.mpr h1
  have hlek : ⌊x / w⌋ ≤ k := by
    have : x / w ≤ (k : ℚ) := (div_le_iff₀ hw).mpr (by linarith)
    exact Int.le_of_lt_add_one (Int.floor_lt.mpr (lt_of_le_of_lt this (by push_cast; linarith)))
  have hle : (⌊x / w⌋ : ℚ) * w ≤ x := by
    have := Int.floor_le (x / w)
    calc (⌊x / w⌋ : ℚ) * w ≤ x / w * w := by
          exact mul_le_mul_of_nonneg_right this hw.le
    _ = x := div_mul_cancel₀ _ hw.ne'
  have hgt : x < ((⌊x / w⌋ : ℚ) + 1) * w := by
    have := Int.lt_floor_add_one (x / w)
    calc x = x / w * w := (div_mul_cancel₀ _ hw.ne').symm
    _ < ((⌊x / w⌋ : ℚ) + 1) * w := by
          exact mul_lt_mul_of_pos_right this hw
  exact ⟨hf0, hlek, by linarith, by linarith⟩

theorem char_toNat_ofNat {n : ℕ} (h : n < 256) : (Char.ofNat n).toNat = n := by
  unfold Char.ofNat
  split
  · rfl
  · exact absurd (Or.inl (by omega)) (by assumption)

/-- Decoding a field letter emitted by the encoder. -/
theorem decode_field_char {f : ℤ} (h0 : 0 ≤ f) (h1 : f ≤ 18) :
    ((chr (f + 65)).toNat : ℤ) - 65 = f := by
  have : (chr (f + 65)).toNat = (f + 65).toNat := by
    unfold chr
    exact char_toNat_ofNat (by omega)
  omega

/-- Decoding a subsquare letter emitted by the encoder: the emitted character
is already lowercase, so `pyLower` keeps it. -/
theorem decode_subsquare_char {u : ℤ} (h0 : 0 ≤ u) (h1 : u ≤ 23) :
    ((pyLower (chr (u + 97))).toNat : ℤ) - 97 = u := by
  interval_cases u <;> decide

/-- `str()` of a single-digit integer is that digit character. -/
theorem int_toString_digit {n : ℤ} (h0 : 0 ≤ n) (h1 : n ≤ 9) :
    (toString n).data = [chr (n + 48)] := by
  interval_cases n <;> decide

/-- `int()` of a digit character emitted by `str()`. -/
theorem digitVal_digit_char {n : ℤ} (h0 : 0 ≤ n) (h1 : n ≤ 9) :
    digitVal (chr (n + 48)) = some n := by
  interval_cases n <;> decide

/-- Character classes of §3 of the specification: positions 0-1 of a locator
are letters `A`-`R`. -/
theorem field_char_class {f : ℤ} (h0 : 0 ≤ f) (h1 : f ≤ 17) :
    'A' ≤ chr (f + 65) ∧ chr (f + 65) ≤ 'R' := by
  interval_cases f <;> decide

/-- Digit positions of a locator are characters `0`-`9`. -/
theorem digit_char_class {s : ℤ} (h0 : 0 ≤ s) (h1 : s ≤ 9) :
    '0' ≤ chr (s + 48) ∧ chr (s + 48) ≤ '9' := by
  interval_cases s <;> decide

/-- Subsquare positions of a locator are letters `a`-`x`. -/
theorem subsquare_char_class {u : ℤ} (h0 : 0 ≤ u) (h1 : u ≤ 23) :
    'a' ≤ chr (u + 97) ∧ chr (u + 97) ≤ 'x' := by
  interval_cases u <;> decide

/-- `from_grid_locator` on a well-formed 4-character locator, written with
one integer per character. -/
theorem from_grid_locator_four {f g s t : ℤ}
    (hf0 : 0 ≤ f) (hf1 : f ≤ 17) (hg0 : 0 ≤ g) (hg1 : g ≤ 17)
    (hs0 : 0 ≤ s) (hs1 : s ≤ 9) (ht0 : 0 ≤ t) (ht1 : t ≤ 9) :
    from_grid_locator ⟨[chr (f + 65), chr (g + 65), chr (s + 48), chr (t + 48)]⟩
      = .ok (LATITUDE_FIELD * g + LATITUDE_SQUARE * t + LATITUDE_EXTSQUARE * 5 - 90,
             LONGITUDE_FIELD * f + LONGITUDE_SQUARE * s + LONGITUDE_EXTSQUARE * 5 - 180) := by
  unfold from_grid_locator
  have hd : (String.mk [chr (f + 65), chr (g + 65), chr (s + 48), chr (t + 48)]).data
      = [chr (f + 65), chr (g + 65), chr (s + 48), chr (t + 48)] := rfl
  simp only [hd, digitVal_digit_char hs0 hs1, digitVal_digit_char ht0 ht1,
    decode_field_char hf0 (by omega : f ≤ 18), decode_field_char hg0 (by omega : g ≤ 18)]
  rw [if_neg (by omega)]

/-- `from_grid_locator` on a well-formed 6-character locator. -/
theorem from_grid_locator_six {f g s t u v : ℤ}
    (hf0 : 0 ≤ f) (hf1 : f ≤ 17) (hg0 : 0 ≤ g) (hg1 : g ≤ 17)
    (hs0 : 0 ≤ s) (hs1 : s ≤ 9) (ht0 : 0 ≤ t) (ht1 : t ≤ 9)
    (hu0 : 0 ≤ u) (hu1 : u ≤ 23) (hv0 : 0 ≤ v) (hv1 : v ≤ 23) :
    from_grid_locator ⟨[chr (f + 65), chr (g + 65), chr (s + 48), chr (t + 48),
        chr (u + 97), chr (v + 97)]⟩
      = .ok (LATITUDE_FIELD * g + LATITUDE_SQUARE * t + LATITUDE_SUBSQUARE * v
               + LATITUDE_EXTSQUARE * 5 - 90,
             LONGITUDE_FIELD * f + LONGITUDE_SQUARE * s + LONGITUDE_SUBSQUARE * u
               + LONGITUDE_EXTSQUARE * 5 - 180) := by
  unfold from_grid_locator
  have hd : (String.mk [chr (f + 65), chr (g + 65), chr (s + 48), chr (t + 48),
      chr (u + 97), chr (v + 97)]).data
      = [chr (f + 65), chr (g + 65), chr (s + 48), chr (t + 48),
         chr (u + 97), chr (v + 97)] := rfl
  simp only [hd, digitVal_digit_char hs0 hs1, digitVal_digit_char ht0 ht1,
    decode_field_char hf0 (by omega : f ≤ 18), decode_field_char hg0 (by omega : g ≤ 18),
    decode_subsquare_char hu0 hu1, decode_subsquare_char hv0 hv1]
  rw [if_neg (by omega), if_neg (by omega)]

/-- `from_grid_locator` on a well-formed 8-character locator. -/
theorem from_grid_locator_eight {f g s t u v w x : ℤ}
    (hf0 : 0 ≤ f) (hf1 : f ≤ 17) (hg0 : 0 ≤ g) (hg1 : g ≤ 17)
    (hs0 : 0 ≤ s) (hs1 : s ≤ 9) (ht0 : 0 ≤ t) (ht1 : t ≤ 9)
    (hu0 : 0 ≤ u) (hu1 : u ≤ 23) (hv0 : 0 ≤ v) (hv1 : v ≤ 23)
    (hw0 : 0 ≤ w) (hw1 : w ≤ 9) (hx0 : 0 ≤ x) (hx1 : x ≤ 9) :
    from_grid_locator ⟨[chr (f + 65), chr (g + 65), chr (s + 48), chr (t + 48),
        chr (u + 97), chr (v + 97), chr (w + 48), chr (x + 48)]⟩
      = .ok (LATITUDE_FIELD * g + LATITUDE_SQUARE * t + LATITUDE_SUBSQUARE * v
               + (LATITUDE_EXTSQUARE * x + LATITUDE_EXTSQUARE / 2) - 90,
             LONGITUDE_FIELD * f + LONGITUDE_SQUARE * s + LONGITUDE_SUBSQUARE * u
               + (LONGITUDE_EXTSQUARE * w + LONGITUDE_EXTSQUARE / 2) - 180) := by
  unfold from_grid_locator
  have hd : (String.mk [chr (f + 65), chr (g + 65), chr (s + 48), chr (t + 48),
      chr (u + 97), chr (v + 97), chr (w + 48), chr (x + 48)]).data
      = [chr (f + 65), chr (g + 65), chr (s + 48), chr (t + 48),
         chr (u + 97), chr (v + 97), chr (w + 48), chr (x + 48)] := rfl
  simp only [hd, digitVal_digit_char hs0 hs1, digitVal_digit_char ht0 ht1,
    digitVal_digit_char hw0 hw1, digitVal_digit_char hx0 hx1,
    decode_field_char hf0 (by omega : f ≤ 18), decode_field_char hg0 (by omega : g ≤ 18),
    decode_subsquare_char hu0 hu1, decode_subsquare_char hv0 hv1]
  rw [if_neg (by omega), if_neg (by omega), if_neg (by omega)]

/-- `to_grid_locator` at `square` precision, with the four truncated digits
named.  The hypotheses merely name the `let`-bound values of the code. -/
theorem to_grid_locator_square_eq (lat lon : ℚ)
    (h1 : -90 ≤ lat) (h2 : lat ≤ 90) (h3 : -180 ≤ lon) (h4 : lon ≤ 180)
    (fLon fLat sLon sLat : ℤ)
    (hfLon : fLon = pyInt ((lon + 180) / LONGITUDE_FIELD))
    (hfLat : fLat = pyInt ((lat + 90) / LATITUDE_FIELD))
    (hsLon : sLon = pyInt ((lon + 180 - fLon * LONGITUDE_FIELD) / LONGITUDE_SQUARE))
    (hsLat : sLat = pyInt ((lat + 90 - fLat * LATITUDE_FIELD) / LATITUDE_SQUARE)) :
    to_grid_locator lat lon .square
      = some (String.singleton (chr (fLon + 65)) ++ String.singleton (chr (fLat + 65))
          ++ toString sLon ++ toString sLat) := by
  subst hsLon hsLat hfLon hfLat
  unfold to_grid_locator
  rw [if_neg (not_not_intro ⟨h1, h2⟩), if_neg (not_not_intro ⟨h3, h4⟩)]

/-- `to_grid_locator` at `subsquare` precision, with the six truncated digits
named. -/
theorem to_grid_locator_subsquare_eq (lat lon : ℚ)
    (h1 : -90 ≤ lat) (h2 : lat ≤ 90) (h3 : -180 ≤ lon) (h4 : lon ≤ 180)
    (fLon fLat sLon sLat uLon uLat : ℤ)
    (hfLon : fLon = pyInt ((lon + 180) / LONGITUDE_FIELD))
    (hfLat : fLat = pyInt ((lat + 90) / LATITUDE_FIELD))
    (hsLon : sLon = pyInt ((lon + 180 - fLon * LONGITUDE_FIELD) / LONGITUDE_SQUARE))
    (hsLat : sLat = pyInt ((lat + 90 - fLat * LATITUDE_FIELD) / LATITUDE_SQUARE))
    (huLon : uLon = pyInt ((lon + 180 - fLon * LONGITUDE_FIELD - sLon * LONGITUDE_SQUARE)
      / LONGITUDE_SUBSQUARE))
    (huLat : uLat = pyInt ((lat + 90 - fLat * LATITUDE_FIELD - sLat * LATITUDE_SQUARE)
      / LATITUDE_SUBSQUARE)) :
    to_grid_locator lat lon .subsquare
      = some (String.singleton (chr (fLon + 65)) ++ String.singleton (chr (fLat + 65))
          ++ toString sLon ++ toString sLat
          ++ String.singleton (chr (uLon + 97)) ++ String.singleton (chr (uLat + 97))) := by
  subst huLon huLat hsLon hsLat hfLon hfLat
  unfold to_grid_locator
  rw [if_neg (not_not_intro ⟨h1, h2⟩), if_neg (not_not_intro ⟨h3, h4⟩)]

/-- `to_grid_locator` at `extsquare` precision, with the eight truncated
digits named. -/
theorem to_grid_locator_extsquare_eq (lat lon : ℚ)
    (h1 : -90 ≤ lat) (h2 : lat ≤ 90) (h3 : -180 ≤ lon) (h4 : lon ≤ 180)
    (fLon fLat sLon sLat uLon uLat eLon eLat : ℤ)
    (hfLon : fLon = pyInt ((lon + 180) / LONGITUDE_FIELD))
    (hfLat : fLat = pyInt ((lat + 90) / LATITUDE_FIELD))
    (hsLon : sLon = pyInt ((lon + 180 - fLon * LONGITUDE_FIELD) / LONGITUDE_SQUARE))
    (hsLat : sLat = pyInt ((lat + 90 - fLat * LATITUDE_FIELD) / LATITUDE_SQUARE))
    (huLon : uLon = pyInt ((lon + 180 - fLon * LONGITUDE_FIELD - sLon * LONGITUDE_SQUARE)
      / LONGITUDE_SUBSQUARE))
    (huLat : uLat = pyInt ((lat + 90 - fLat * LATITUDE_FIELD - sLat * LATITUDE_SQUARE)
      / LATITUDE_SUBSQUARE))
    (heLon : eLon = pyInt ((lon + 180 - fLon * LONGITUDE_FIELD - sLon * LONGITUDE_SQUARE
      - uLon * LONGITUDE_SUBSQUARE) / LONGITUDE_EXTSQUARE))
    (heLat : eLat = pyInt ((lat + 90 - fLat * LATITUDE_FIELD - sLat * LATITUDE_SQUARE
      - uLat * LATITUDE_SUBSQUARE) / LATITUDE_EXTSQUARE)) :
    to_grid_locator lat lon .extsquare
      = some (String.singleton (chr (fLon + 65)) ++ String.singleton (chr (fLat + 65))
          ++ toString sLon ++ toString sLat
          ++ String.singleton (chr (uLon + 97)) ++ String.singleton (chr (uLat + 97))
          ++ toString eLon ++ toString eLat) := by
  subst heLon heLat huLon huLat hsLon hsLat hfLon hfLat
  unfold to_grid_locator
  rw [if_neg (not_not_intro ⟨h1, h2⟩), if_neg (not_not_intro ⟨h3, h4⟩)]

/-- The latitude digit chain of the encoder: field, square, subsquare and
extsquare digits of `lat + 90` with the final remainder. -/
theorem lat_chain (lat : ℚ) (hlo : -90 ≤ lat) (hhi : lat ≤ 90) :
    ∃ (f s u e : ℤ) (r : ℚ),
      f = ⌊(lat + 90) / 10⌋ ∧
      s = ⌊(lat + 90 - f * 10) / 1⌋ ∧
      u = ⌊(lat + 90 - f * 10 - s * 1) / (1 / 24)⌋ ∧
      e = ⌊(lat + 90 - f * 10 - s * 1 - u * (1 / 24)) / (1 / 240)⌋ ∧
      (0 ≤ f ∧ f ≤ 18) ∧ (lat < 90 → f ≤ 17) ∧
      (0 ≤ s ∧ s ≤ 9) ∧ (0 ≤ u ∧ u ≤ 23) ∧ (0 ≤ e ∧ e ≤ 9) ∧
      (0 ≤ r ∧ r < 1 / 240) ∧
      lat + 90 = f * 10 + s * 1 + u * (1 / 24) + e * (1 / 240) + r := by
  obtain ⟨hf0, hf1, hA0, hA1⟩ :=
    extract_digit_le (x := lat + 90) (w := 10) 18 (by norm_num) (by linarith)
      (by push_cast; linarith)
  obtain ⟨hs0, hs1, hB0, hB1⟩ :=
    extract_digit (x := lat + 90 - ⌊(lat + 90) / 10⌋ * 10) (w := 1) 10
      (by norm_num) hA0 (by push_cast; linarith)
  obtain ⟨hu0, hu1, hC0, hC1⟩ :=
    extract_digit (x := lat + 90 - ⌊(lat + 90) / 10⌋ * 10
      - ⌊(lat + 90 - ⌊(lat + 90) / 10⌋ * 10) / 1⌋ * 1) (w := 1 / 24) 24
      (by norm_num) hB0 (by push_cast; linarith)
  obtain ⟨he0, he1, hD0, hD1⟩ :=
    extract_digit (x := lat + 90 - ⌊(lat + 90) / 10⌋ * 10
      - ⌊(lat + 90 - ⌊(lat + 90) / 10⌋ * 10) / 1⌋ * 1
      - ⌊(lat + 90 - ⌊(lat + 90) / 10⌋ * 10
          - ⌊(lat + 90 - ⌊(lat + 90) / 10⌋ * 10) / 1⌋ * 1) / (1 / 24)⌋ * (1 / 24))
      (w := 1 / 240) 10 (by norm_num) hC0 (by push_cast; linarith)
  refine ⟨_, _, _, _, _, rfl, rfl, rfl, rfl, ⟨hf0, hf1⟩, ?_, ⟨hs0, by omega⟩,
    ⟨hu0, by omega⟩, ⟨he0, by omega⟩, ⟨hD0, hD1⟩, by ring⟩
  intro hlt
  have : ⌊(lat + 90) / 10⌋ < 18 :=
    Int.floor_lt.mpr ((div_lt_iff₀ (by norm_num)).mpr (by push_cast; linarith))
  omega

/-- The longitude digit chain of the encoder. -/
theorem lon_chain (lon : ℚ) (hlo : -180 ≤ lon) (hhi : lon ≤ 180) :
    ∃ (f s u e : ℤ) (r : ℚ),
      f = ⌊(lon + 180) / 20⌋ ∧
      s = ⌊(lon + 180 - f * 20) / 2⌋ ∧
      u = ⌊(lon + 180 - f * 20 - s * 2) / (1 / 12)⌋ ∧
      e = ⌊(lon + 180 - f * 20 - s * 2 - u * (1 / 12)) / (1 / 120)⌋ ∧
      (0 ≤ f ∧ f ≤ 18) ∧ (lon < 180 → f ≤ 17) ∧
      (0 ≤ s ∧ s ≤ 9) ∧ (0 ≤ u ∧ u ≤ 23) ∧ (0 ≤ e ∧ e ≤ 9) ∧
      (0 ≤ r ∧ r < 1 / 120) ∧
      lon + 180 = f * 20 + s * 2 + u * (1 / 12) + e * (1 / 120) + r := by
  obtain ⟨hf0, hf1, hA0, hA1⟩ :=
    extract_digit_le (x := lon + 180) (w := 20) 18 (by norm_num) (by linarith)
      (by push_cast; linarith)
  obtain ⟨hs0, hs1, hB0, hB1⟩ :=
    extract_digit (x := lon + 180 - ⌊(lon + 180) / 20⌋ * 20) (w := 2) 10
      (by norm_num) hA0 (by push_cast; linarith)
  obtain ⟨hu0, hu1, hC0, hC1⟩ :=
    extract_digit (x := lon + 180 - ⌊(lon + 180) / 20⌋ * 20
      - ⌊(lon + 180 - ⌊(lon + 180) / 20⌋ * 20) / 2⌋ * 2) (w := 1 / 12) 24
      (by norm_num) hB0 (by push_cast; linarith)
  obtain ⟨he0, he1, hD0, hD1⟩ :=
    extract_digit (x := lon + 180 - ⌊(lon + 180) / 20⌋ * 20
      - ⌊(lon + 180 - ⌊(lon + 180) / 20⌋ * 20) / 2⌋ * 2
      - ⌊(lon + 180 - ⌊(lon + 180) / 20⌋ * 20
          - ⌊(lon + 180 - ⌊(lon + 180) / 20⌋ * 20) / 2⌋ * 2) / (1 / 12)⌋ * (1 / 12))
      (w := 1 / 120) 10 (by norm_num) hC0 (by push_cast; linarith)
  refine ⟨_, _, _, _, _, rfl, rfl, rfl, rfl, ⟨hf0, hf1⟩, ?_, ⟨hs0, by omega⟩,
    ⟨hu0, by omega⟩, ⟨he0, by omega⟩, ⟨hD0, hD1⟩, by ring⟩
  intro hlt
  have : ⌊(lon + 180) / 20⌋ < 18 :=
    Int.floor_lt.mpr ((div_lt_iff₀ (by norm_num)).mpr (by push_cast; linarith))
  omega

theorem LONGITUDE_SQUARE_val : LONGITUDE_SQUARE = 2 := by
  norm_num [LONGITUDE_SQUARE, LONGITUDE_FIELD]

theorem LATITUDE_SQUARE_val : LATITUDE_SQUARE = 1 := by
  norm_num [LATITUDE_SQUARE, LATITUDE_FIELD]

theorem LONGITUDE_SUBSQUARE_val : LONGITUDE_SUBSQUARE = 1 / 12 := by
  norm_num [LONGITUDE_SUBSQUARE, LONGITUDE_SQUARE, LONGITUDE_FIELD]

theorem LATITUDE_SUBSQUARE_val : LATITUDE_SUBSQUARE = 1 / 24 := by
  norm_num [LATITUDE_SUBSQUARE, LATITUDE_SQUARE, LATITUDE_FIELD]

theorem LONGITUDE_EXTSQUARE_val : LONGITUDE_EXTSQUARE = 1 / 120 := by
  norm_num [LONGITUDE_EXTSQUARE, LONGITUDE_SUBSQUARE, LONGITUDE_SQUARE, LONGITUDE_FIELD]

theorem LATITUDE_EXTSQUARE_val : LATITUDE_EXTSQUARE = 1 / 240 := by
  norm_num [LATITUDE_EXTSQUARE, LATITUDE_SUBSQUARE, LATITUDE_SQUARE, LATITUDE_FIELD]


/-- The locator character classes documented in section 3 of the spec:
positions 0-1 are letters `A`-`R`, 2-3 digits, 4-5 letters `a`-`x`,
6-7 digits. -/
def locatorCharClasses : List Char → Prop
  | [a, b, c, d] =>
      ('A' ≤ a ∧ a ≤ 'R') ∧ ('A' ≤ b ∧ b ≤ 'R') ∧
      ('0' ≤ c ∧ c ≤ '9') ∧ ('0' ≤ d ∧ d ≤ '9')
  | [a, b, c, d, e, f] =>
      ('A' ≤ a ∧ a ≤ 'R') ∧ ('A' ≤ b ∧ b ≤ 'R') ∧
      ('0' ≤ c ∧ c ≤ '9') ∧ ('0' ≤ d ∧ d ≤ '9') ∧
      ('a' ≤ e ∧ e ≤ 'x') ∧ ('a' ≤ f ∧ f ≤ 'x')
  | [a, b, c, d, e, f, g, h] =>
      ('A' ≤ a ∧ a ≤ 'R') ∧ ('A' ≤ b ∧ b ≤ 'R') ∧
      ('0' ≤ c ∧ c ≤ '9') ∧ ('0' ≤ d ∧ d ≤ '9') ∧
      ('a' ≤ e ∧ e ≤ 'x') ∧ ('a' ≤ f ∧ f ≤ 'x') ∧
      ('0' ≤ g ∧ g ≤ '9') ∧ ('0' ≤ h ∧ h ≤ '9')
  | _ => False

/-- Core round trip at `subsquare` precision: encoding then decoding lands
within half a subsquare of the original position. -/
theorem roundtrip_subsquare (lat lon : ℚ)
    (h1 : -90 ≤ lat) (h2 : lat < 90) (h3 : -180 ≤ lon) (h4 : lon < 180) :
    ∃ (s : String) (latD lonD : ℚ),
      to_grid_locator lat lon .subsquare = some s ∧
      locatorCharClasses s.data ∧
      from_grid_locator s = .ok (latD, lonD) ∧
      |lat - latD| ≤ LATITUDE_SUBSQUARE / 2 ∧ |lon - lonD| ≤ LONGITUDE_SUBSQUARE / 2 := by
  obtain ⟨fa, sa, ua, ea, ra, hfa, hsa, hua, hea, ⟨hfa0, hfa18⟩, hfaI, ⟨hsa0, hsa1⟩,
    ⟨hua0, hua1⟩, ⟨hea0, hea1⟩, ⟨hra0, hra1⟩, hsum_a⟩ := lat_chain lat h1 h2.le
  obtain ⟨fo, so, uo, eo, ro, hfo, hso, huo, heo, ⟨hfo0, hfo18⟩, hfoI, ⟨hso0, hso1⟩,
    ⟨huo0, huo1⟩, ⟨heo0, heo1⟩, ⟨hro0, hro1⟩, hsum_o⟩ := lon_chain lon h3 h4.le
  have hfa1 : fa ≤ 17 := hfaI h2
  have hfo1 : fo ≤ 17 := hfoI h4
  have hsa0Q : (0:ℚ) ≤ (sa : ℚ) := by exact_mod_cast hsa0
  have hua0Q : (0:ℚ) ≤ (ua : ℚ) := by exact_mod_cast hua0
  have hea0Q : (0:ℚ) ≤ (ea : ℚ) := by exact_mod_cast hea0
  have hea1Q : ((ea : ℚ)) ≤ 9 := by exact_mod_cast hea1
  have hso0Q : (0:ℚ) ≤ (so : ℚ) := by exact_mod_cast hso0
  have huo0Q : (0:ℚ) ≤ (uo : ℚ) := by exact_mod_cast huo0
  have heo0Q : (0:ℚ) ≤ (eo : ℚ) := by exact_mod_cast heo0
  have heo1Q : ((eo : ℚ)) ≤ 9 := by exact_mod_cast heo1
  have hremA1 : (0:ℚ) ≤ (lat + 90 - fa * 10) / 1 := by
    rw [div_one]; linarith
  have hremA2 : (0:ℚ) ≤ (lat + 90 - fa * 10 - sa * 1) / (1 / 24) := by
    apply div_nonneg _ (by norm_num)
    linarith
  have hremO1 : (0:ℚ) ≤ (lon + 180 - fo * 20) / 2 := by
    apply div_nonneg _ (by norm_num)
    linarith
  have hremO2 : (0:ℚ) ≤ (lon + 180 - fo * 20 - so * 2) / (1 / 12) := by
    apply div_nonneg _ (by norm_num)
    linarith
  have henc := to_grid_locator_subsquare_eq lat lon h1 h2.le h3 h4.le fo fa so sa uo ua
    (by rw [show LONGITUDE_FIELD = 20 from rfl,
        pyInt_of_nonneg (div_nonneg (by linarith) (by norm_num))]; exact hfo)
    (by rw [show LATITUDE_FIELD = 10 from rfl,
        pyInt_of_nonneg (div_nonneg (by linarith) (by norm_num))]; exact hfa)
    (by rw [show LONGITUDE_FIELD = 20 from rfl, LONGITUDE_SQUARE_val,
        pyInt_of_nonneg hremO1]; exact hso)
    (by rw [show LATITUDE_FIELD = 10 from rfl, LATITUDE_SQUARE_val,
        pyInt_of_nonneg hremA1]; exact hsa)
    (by rw [show LONGITUDE_FIELD = 20 from rfl, LONGITUDE_SQUARE_val,
        LONGITUDE_SUBSQUARE_val, pyInt_of_nonneg hremO2]; exact huo)
    (by rw [show LATITUDE_FIELD = 10 from rfl, LATITUDE_SQUARE_val,
        LATITUDE_SUBSQUARE_val, pyInt_of_nonneg hremA2]; exact hua)
  have hstr : String.singleton (chr (fo + 65)) ++ String.singleton (chr (fa + 65))
      ++ toString so ++ toString sa
      ++ String.singleton (chr (uo + 97)) ++ String.singleton (chr (ua + 97))
      = String.mk [chr (fo + 65), chr (fa + 65), chr (so + 48), chr (sa + 48),
          chr (uo + 97), chr (ua + 97)] := by
    apply String.ext
    simp [String.data_append, String.data_singleton,
      int_toString_digit hso0 hso1, int_toString_digit hsa0 hsa1]
  rw [hstr] at henc
  have hdec := from_grid_locator_six hfo0 hfo1 hfa0 hfa1 hso0 hso1 hsa0 hsa1
    huo0 huo1 hua0 hua1
  have hea0' : (0:ℚ) ≤ (ea : ℚ) := by exact_mod_cast hea0
  have hea1' : ((ea : ℚ)) ≤ 9 := by exact_mod_cast hea1
  have heo0' : (0:ℚ) ≤ (eo : ℚ) := by exact_mod_cast heo0
  have heo1' : ((eo : ℚ)) ≤ 9 := by exact_mod_cast heo1
  refine ⟨_, _, _, henc, ?_, hdec, ?_, ?_⟩
  · exact ⟨field_char_class hfo0 hfo1, field_char_class hfa0 hfa1,
      digit_char_class hso0 hso1, digit_char_class hsa0 hsa1,
      subsquare_char_class huo0 huo1, subsquare_char_class hua0 hua1⟩
  · rw [show LATITUDE_FIELD = 10 from rfl, LATITUDE_SQUARE_val,
      LATITUDE_SUBSQUARE_val, LATITUDE_EXTSQUARE_val, abs_le]
    constructor <;> linarith
  · rw [show LONGITUDE_FIELD = 20 from rfl, LONGITUDE_SQUARE_val,
      LONGITUDE_SUBSQUARE_val, LONGITUDE_EXTSQUARE_val, abs_le]
    constructor <;> linarith

/-- Core round trip at `square` precision: encoding succeeds, the characters
lie in the documented classes, and decoding accepts the string.  The decoded
point is made explicit (corner of the square plus five extsquare spans): it is
NOT the centre of the square. -/
theorem roundtrip_square (lat lon : ℚ)
    (h1 : -90 ≤ lat) (h2 : lat < 90) (h3 : -180 ≤ lon) (h4 : lon < 180) :
    ∃ (s : String) (latD lonD : ℚ),
      to_grid_locator lat lon .square = some s ∧
      locatorCharClasses s.data ∧
      from_grid_locator s = .ok (latD, lonD) := by
  obtain ⟨fa, sa, ua, ea, ra, hfa, hsa, hua, hea, ⟨hfa0, hfa18⟩, hfaI, ⟨hsa0, hsa1⟩,
    ⟨hua0, hua1⟩, ⟨hea0, hea1⟩, ⟨hra0, hra1⟩, hsum_a⟩ := lat_chain lat h1 h2.le
  obtain ⟨fo, so, uo, eo, ro, hfo, hso, huo, heo, ⟨hfo0, hfo18⟩, hfoI, ⟨hso0, hso1⟩,
    ⟨huo0, huo1⟩, ⟨heo0, heo1⟩, ⟨hro0, hro1⟩, hsum_o⟩ := lon_chain lon h3 h4.le
  have hfa1 : fa ≤ 17 := hfaI h2
  have hfo1 : fo ≤ 17 := hfoI h4
  have hsa0Q : (0:ℚ) ≤ (sa : ℚ) := by exact_mod_cast hsa0
  have hua0Q : (0:ℚ) ≤ (ua : ℚ) := by exact_mod_cast hua0
  have hea0Q : (0:ℚ) ≤ (ea : ℚ) := by exact_mod_cast hea0
  have hso0Q : (0:ℚ) ≤ (so : ℚ) := by exact_mod_cast hso0
  have huo0Q : (0:ℚ) ≤ (uo : ℚ) := by exact_mod_cast huo0
  have heo0Q : (0:ℚ) ≤ (eo : ℚ) := by exact_mod_cast heo0
  have hremA1 : (0:ℚ) ≤ (lat + 90 - fa * 10) / 1 := by
    rw [div_one]; linarith
  have hremO1 : (0:ℚ) ≤ (lon + 180 - fo * 20) / 2 := by
    apply div_nonneg _ (by norm_num)
    linarith
  have henc := to_grid_locator_square_eq lat lon h1 h2.le h3 h4.le fo fa so sa
    (by rw [show LONGITUDE_FIELD = 20 from rfl,
        pyInt_of_nonneg (div_nonneg (by linarith) (by norm_num))]; exact hfo)
    (by rw [show LATITUDE_FIELD = 10 from rfl,
        pyInt_of_nonneg (div_nonneg (by linarith) (by norm_num))]; exact hfa)
    (by rw [show LONGITUDE_FIELD = 20 from rfl, LONGITUDE_SQUARE_val,
        pyInt_of_nonneg hremO1]; exact hso)
    (by rw [show LATITUDE_FIELD = 10 from rfl, LATITUDE_SQUARE_val,
        pyInt_of_nonneg hremA1]; exact hsa)
  have hstr : String.singleton (chr (fo + 65)) ++ String.singleton (chr (fa + 65))
      ++ toString so ++ toString sa
      = String.mk [chr (fo + 65), chr (fa + 65), chr (so + 48), chr (sa + 48)] := by
    apply String.ext
    simp [String.data_append, String.data_singleton,
      int_toString_digit hso0 hso1, int_toString_digit hsa0 hsa1]
  rw [hstr] at henc
  have hdec := from_grid_locator_four hfo0 hfo1 hfa0 hfa1 hso0 hso1 hsa0 hsa1
  exact ⟨_, _, _, henc,
    ⟨field_char_class hfo0 hfo1, field_char_class hfa0 hfa1,
      digit_char_class hso0 hso1, digit_char_class hsa0 hsa1⟩, hdec⟩

/-- Core round trip at `extsquare` precision: encoding then decoding lands
within half an extsquare of the original position. -/
theorem roundtrip_extsquare (lat lon : ℚ)
    (h1 : -90 ≤ lat) (h2 : lat < 90) (h3 : -180 ≤ lon) (h4 : lon < 180) :
    ∃ (s : String) (latD lonD : ℚ),
      to_grid_locator lat lon .extsquare = some s ∧
      locatorCharClasses s.data ∧
      from_grid_locator s = .ok (latD, lonD) ∧
      |lat - latD| ≤ LATITUDE_EXTSQUARE / 2 ∧ |lon - lonD| ≤ LONGITUDE_EXTSQUARE / 2 := by
  obtain ⟨fa, sa, ua, ea, ra, hfa, hsa, hua, hea, ⟨hfa0, hfa18⟩, hfaI, ⟨hsa0, hsa1⟩,
    ⟨hua0, hua1⟩, ⟨hea0, hea1⟩, ⟨hra0, hra1⟩, hsum_a⟩ := lat_chain lat h1 h2.le
  obtain ⟨fo, so, uo, eo, ro, hfo, hso, huo, heo, ⟨hfo0, hfo18⟩, hfoI, ⟨hso0, hso1⟩,
    ⟨huo0, huo1⟩, ⟨heo0, heo1⟩, ⟨hro0, hro1⟩, hsum_o⟩ := lon_chain lon h3 h4.le
  have hfa1 : fa ≤ 17 := hfaI h2
  have hfo1 : fo ≤ 17 := hfoI h4
  have hsa0Q : (0:ℚ) ≤ (sa : ℚ) := by exact_mod_cast hsa0
  have hua0Q : (0:ℚ) ≤ (ua : ℚ) := by exact_mod_cast hua0
  have hua1Q : ((ua : ℚ)) ≤ 23 := by exact_mod_cast hua1
  have hea0Q : (0:ℚ) ≤ (ea : ℚ) := by exact_mod_cast hea0
  have hea1Q : ((ea : ℚ)) ≤ 9 := by exact_mod_cast hea1
  have hso0Q : (0:ℚ) ≤ (so : ℚ) := by exact_mod_cast hso0
  have huo0Q : (0:ℚ) ≤ (uo : ℚ) := by exact_mod_cast huo0
  have huo1Q : ((uo : ℚ)) ≤ 23 := by exact_mod_cast huo1
  have heo0Q : (0:ℚ) ≤ (eo : ℚ) := by exact_mod_cast heo0
  have heo1Q : ((eo : ℚ)) ≤ 9 := by exact_mod_cast heo1
  have hremA1 : (0:ℚ) ≤ (lat + 90 - fa * 10) / 1 := by
    rw [div_one]; linarith
  have hremA2 : (0:ℚ) ≤ (lat + 90 - fa * 10 - sa * 1) / (1 / 24) := by
    apply div_nonneg _ (by norm_num)
    linarith
  have hremA3 : (0:ℚ) ≤ (lat + 90 - fa * 10 - sa * 1 - ua * (1 / 24)) / (1 / 240) := by
    apply div_nonneg _ (by norm_num)
    linarith
  have hremO1 : (0:ℚ) ≤ (lon + 180 - fo * 20) / 2 := by
    apply div_nonneg _ (by norm_num)
    linarith
  have hremO2 : (0:ℚ) ≤ (lon + 180 - fo * 20 - so * 2) / (1 / 12) := by
    apply div_nonneg _ (by norm_num)
    linarith
  have hremO3 : (0:ℚ) ≤ (lon + 180 - fo * 20 - so * 2 - uo * (1 / 12)) / (1 / 120) := by
    apply div_nonneg _ (by norm_num)
    linarith
  have henc := to_grid_locator_extsquare_eq lat lon h1 h2.le h3 h4.le fo fa so sa uo ua eo ea
    (by rw [show LONGITUDE_FIELD = 20 from rfl,
        pyInt_of_nonneg (div_nonneg (by linarith) (by norm_num))]; exact hfo)
    (by rw [show LATITUDE_FIELD = 10 from rfl,
        pyInt_of_nonneg (div_nonneg (by linarith) (by norm_num))]; exact hfa)
    (by rw [show LONGITUDE_FIELD = 20 from rfl, LONGITUDE_SQUARE_val,
        pyInt_of_nonneg hremO1]; exact hso)
    (by rw [show LATITUDE_FIELD = 10 from rfl, LATITUDE_SQUARE_val,
        pyInt_of_nonneg hremA1]; exact hsa)
    (by rw [show LONGITUDE_FIELD = 20 from rfl, LONGITUDE_SQUARE_val,
        LONGITUDE_SUBSQUARE_val, pyInt_of_nonneg hremO2]; exact huo)
    (by rw [show LATITUDE_FIELD = 10 from rfl, LATITUDE_SQUARE_val,
        LATITUDE_SUBSQUARE_val, pyInt_of_nonneg hremA2]; exact hua)
    (by rw [show LONGITUDE_FIELD = 20 from rfl, LONGITUDE_SQUARE_val,
        LONGITUDE_SUBSQUARE_val, LONGITUDE_EXTSQUARE_val, pyInt_of_nonneg hremO3]; exact heo)
    (by rw [show LATITUDE_FIELD = 10 from rfl, LATITUDE_SQUARE_val,
        LATITUDE_SUBSQUARE_val, LATITUDE_EXTSQUARE_val, pyInt_of_nonneg hremA3]; exact hea)
  have hstr : String.singleton (chr (fo + 65)) ++ String.singleton (chr (fa + 65))
      ++ toString so ++ toString sa
      ++ String.singleton (chr (uo + 97)) ++ String.singleton (chr (ua + 97))
      ++ toString eo ++ toString ea
      = String.mk [chr (fo + 65), chr (fa + 65), chr (so + 48), chr (sa + 48),
          chr (uo + 97), chr (ua + 97), chr (eo + 48), chr (ea + 48)] := by
    apply String.ext
    simp [String.data_append, String.data_singleton,
      int_toString_digit hso0 hso1, int_toString_digit hsa0 hsa1,
      int_toString_digit heo0 heo1, int_toString_digit hea0 hea1]
  rw [hstr] at henc
  have hdec := from_grid_locator_eight hfo0 hfo1 hfa0 hfa1 hso0 hso1 hsa0 hsa1
    huo0 huo1 hua0 hua1 heo0 heo1 hea0 hea1
  refine ⟨_, _, _, henc, ?_, hdec, ?_, ?_⟩
  · exact ⟨field_char_class hfo0 hfo1, field_char_class hfa0 hfa1,
      digit_char_class hso0 hso1, digit_char_class hsa0 hsa1,
      subsquare_char_class huo0 huo1, subsquare_char_class hua0 hua1,
      digit_char_class heo0 heo1, digit_char_class hea0 hea1⟩
  · rw [show LATITUDE_FIELD = 10 from rfl, LATITUDE_SQUARE_val,
      LATITUDE_SUBSQUARE_val, LATITUDE_EXTSQUARE_val, abs_le]
    constructor <;> linarith
  · rw [show LONGITUDE_FIELD = 20 from rfl, LONGITUDE_SQUARE_val,
      LONGITUDE_SUBSQUARE_val, LONGITUDE_EXTSQUARE_val, abs_le]
    constructor <;> linarith

/-- A 4-character locator whose field letters go up to `S` (code 18) is
rejected with the invalid-values error when either field is `S`. -/
theorem from_grid_locator_reject_four {f g s t : ℤ}
    (hf0 : 0 ≤ f) (hf18 : f ≤ 18) (hg0 : 0 ≤ g) (hg18 : g ≤ 18)
    (hbad : f = 18 ∨ g = 18)
    (hs0 : 0 ≤ s) (hs1 : s ≤ 9) (ht0 : 0 ≤ t) (ht1 : t ≤ 9) :
    from_grid_locator ⟨[chr (f + 65), chr (g + 65), chr (s + 48), chr (t + 48)]⟩
      = .error .badValues := by
  unfold from_grid_locator
  have hd : (String.mk [chr (f + 65), chr (g + 65), chr (s + 48), chr (t + 48)]).data
      = [chr (f + 65), chr (g + 65), chr (s + 48), chr (t + 48)] := rfl
  simp only [hd, digitVal_digit_char hs0 hs1, digitVal_digit_char ht0 ht1,
    decode_field_char hf0 hf18, decode_field_char hg0 hg18]
  rw [if_pos (by omega)]

/-- 6-character variant of the rejection lemma. -/
theorem from_grid_locator_reject_six {f g s t u v : ℤ}
    (hf0 : 0 ≤ f) (hf18 : f ≤ 18) (hg0 : 0 ≤ g) (hg18 : g ≤ 18)
    (hbad : f = 18 ∨ g = 18)
    (hs0 : 0 ≤ s) (hs1 : s ≤ 9) (ht0 : 0 ≤ t) (ht1 : t ≤ 9)
    (hu0 : 0 ≤ u) (hu1 : u ≤ 23) (hv0 : 0 ≤ v) (hv1 : v ≤ 23) :
    from_grid_locator ⟨[chr (f + 65), chr (g + 65), chr (s + 48), chr (t + 48),
        chr (u + 97), chr (v + 97)]⟩
      = .error .badValues := by
  unfold from_grid_locator
  have hd : (String.mk [chr (f + 65), chr (g + 65), chr (s + 48), chr (t + 48),
      chr (u + 97), chr (v + 97)]).data
      = [chr (f + 65), chr (g + 65), chr (s + 48), chr (t + 48),
         chr (u + 97), chr (v + 97)] := rfl
  simp only [hd, digitVal_digit_char hs0 hs1, digitVal_digit_char ht0 ht1,
    decode_field_char hf0 hf18, decode_field_char hg0 hg18,
    decode_subsquare_char hu0 hu1, decode_subsquare_char hv0 hv1]
  rw [if_pos (by omega)]

/-- 8-character variant of the rejection lemma. -/
theorem from_grid_locator_reject_eight {f g s t u v w x : ℤ}
    (hf0 : 0 ≤ f) (hf18 : f ≤ 18) (hg0 : 0 ≤ g) (hg18 : g ≤ 18)
    (hbad : f = 18 ∨ g = 18)
    (hs0 : 0 ≤ s) (hs1 : s ≤ 9) (ht0 : 0 ≤ t) (ht1 : t ≤ 9)
    (hu0 : 0 ≤ u) (hu1 : u ≤ 23) (hv0 : 0 ≤ v) (hv1 : v ≤ 23)
    (hw0 : 0 ≤ w) (hw1 : w ≤ 9) (hx0 : 0 ≤ x) (hx1 : x ≤ 9) :
    from_grid_locator ⟨[chr (f + 65), chr (g + 65), chr (s + 48), chr (t + 48),
        chr (u + 97), chr (v + 97), chr (w + 48), chr (x + 48)]⟩
      = .error .badValues := by
  unfold from_grid_locator
  have hd : (String.mk [chr (f + 65), chr (g + 65), chr (s + 48), chr (t + 48),
      chr (u + 97), chr (v + 97), chr (w + 48), chr (x + 48)]).data
      = [chr (f + 65), chr (g + 65), chr (s + 48), chr (t + 48),
         chr (u + 97), chr (v + 97), chr (w + 48), chr (x + 48)] := rfl
  simp only [hd, digitVal_digit_char hs0 hs1, digitVal_digit_char ht0 ht1,
    digitVal_digit_char hw0 hw1, digitVal_digit_char hx0 hx1,
    decode_field_char hf0 hf18, decode_field_char hg0 hg18,
    decode_subsquare_char hu0 hu1, decode_subsquare_char hv0 hv1]
  rw [if_pos (by omega)]

/-- At latitude exactly `90` the encoder emits the out-of-range field letter
`S` at position 1, for every precision and every in-range longitude, and the
decoder rejects the result. -/
theorem to_grid_locator_lat_90 (lon : ℚ) (h3 : -180 ≤ lon) (h4 : lon ≤ 180)
    (p : Precision) :
    ∃ s, to_grid_locator 90 lon p = some s ∧ s.data[1]? = some 'S' ∧
      from_grid_locator s = .error .badValues := by
  obtain ⟨fo, so, uo, eo, ro, hfo, hso, huo, heo, ⟨hfo0, hfo18⟩, hfoI, ⟨hso0, hso1⟩,
    ⟨huo0, huo1⟩, ⟨heo0, heo1⟩, ⟨hro0, hro1⟩, hsum_o⟩ := lon_chain lon h3 h4
  have hso0Q : (0:ℚ) ≤ (so : ℚ) := by exact_mod_cast hso0
  have huo0Q : (0:ℚ) ≤ (uo : ℚ) := by exact_mod_cast huo0
  have heo0Q : (0:ℚ) ≤ (eo : ℚ) := by exact_mod_cast heo0
  have hremO1 : (0:ℚ) ≤ (lon + 180 - fo * 20) / 2 := by
    apply div_nonneg _ (by norm_num)
    linarith
  have hremO2 : (0:ℚ) ≤ (lon + 180 - fo * 20 - so * 2) / (1 / 12) := by
    apply div_nonneg _ (by norm_num)
    linarith
  have hremO3 : (0:ℚ) ≤ (lon + 180 - fo * 20 - so * 2 - uo * (1 / 12)) / (1 / 120) := by
    apply div_nonneg _ (by norm_num)
    linarith
  have hFo : fo = pyInt ((lon + 180) / LONGITUDE_FIELD) := by
    rw [show LONGITUDE_FIELD = 20 from rfl,
      pyInt_of_nonneg (div_nonneg (by linarith) (by norm_num))]; exact hfo
  have hSo : so = pyInt ((lon + 180 - fo * LONGITUDE_FIELD) / LONGITUDE_SQUARE) := by
    rw [show LONGITUDE_FIELD = 20 from rfl, LONGITUDE_SQUARE_val,
      pyInt_of_nonneg hremO1]; exact hso
  have hUo : uo = pyInt ((lon + 180 - fo * LONGITUDE_FIELD - so * LONGITUDE_SQUARE)
      / LONGITUDE_SUBSQUARE) := by
    rw [show LONGITUDE_FIELD = 20 from rfl, LONGITUDE_SQUARE_val,
      LONGITUDE_SUBSQUARE_val, pyInt_of_nonneg hremO2]; exact huo
  have hEo : eo = pyInt ((lon + 180 - fo * LONGITUDE_FIELD - so * LONGITUDE_SQUARE
      - uo * LONGITUDE_SUBSQUARE) / LONGITUDE_EXTSQUARE) := by
    rw [show LONGITUDE_FIELD = 20 from rfl, LONGITUDE_SQUARE_val,
      LONGITUDE_SUBSQUARE_val, LONGITUDE_EXTSQUARE_val, pyInt_of_nonneg hremO3]; exact heo
  have hFa : (18 : ℤ) = pyInt (((90:ℚ) + 90) / LATITUDE_FIELD) := by
    rw [show LATITUDE_FIELD = 10 from rfl]
    norm_num [pyInt]
  have hSa : (0 : ℤ) = pyInt (((90:ℚ) + 90 - (18:ℤ) * LATITUDE_FIELD) / LATITUDE_SQUARE) := by
    rw [show LATITUDE_FIELD = 10 from rfl, LATITUDE_SQUARE_val]
    norm_num [pyInt]
  have hUa : (0 : ℤ) = pyInt (((90:ℚ) + 90 - (18:ℤ) * LATITUDE_FIELD
      - (0:ℤ) * LATITUDE_SQUARE) / LATITUDE_SUBSQUARE) := by
    rw [show LATITUDE_FIELD = 10 from rfl, LATITUDE_SQUARE_val, LATITUDE_SUBSQUARE_val]
    norm_num [pyInt]
  have hEa : (0 : ℤ) = pyInt (((90:ℚ) + 90 - (18:ℤ) * LATITUDE_FIELD
      - (0:ℤ) * LATITUDE_SQUARE - (0:ℤ) * LATITUDE_SUBSQUARE) / LATITUDE_EXTSQUARE) := by
    rw [show LATITUDE_FIELD = 10 from rfl, LATITUDE_SQUARE_val, LATITUDE_SUBSQUARE_val,
      LATITUDE_EXTSQUARE_val]
    norm_num [pyInt]
  cases p with
  | square =>
    have henc := to_grid_locator_square_eq 90 lon (by norm_num) (by norm_num) h3 h4
      fo 18 so 0 hFo hFa hSo hSa
    have hstr : String.singleton (chr (fo + 65)) ++ String.singleton (chr (18 + 65))
        ++ toString so ++ toString (0 : ℤ)
        = String.mk [chr (fo + 65), chr (18 + 65), chr (so + 48), chr (0 + 48)] := by
      apply String.ext
      simp [String.data_append, String.data_singleton,
        int_toString_digit hso0 hso1,
        int_toString_digit (le_refl (0:ℤ)) (by norm_num : (0:ℤ) ≤ 9)]
    rw [hstr] at henc
    refine ⟨_, henc, by rfl, ?_⟩
    exact from_grid_locator_reject_four hfo0 hfo18 (by norm_num) (by norm_num)
      (Or.inr rfl) hso0 hso1 (le_refl _) (by norm_num)
  | subsquare =>
    have henc := to_grid_locator_subsquare_eq 90 lon (by norm_num) (by norm_num) h3 h4
      fo 18 so 0 uo 0 hFo hFa hSo hSa hUo hUa
    have hstr : String.singleton (chr (fo + 65)) ++ String.singleton (chr (18 + 65))
        ++ toString so ++ toString (0 : ℤ)
        ++ String.singleton (chr (uo + 97)) ++ String.singleton (chr ((0:ℤ) + 97))
        = String.mk [chr (fo + 65), chr (18 + 65), chr (so + 48), chr (0 + 48),
            chr (uo + 97), chr (0 + 97)] := by
      apply String.ext
      simp [String.data_append, String.data_singleton,
        int_toString_digit hso0 hso1,
        int_toString_digit (le_refl (0:ℤ)) (by norm_num : (0:ℤ) ≤ 9)]
    rw [hstr] at henc
    refine ⟨_, henc, by rfl, ?_⟩
    exact from_grid_locator_reject_six hfo0 hfo18 (by norm_num) (by norm_num)
      (Or.inr rfl) hso0 hso1 (le_refl _) (by norm_num)
      huo0 huo1 (le_refl _) (by norm_num)
  | extsquare =>
    have henc := to_grid_locator_extsquare_eq 90 lon (by norm_num) (by norm_num) h3 h4
      fo 18 so 0 uo 0 eo 0 hFo hFa hSo hSa hUo hUa hEo hEa
    have hstr : String.singleton (chr (fo + 65)) ++ String.singleton (chr (18 + 65))
        ++ toString so ++ toString (0 : ℤ)
        ++ String.singleton (chr (uo + 97)) ++ String.singleton (chr ((0:ℤ) + 97))
        ++ toString eo ++ toString (0 : ℤ)
        = String.mk [chr (fo + 65), chr (18 + 65), chr (so + 48), chr (0 + 48),
            chr (uo + 97), chr (0 + 97), chr (eo + 48), chr (0 + 48)] := by
      apply String.ext
      simp [String.data_append, String.data_singleton,
        int_toString_digit hso0 hso1, int_toString_digit heo0 heo1,
        int_toString_digit (le_refl (0:ℤ)) (by norm_num : (0:ℤ) ≤ 9)]
    rw [hstr] at henc
    refine ⟨_, henc, by rfl, ?_⟩
    exact from_grid_locator_reject_eight hfo0 hfo18 (by norm_num) (by norm_num)
      (Or.inr rfl) hso0 hso1 (le_refl _) (by norm_num)
      huo0 huo1 (le_refl _) (by norm_num)
      heo0 heo1 (le_refl _) (by norm_num)

/-- At longitude exactly `180` the encoder emits the out-of-range field
letter `S` at position 0, for every precision and every in-range latitude,
and the decoder rejects the result. -/
theorem to_grid_locator_lon_180 (lat : ℚ) (h1 : -90 ≤ lat) (h2 : lat ≤ 90)
    (p : Precision) :
    ∃ s, to_grid_locator lat 180 p = some s ∧ s.data[0]? = some 'S' ∧
      from_grid_locator s = .error .badValues := by
  obtain ⟨fa, sa, ua, ea, ra, hfa, hsa, hua, hea, ⟨hfa0, hfa18⟩, hfaI, ⟨hsa0, hsa1⟩,
    ⟨hua0, hua1⟩, ⟨hea0, hea1⟩, ⟨hra0, hra1⟩, hsum_a⟩ := lat_chain lat h1 h2
  have hsa0Q : (0:ℚ) ≤ (sa : ℚ) := by exact_mod_cast hsa0
  have hua0Q : (0:ℚ) ≤ (ua : ℚ) := by exact_mod_cast hua0
  have hea0Q : (0:ℚ) ≤ (ea : ℚ) := by exact_mod_cast hea0
  have hremA1 : (0:ℚ) ≤ (lat + 90 - fa * 10) / 1 := by
    rw [div_one]; linarith
  have hremA2 : (0:ℚ) ≤ (lat + 90 - fa * 10 - sa * 1) / (1 / 24) := by
    apply div_nonneg _ (by norm_num)
    linarith
  have hremA3 : (0:ℚ) ≤ (lat + 90 - fa * 10 - sa * 1 - ua * (1 / 24)) / (1 / 240) := by
    apply div_nonneg _ (by norm_num)
    linarith
  have hFa : fa = pyInt ((lat + 90) / LATITUDE_FIELD) := by
    rw [show LATITUDE_FIELD = 10 from rfl,
      pyInt_of_nonneg (div_nonneg (by linarith) (by norm_num))]; exact hfa
  have hSa : sa = pyInt ((lat + 90 - fa * LATITUDE_FIELD) / LATITUDE_SQUARE) := by
    rw [show LATITUDE_FIELD = 10 from rfl, LATITUDE_SQUARE_val,
      pyInt_of_nonneg hremA1]; exact hsa
  have hUa : ua = pyInt ((lat + 90 - fa * LATITUDE_FIELD - sa * LATITUDE_SQUARE)
      / LATITUDE_SUBSQUARE) := by
    rw [show LATITUDE_FIELD = 10 from rfl, LATITUDE_SQUARE_val,
      LATITUDE_SUBSQUARE_val, pyInt_of_nonneg hremA2]; exact hsa ▸ hua
  have hEa : ea = pyInt ((lat + 90 - fa * LATITUDE_FIELD - sa * LATITUDE_SQUARE
      - ua * LATITUDE_SUBSQUARE) / LATITUDE_EXTSQUARE) := by
    rw [show LATITUDE_FIELD = 10 from rfl, LATITUDE_SQUARE_val,
      LATITUDE_SUBSQUARE_val, LATITUDE_EXTSQUARE_val, pyInt_of_nonneg hremA3]; exact hea
  have hFo : (18 : ℤ) = pyInt (((180:ℚ) + 180) / LONGITUDE_FIELD) := by
    rw [show LONGITUDE_FIELD = 20 from rfl]
    norm_num [pyInt]
  have hSo : (0 : ℤ) = pyInt (((180:ℚ) + 180 - (18:ℤ) * LONGITUDE_FIELD)
      / LONGITUDE_SQUARE) := by
    rw [show LONGITUDE_FIELD = 20 from rfl, LONGITUDE_SQUARE_val]
    norm_num [pyInt]
  have hUo : (0 : ℤ) = pyInt (((180:ℚ) + 180 - (18:ℤ) * LONGITUDE_FIELD
      - (0:ℤ) * LONGITUDE_SQUARE) / LONGITUDE_SUBSQUARE) := by
    rw [show LONGITUDE_FIELD = 20 from rfl, LONGITUDE_SQUARE_val, LONGITUDE_SUBSQUARE_val]
    norm_num [pyInt]
  have hEo : (0 : ℤ) = pyInt (((180:ℚ) + 180 - (18:ℤ) * LONGITUDE_FIELD
      - (0:ℤ) * LONGITUDE_SQUARE - (0:ℤ) * LONGITUDE_SUBSQUARE) / LONGITUDE_EXTSQUARE) := by
    rw [show LONGITUDE_FIELD = 20 from rfl, LONGITUDE_SQUARE_val, LONGITUDE_SUBSQUARE_val,
      LONGITUDE_EXTSQUARE_val]
    norm_num [pyInt]
  cases p with
  | square =>
    have henc := to_grid_locator_square_eq lat 180 h1 h2 (by norm_num) (by norm_num)
      18 fa 0 sa hFo hFa hSo hSa
    have hstr : String.singleton (chr (18 + 65)) ++ String.singleton (chr (fa + 65))
        ++ toString (0 : ℤ) ++ toString sa
        = String.mk [chr (18 + 65), chr (fa + 65), chr (0 + 48), chr (sa + 48)] := by
      apply String.ext
      simp [String.data_append, String.data_singleton,
        int_toString_digit hsa0 hsa1,
        int_toString_digit (le_refl (0:ℤ)) (by norm_num : (0:ℤ) ≤ 9)]
    rw [hstr] at henc
    refine ⟨_, henc, by rfl, ?_⟩
    exact from_grid_locator_reject_four (by norm_num) (by norm_num) hfa0 hfa18
      (Or.inl rfl) (le_refl _) (by norm_num) hsa0 hsa1
  | subsquare =>
    have henc := to_grid_locator_subsquare_eq lat 180 h1 h2 (by norm_num) (by norm_num)
      18 fa 0 sa 0 ua hFo hFa hSo hSa hUo hUa
    have hstr : String.singleton (chr (18 + 65)) ++ String.singleton (chr (fa + 65))
        ++ toString (0 : ℤ) ++ toString sa
        ++ String.singleton (chr ((0:ℤ) + 97)) ++ String.singleton (chr (ua + 97))
        = String.mk [chr (18 + 65), chr (fa + 65), chr (0 + 48), chr (sa + 48),
            chr (0 + 97), chr (ua + 97)] := by
      apply String.ext
      simp [String.data_append, String.data_singleton,
        int_toString_digit hsa0 hsa1,
        int_toString_digit (le_refl (0:ℤ)) (by norm_num : (0:ℤ) ≤ 9)]
    rw [hstr] at henc
    refine ⟨_, henc, by rfl, ?_⟩
    exact from_grid_locator_reject_six (by norm_num) (by norm_num) hfa0 hfa18
      (Or.inl rfl) (le_refl _) (by norm_num) hsa0 hsa1
      (le_refl _) (by norm_num) hua0 hua1
  | extsquare =>
    have henc := to_grid_locator_extsquare_eq lat 180 h1 h2 (by norm_num) (by norm_num)
      18 fa 0 sa 0 ua 0 ea hFo hFa hSo hSa hUo hUa hEo hEa
    have hstr : String.singleton (chr (18 + 65)) ++ String.singleton (chr (fa + 65))
        ++ toString (0 : ℤ) ++ toString sa
        ++ String.singleton (chr ((0:ℤ) + 97)) ++ String.singleton (chr (ua + 97))
        ++ toString (0 : ℤ) ++ toString ea
        = String.mk [chr (18 + 65), chr (fa + 65), chr (0 + 48), chr (sa + 48),
            chr (0 + 97), chr (ua + 97), chr (0 + 48), chr (ea + 48)] := by
      apply String.ext
      simp [String.data_append, String.data_singleton,
        int_toString_digit hsa0 hsa1, int_toString_digit hea0 hea1,
        int_toString_digit (le_refl (0:ℤ)) (by norm_num : (0:ℤ) ≤ 9)]
    rw [hstr] at henc
    refine ⟨_, henc, by rfl, ?_⟩
    exact from_grid_locator_reject_eight (by norm_num) (by norm_num) hfa0 hfa18
      (Or.inl rfl) (le_refl _) (by norm_num) hsa0 hsa1
      (le_refl _) (by norm_num) hua0 hua1
      (le_refl _) (by norm_num) hea0 hea1

/-- Latitude span of one cell at each precision (degrees). -/
def cellHeight : Precision → ℚ
  | .square => LATITUDE_SQUARE
  | .subsquare => LATITUDE_SUBSQUARE
  | .extsquare => LATITUDE_EXTSQUARE

/-- Longitude span of one cell at each precision (degrees). -/
def cellWidth : Precision → ℚ
  | .square => LONGITUDE_SQUARE
  | .subsquare => LONGITUDE_SUBSQUARE
  | .extsquare => LONGITUDE_EXTSQUARE

/-- C1 (counterexample): at `square` precision the round trip
`from_grid_locator (to_grid_locator lat lon)` can land almost a full cell
away from the original position: encoding `(0.9, 0)` gives `JJ00`, which
decodes to `(1/48, 1/24)`, and `|0.9 - 1/48| = 211/240 > 1/2`, more than
half the 1-degree latitude cell at `square` precision.  This refutes the
claim for the `square` precision level. -/
theorem c1_counterexample :
    to_grid_locator (9/10 : ℚ) 0 .square = some "JJ00" ∧
    from_grid_locator "JJ00" = .ok (1/48, 1/24) ∧
    ¬ |(9/10 : ℚ) - 1/48| ≤ cellHeight .square / 2 := by
  refine ⟨?_, ?_, ?_⟩
  · have henc := to_grid_locator_square_eq (9/10) 0 (by norm_num) (by norm_num)
      (by norm_num) (by norm_num) 9 9 0 0
      (by rw [show LONGITUDE_FIELD = 20 from rfl]; norm_num [pyInt])
      (by rw [show LATITUDE_FIELD = 10 from rfl]; norm_num [pyInt])
      (by rw [show LONGITUDE_FIELD = 20 from rfl, LONGITUDE_SQUARE_val]; norm_num [pyInt])
      (by rw [show LATITUDE_FIELD = 10 from rfl, LATITUDE_SQUARE_val]; norm_num [pyInt])
    rw [henc]
    congr 1
  · have : "JJ00" = String.mk [chr (9 + 65), chr (9 + 65), chr (0 + 48), chr (0 + 48)] := by
      decide
    rw [this, from_grid_locator_four (by norm_num) (by norm_num) (by norm_num) (by norm_num)
      (by norm_num) (by norm_num) (by norm_num) (by norm_num)]
    congr 1
    rw [show LATITUDE_FIELD = 10 from rfl, show LONGITUDE_FIELD = 20 from rfl,
      LATITUDE_SQUARE_val, LONGITUDE_SQUARE_val, LATITUDE_EXTSQUARE_val,
      LONGITUDE_EXTSQUARE_val]
    norm_num
  · rw [show cellHeight .square = LATITUDE_SQUARE from rfl, LATITUDE_SQUARE_val]
    rw [abs_of_nonneg (by norm_num)]
    norm_num

/-- C1 (amended): for every latitude in `[-90, 90)`, longitude in
`[-180, 180)` and precision `subsquare` or `extsquare`, decoding the locator
produced by encoding the position returns a point whose latitude and
longitude lie within half a cell at that precision of the original.  (The
claim fails at `square` precision, where the decoded point is the corner of
the square plus half a subsquare, and at the inclusive upper boundaries 90 /
180, where the emitted locator is rejected by the decoder.) -/
theorem c1_roundtrip_amended (lat lon : ℚ) (p : Precision)
    (h1 : -90 ≤ lat) (h2 : lat < 90) (h3 : -180 ≤ lon) (h4 : lon < 180)
    (hp : p = .subsquare ∨ p = .extsquare) :
    ∃ (s : String) (latD lonD : ℚ),
      to_grid_locator lat lon p = some s ∧
      from_grid_locator s = .ok (latD, lonD) ∧
      |lat - latD| ≤ cellHeight p / 2 ∧ |lon - lonD| ≤ cellWidth p / 2 := by
  rcases hp with rfl | rfl
  · obtain ⟨s, latD, lonD, he, -, hd, hb1, hb2⟩ := roundtrip_subsquare lat lon h1 h2 h3 h4
    exact ⟨s, latD, lonD, he, hd, hb1, hb2⟩
  · obtain ⟨s, latD, lonD, he, -, hd, hb1, hb2⟩ := roundtrip_extsquare lat lon h1 h2 h3 h4
    exact ⟨s, latD, lonD, he, hd, hb1, hb2⟩

/-- C1 (witness): the amended round trip at the spec's own example
`(21.319, -157.904)` at `extsquare` precision. -/
theorem c1_roundtrip_witness :
    ∃ (s : String) (latD lonD : ℚ),
      to_grid_locator (21319/1000 : ℚ) (-157904/1000) .extsquare = some s ∧
      from_grid_locator s = .ok (latD, lonD) ∧
      |(21319/1000 : ℚ) - latD| ≤ cellHeight .extsquare / 2 ∧
      |(-157904/1000 : ℚ) - lonD| ≤ cellWidth .extsquare / 2 :=
  c1_roundtrip_amended (21319/1000) (-157904/1000) .extsquare
    (by norm_num) (by norm_num) (by norm_num) (by norm_num) (Or.inr rfl)

/-- C10: `to_grid_locator` accepts the inclusive boundaries `latitude = 90`
and `longitude = 180` but there emits the field letter `S` (ordinal 18,
beyond `A`-`R`), which `from_grid_locator` rejects as invalid; for every
latitude in `[-90, 90)` and longitude in `[-180, 180)` every emitted
character lies in the documented character classes and the result is
accepted by `from_grid_locator`. -/
theorem c10_boundary_S_and_classes :
    (∀ (lat lon : ℚ) (p : Precision), -90 ≤ lat → lat < 90 → -180 ≤ lon → lon < 180 →
      ∃ s, to_grid_locator lat lon p = some s ∧ locatorCharClasses s.data ∧
        ∃ v, from_grid_locator s = .ok v) ∧
    (∀ (lon : ℚ) (p : Precision), -180 ≤ lon → lon ≤ 180 →
      ∃ s, to_grid_locator 90 lon p = some s ∧ s.data[1]? = some 'S' ∧
        from_grid_locator s = .error .badValues) ∧
    (∀ (lat : ℚ) (p : Precision), -90 ≤ lat → lat ≤ 90 →
      ∃ s, to_grid_locator lat 180 p = some s ∧ s.data[0]? = some 'S' ∧
        from_grid_locator s = .error .badValues) := by
  refine ⟨?_, ?_, ?_⟩
  · intro lat lon p h1 h2 h3 h4
    cases p with
    | square =>
      obtain ⟨s, latD, lonD, he, hc, hd⟩ := roundtrip_square lat lon h1 h2 h3 h4
      exact ⟨s, he, hc, _, hd⟩
    | subsquare =>
      obtain ⟨s, latD, lonD, he, hc, hd, -, -⟩ := roundtrip_subsquare lat lon h1 h2 h3 h4
      exact ⟨s, he, hc, _, hd⟩
    | extsquare =>
      obtain ⟨s, latD, lonD, he, hc, hd, -, -⟩ := roundtrip_extsquare lat lon h1 h2 h3 h4
      exact ⟨s, he, hc, _, hd⟩
  · intro lon p h3 h4
    exact to_grid_locator_lat_90 lon h3 h4 p
  · intro lat p h1 h2
    exact to_grid_locator_lon_180 lat h1 h2 p

/-- C10 (witness): the three parts of the boundary claim at concrete
inputs: interior point `(0, 0)`, the latitude boundary at longitude `0`,
and the longitude boundary at latitude `0`, all at `square` precision. -/
theorem c10_boundary_witness :
    (∃ s, to_grid_locator 0 0 .square = some s ∧ locatorCharClasses s.data ∧
      ∃ v, from_grid_locator s = .ok v) ∧
    (∃ s, to_grid_locator 90 0 .square = some s ∧ s.data[1]? = some 'S' ∧
      from_grid_locator s = .error .badValues) ∧
    (∃ s, to_grid_locator 0 180 .square = some s ∧ s.data[0]? = some 'S' ∧
      from_grid_locator s = .error .badValues) :=
  ⟨c10_boundary_S_and_classes.1 0 0 .square (by norm_num) (by norm_num)
      (by norm_num) (by norm_num),
   c10_boundary_S_and_classes.2.1 0 .square (by norm_num) (by norm_num),
   c10_boundary_S_and_classes.2.2 0 .square (by norm_num) (by norm_num)⟩

/-- C2 (counterexample): `from_grid_locator` does not return the centre of
the smallest resolved cell for a 4-character locator: `IO92` decodes to
`(2497/48, -47/24) = (52.0208.., -1.9583..)`, whereas the centre of square
`IO92` is `(52.5, -1)`.  (This matches the doctest `from_grid_locator("IO92")
= 52.021, -1.958`.) -/
theorem c2_counterexample :
    from_grid_locator "IO92" = .ok (2497/48, -47/24) ∧
    ((2497:ℚ)/48 ≠ 105/2 ∨ (-47:ℚ)/24 ≠ -1) := by
  constructor
  · have : "IO92" = String.mk [chr (8 + 65), chr (14 + 65), chr (9 + 48), chr (2 + 48)] := by
      decide
    rw [this, from_grid_locator_four (by norm_num) (by norm_num) (by norm_num) (by norm_num)
      (by norm_num) (by norm_num) (by norm_num) (by norm_num)]
    congr 1
    rw [show LATITUDE_FIELD = 10 from rfl, show LONGITUDE_FIELD = 20 from rfl,
      LATITUDE_SQUARE_val, LONGITUDE_SQUARE_val, LATITUDE_EXTSQUARE_val,
      LONGITUDE_EXTSQUARE_val]
    norm_num
  · left
    norm_num

/-- C2 (amended): `from_grid_locator` returns the centre of the smallest
resolved cell for 6- and 8-character locators; for a 4-character locator it
instead returns the corner of the square offset by five extsquares (half a
subsquare: `1/48` degree latitude, `1/24` degree longitude), which is not
the centre of the square. -/
theorem c2_decode_amended :
    (∀ f g s t : ℤ, 0 ≤ f → f ≤ 17 → 0 ≤ g → g ≤ 17 → 0 ≤ s → s ≤ 9 → 0 ≤ t → t ≤ 9 →
      from_grid_locator ⟨[chr (f + 65), chr (g + 65), chr (s + 48), chr (t + 48)]⟩
        = .ok ((10 * g + t + 1/48 : ℚ) - 90, (20 * f + 2 * s + 1/24 : ℚ) - 180) ∧
      ((10 * g + t + 1/48 : ℚ) - 90 ≠ (10 * g + t + 1/2 : ℚ) - 90)) ∧
    (∀ f g s t u v : ℤ, 0 ≤ f → f ≤ 17 → 0 ≤ g → g ≤ 17 → 0 ≤ s → s ≤ 9 → 0 ≤ t → t ≤ 9 →
      0 ≤ u → u ≤ 23 → 0 ≤ v → v ≤ 23 →
      from_grid_locator ⟨[chr (f + 65), chr (g + 65), chr (s + 48), chr (t + 48),
          chr (u + 97), chr (v + 97)]⟩
        = .ok ((10 * g + t + v * (1/24) + 1/48 : ℚ) - 90,
               (20 * f + 2 * s + u * (1/12) + 1/24 : ℚ) - 180)) ∧
    (∀ f g s t u v w x : ℤ, 0 ≤ f → f ≤ 17 → 0 ≤ g → g ≤ 17 → 0 ≤ s → s ≤ 9 → 0 ≤ t → t ≤ 9 →
      0 ≤ u → u ≤ 23 → 0 ≤ v → v ≤ 23 → 0 ≤ w → w ≤ 9 → 0 ≤ x → x ≤ 9 →
      from_grid_locator ⟨[chr (f + 65), chr (g + 65), chr (s + 48), chr (t + 48),
          chr (u + 97), chr (v + 97), chr (w + 48), chr (x + 48)]⟩
        = .ok ((10 * g + t + v * (1/24) + x * (1/240) + 1/480 : ℚ) - 90,
               (20 * f + 2 * s + u * (1/12) + w * (1/120) + 1/240 : ℚ) - 180)) := by
  refine ⟨?_, ?_, ?_⟩
  · intro f g s t hf0 hf1 hg0 hg1 hs0 hs1 ht0 ht1
    constructor
    · rw [from_grid_locator_four hf0 hf1 hg0 hg1 hs0 hs1 ht0 ht1]
      congr 1
      rw [show LATITUDE_FIELD = 10 from rfl, show LONGITUDE_FIELD = 20 from rfl,
        LATITUDE_SQUARE_val, LONGITUDE_SQUARE_val, LATITUDE_EXTSQUARE_val,
        LONGITUDE_EXTSQUARE_val, Prod.mk.injEq]
      constructor <;> ring
    · intro h
      have : (1/48 : ℚ) = 1/2 := by linarith
      norm_num at this
  · intro f g s t u v hf0 hf1 hg0 hg1 hs0 hs1 ht0 ht1 hu0 hu1 hv0 hv1
    rw [from_grid_locator_six hf0 hf1 hg0 hg1 hs0 hs1 ht0 ht1 hu0 hu1 hv0 hv1]
    congr 1
    rw [show LATITUDE_FIELD = 10 from rfl, show LONGITUDE_FIELD = 20 from rfl,
      LATITUDE_SQUARE_val, LONGITUDE_SQUARE_val, LATITUDE_SUBSQUARE_val,
      LONGITUDE_SUBSQUARE_val, LATITUDE_EXTSQUARE_val, LONGITUDE_EXTSQUARE_val,
      Prod.mk.injEq]
    constructor <;> ring
  · intro f g s t u v w x hf0 hf1 hg0 hg1 hs0 hs1 ht0 ht1 hu0 hu1 hv0 hv1 hw0 hw1 hx0 hx1
    rw [from_grid_locator_eight hf0 hf1 hg0 hg1 hs0 hs1 ht0 ht1 hu0 hu1 hv0 hv1
      hw0 hw1 hx0 hx1]
    congr 1
    rw [show LATITUDE_FIELD = 10 from rfl, show LONGITUDE_FIELD = 20 from rfl,
      LATITUDE_SQUARE_val, LONGITUDE_SQUARE_val, LATITUDE_SUBSQUARE_val,
      LONGITUDE_SUBSQUARE_val, LATITUDE_EXTSQUARE_val, LONGITUDE_EXTSQUARE_val,
      Prod.mk.injEq]
    constructor <;> ring

/-- C2 (witness): the amended decode statement at the spec's example
locators `IO92` (4 characters) and `IO92va` (6 characters). -/
theorem c2_decode_witness :
    (from_grid_locator "IO92" = .ok ((10 * 14 + 2 + 1/48 : ℚ) - 90,
        (20 * 8 + 2 * 9 + 1/24 : ℚ) - 180)) ∧
    (from_grid_locator "IO92va" = .ok ((10 * 14 + 2 + 0 * (1/24) + 1/48 : ℚ) - 90,
        (20 * 8 + 2 * 9 + 21 * (1/12) + 1/24 : ℚ) - 180)) := by
  constructor
  · have h4 : "IO92" = String.mk [chr (8 + 65), chr (14 + 65), chr (9 + 48), chr (2 + 48)] := by
      decide
    have := (c2_decode_amended.1 8 14 9 2 (by norm_num) (by norm_num) (by norm_num)
      (by norm_num) (by norm_num) (by norm_num) (by norm_num) (by norm_num)).1
    rw [h4]
    convert this using 3
  · have h6 : "IO92va" = String.mk [chr (8 + 65), chr (14 + 65), chr (9 + 48), chr (2 + 48),
        chr (21 + 97), chr (0 + 97)] := by
      decide
    have := c2_decode_amended.2.1 8 14 9 2 21 0 (by norm_num) (by norm_num) (by norm_num)
      (by norm_num) (by norm_num) (by norm_num) (by norm_num) (by norm_num) (by norm_num)
      (by norm_num) (by norm_num) (by norm_num)
    rw [h6]
    convert this using 3

/-! ### `to_dms` / `to_dd` (`utils.py` lines 108-162) -/

/-- The `style` argument of `to_dms`: the two recognised strings and a stand-in
for any other value (which reaches the `raise ValueError` branch). -/
inductive DmsStyle : Type
  | dms | dm | other
  deriving DecidableEq, Repr

/-- The two `raise` sites of `to_dms`: `angle / abs(angle)` divides zero by
zero when the angle is `0`, and an unrecognised style raises `ValueError`. -/
inductive DmsError : Type
  | zeroDivisionError | unknownStyle
  deriving DecidableEq, Repr

/-- Return value of `to_dms`: a `(degrees, minutes, seconds)` triple of ints
for style `dms`, or a `(degrees, fractional minutes)` pair for style `dm`. -/
inductive DmsResult : Type
  | dms (degrees minutes seconds : ℤ)
  | dm (degrees : ℤ) (minutes : ℚ)
  deriving DecidableEq, Repr

/-- `to_dms` (`utils.py` lines 108-140).  `sign = int(angle / abs(angle))`
raises `ZeroDivisionError` at `angle = 0` before anything else happens; the
two `divmod(_, 60)` calls are floor division plus remainder. -/
def to_dms (angle : ℚ) (style : DmsStyle) : Except DmsError DmsResult :=
  if angle = 0 then .error .zeroDivisionError
  else
    let sign : ℤ := pyInt (angle / |angle|)
    let angle' := |angle| * 3600
    let minutes : ℚ := (⌊angle' / 60⌋ : ℚ)
    let seconds : ℚ := angle' - 60 * (⌊angle' / 60⌋ : ℚ)
    let degrees : ℚ := (⌊minutes / 60⌋ : ℚ)
    let minutes' : ℚ := minutes - 60 * (⌊minutes / 60⌋ : ℚ)
    match style with
    | .dms => .ok (.dms (sign * pyInt degrees) (sign * pyInt minutes')
        (sign * pyInt seconds))
    | .dm => .ok (.dm (sign * pyInt degrees)
        ((sign : ℚ) * ((pyInt minutes' : ℚ) + (pyInt seconds : ℚ) / 60)))
    | .other => .error .unknownStyle

/-- `to_dd` (`utils.py` lines 142-162). -/
def to_dd (degrees minutes : ℚ) (seconds : ℚ := 0) : ℚ :=
  degrees + minutes / 60 + seconds / 3600

theorem pyInt_intCast (n : ℤ) : pyInt ((n : ℚ)) = n := by
  unfold pyInt
  split
  · exact Int.floor_intCast n
  · rw [← Int.cast_neg, Int.floor_intCast]; omega

/-- C9: `to_dms` is not total: at angle exactly `0` the sign computation
`angle / abs(angle)` divides zero by zero, so `to_dms(0)` raises an uncaught
`ZeroDivisionError` instead of returning `(0, 0, 0)`, whatever the style
argument. -/
theorem c9_to_dms_zero_raises (style : DmsStyle) :
    to_dms 0 style = .error .zeroDivisionError := by
  simp [to_dms]

/-- C9 (witness): the zero-angle failure at the concrete style `dms`. -/
theorem c9_to_dms_zero_witness :
    to_dms 0 .dms = .error .zeroDivisionError :=
  c9_to_dms_zero_raises .dms

/-- C5: for every nonzero angle, converting to degrees-minutes-seconds with
`to_dms` and back with `to_dd` returns a value within one arcsecond
(`1/3600` degree) of the original, and every nonzero component of the triple
carries the sign of the angle. -/
theorem c5_dms_roundtrip (x : ℚ) (hx : x ≠ 0) :
    ∃ d m s : ℤ, to_dms x .dms = .ok (.dms d m s) ∧
      |to_dd d m s - x| < 1 / 3600 ∧
      (0 < x → 0 ≤ d ∧ 0 ≤ m ∧ 0 ≤ s) ∧
      (x < 0 → d ≤ 0 ∧ m ≤ 0 ∧ s ≤ 0) := by
  have habs : (0:ℚ) < |x| := abs_pos.mpr hx
  have hM0 : 0 ≤ ⌊|x| * 3600 / 60⌋ := Int.floor_nonneg.mpr (by positivity)
  have hD0 : 0 ≤ ⌊((⌊|x| * 3600 / 60⌋ : ℤ) : ℚ) / 60⌋ :=
    Int.floor_nonneg.mpr (by positivity)
  have hrem1a : (0:ℚ) ≤ |x| * 3600 - 60 * (⌊|x| * 3600 / 60⌋ : ℚ) := by
    have h := Int.floor_le (|x| * 3600 / 60)
    have h2 : (⌊|x| * 3600 / 60⌋ : ℚ) * 60 ≤ |x| * 3600 / 60 * 60 :=
      mul_le_mul_of_nonneg_right h (by norm_num)
    have h3 : |x| * 3600 / 60 * 60 = |x| * 3600 := by ring
    linarith
  have hrem2a : (0:ℚ) ≤ (⌊|x| * 3600 / 60⌋ : ℚ)
      - 60 * (⌊((⌊|x| * 3600 / 60⌋ : ℤ) : ℚ) / 60⌋ : ℚ) := by
    have h := Int.floor_le (((⌊|x| * 3600 / 60⌋ : ℤ) : ℚ) / 60)
    have h2 : (⌊((⌊|x| * 3600 / 60⌋ : ℤ) : ℚ) / 60⌋ : ℚ) * 60
        ≤ ((⌊|x| * 3600 / 60⌋ : ℤ) : ℚ) / 60 * 60 :=
      mul_le_mul_of_nonneg_right h (by norm_num)
    have h3 : ((⌊|x| * 3600 / 60⌋ : ℤ) : ℚ) / 60 * 60
        = ((⌊|x| * 3600 / 60⌋ : ℤ) : ℚ) := by ring
    linarith
  have hfloor_le := Int.floor_le (|x| * 3600)
  have hfloor_lt := Int.lt_floor_add_one (|x| * 3600)
  have hsec : pyInt (|x| * 3600 - 60 * (⌊|x| * 3600 / 60⌋ : ℚ))
      = ⌊|x| * 3600⌋ - 60 * ⌊|x| * 3600 / 60⌋ := by
    rw [pyInt_of_nonneg hrem1a]
    have h : |x| * 3600 - 60 * (⌊|x| * 3600 / 60⌋ : ℚ)
        = |x| * 3600 - ((60 * ⌊|x| * 3600 / 60⌋ : ℤ) : ℚ) := by push_cast; ring
    rw [h, Int.floor_sub_int]
  have hmin : pyInt ((⌊|x| * 3600 / 60⌋ : ℚ)
      - 60 * (⌊((⌊|x| * 3600 / 60⌋ : ℤ) : ℚ) / 60⌋ : ℚ))
      = ⌊|x| * 3600 / 60⌋ - 60 * ⌊((⌊|x| * 3600 / 60⌋ : ℤ) : ℚ) / 60⌋ := by
    have h : (⌊|x| * 3600 / 60⌋ : ℚ) - 60 * (⌊((⌊|x| * 3600 / 60⌋ : ℤ) : ℚ) / 60⌋ : ℚ)
        = ((⌊|x| * 3600 / 60⌋ - 60 * ⌊((⌊|x| * 3600 / 60⌋ : ℤ) : ℚ) / 60⌋ : ℤ) : ℚ) := by
      push_cast; ring
    rw [h, pyInt_intCast]
  have hS0 : (0:ℤ) ≤ ⌊|x| * 3600⌋ - 60 * ⌊|x| * 3600 / 60⌋ := by
    have h : (60 * ⌊|x| * 3600 / 60⌋ : ℤ) ≤ ⌊|x| * 3600⌋ := by
      rw [Int.le_floor]
      push_cast
      linarith
    omega
  have hM60D0 : (0:ℤ) ≤ ⌊|x| * 3600 / 60⌋ - 60 * ⌊((⌊|x| * 3600 / 60⌋ : ℤ) : ℚ) / 60⌋ := by
    exact_mod_cast hrem2a
  rcases hx.lt_or_lt with hneg | hpos
  · have hsgn : pyInt (x / |x|) = -1 := by
      rw [abs_of_neg hneg, div_neg, div_self hneg.ne, pyInt]
      norm_num
    refine ⟨-1 * ⌊((⌊|x| * 3600 / 60⌋ : ℤ) : ℚ) / 60⌋,
      -1 * (⌊|x| * 3600 / 60⌋ - 60 * ⌊((⌊|x| * 3600 / 60⌋ : ℤ) : ℚ) / 60⌋),
      -1 * (⌊|x| * 3600⌋ - 60 * ⌊|x| * 3600 / 60⌋), ?_, ?_, ?_, ?_⟩
    · simp only [to_dms]
      rw [if_neg hx, hsgn, hsec, hmin, pyInt_intCast]
    · rw [to_dd, abs_lt]
      constructor
      · push_cast
        linarith [abs_of_neg hneg]
      · push_cast
        linarith [abs_of_neg hneg]
    · intro h0; exact absurd h0 (by linarith)
    · intro h0
      refine ⟨by omega, by omega, by omega⟩
  · have hsgn : pyInt (x / |x|) = 1 := by
      rw [abs_of_pos hpos, div_self hpos.ne', pyInt]
      norm_num
    refine ⟨1 * ⌊((⌊|x| * 3600 / 60⌋ : ℤ) : ℚ) / 60⌋,
      1 * (⌊|x| * 3600 / 60⌋ - 60 * ⌊((⌊|x| * 3600 / 60⌋ : ℤ) : ℚ) / 60⌋),
      1 * (⌊|x| * 3600⌋ - 60 * ⌊|x| * 3600 / 60⌋), ?_, ?_, ?_, ?_⟩
    · simp only [to_dms]
      rw [if_neg hx, hsgn, hsec, hmin, pyInt_intCast]
    · rw [to_dd, abs_lt]
      constructor
      · push_cast
        linarith [abs_of_pos hpos]
      · push_cast
        linarith [abs_of_pos hpos]
    · intro h0
      refine ⟨by omega, by omega, by omega⟩
    · intro h0; exact absurd h0 (by linarith)

/-- C5 (witness): the round trip at the doctest angle `52.015`. -/
theorem c5_dms_witness :
    ∃ d m s : ℤ, to_dms (52015/1000 : ℚ) .dms = .ok (.dms d m s) ∧
      |to_dd d m s - 52015/1000| < 1 / 3600 ∧
      (0 < (52015/1000 : ℚ) → 0 ≤ d ∧ 0 ≤ m ∧ 0 ≤ s) ∧
      ((52015/1000 : ℚ) < 0 → d ≤ 0 ∧ m ≤ 0 ∧ s ≤ 0) :=
  c5_dms_roundtrip (52015/1000) (by norm_num)

/-! ### `from_iso6709` (`utils.py` lines 164-262) -/

/-- A character matched by the regex class `[\d.]`. -/
def fieldChar (c : Char) : Bool := c.isDigit || c == '.'

/-- Value of a run of ASCII digits (most significant first). -/
def natOfDigits (cs : List Char) : ℕ :=
  cs.foldl (fun a c => 10 * a + (c.toNat - 48)) 0

/-- Python `float()` on the strings that can reach it here: an optional
sign followed by digits and dots (the regex admits nothing else).  `none`
models the `ValueError` that `float()` raises on input such as an empty
string, a lone dot, or a string with two dots. -/
def pyFloat (s : List Char) : Option ℚ :=
  let sgn : ℚ := match s with
    | '+' :: _ => 1
    | '-' :: _ => -1
    | _ => 1
  let body : List Char := match s with
    | '+' :: r => r
    | '-' :: r => r
    | r => r
  let intPart := body.takeWhile (fun c => c ≠ '.')
  match body.dropWhile (fun c => c ≠ '.') with
  | [] =>
    if intPart ≠ [] ∧ intPart.all Char.isDigit then
      some (sgn * natOfDigits intPart)
    else none
  | _ :: fracPart =>
    if (intPart ≠ [] ∨ fracPart ≠ []) ∧ intPart.all Char.isDigit ∧
        fracPart.all Char.isDigit then
      some (sgn * (natOfDigits intPart + (natOfDigits fracPart : ℚ) / 10 ^ fracPart.length))
    else none

/-- Worker for `splitSigned`: `cur` is the group being read, reversed.  A
group is closed when the next sign character or the end of the string is
reached, and must consist of a sign plus at least one `[\d.]` character. -/
def splitSignedAux : List Char → List Char → Option (List (List Char))
  | [], cur => if 2 ≤ cur.length then some [cur.reverse] else none
  | c :: rest, cur =>
    if c = '+' ∨ c = '-' then
      if 2 ≤ cur.length then
        match splitSignedAux rest [c] with
        | some gs => some (cur.reverse :: gs)
        | none => none
      else none
    else if fieldChar c then splitSignedAux rest (c :: cur)
    else none

/-- Splitting the coordinate body into the sign-led groups matched by
`([-+][\d.]+)([-+][\d.]+)([+-][\d.]+)?`: every group is a sign followed by a
nonempty run of digits and dots, and the groups are uniquely delimited by the
sign characters (the two character classes are disjoint, so the greedy match
has exactly this shape). -/
def splitSigned : List Char → Option (List (List Char))
  | [] => some []
  | c :: rest => if c = '+' ∨ c = '-' then splitSignedAux rest [c] else none

/-- The `raise` sites of `from_iso6709`: the no-match error, the two
field-naming errors, and the `ValueError` that an inner `float()` raises. -/
inductive IsoError : Type
  | formatString
  | formatLatitude (field : String)
  | formatLongitude (field : String)
  | floatValueError
  deriving DecidableEq, Repr

/-- Latitude field decoding (`utils.py` lines 240-249): the sub-format is
chosen by the length of the part before the first dot (sign included). -/
def parse_latitude (latitude : List Char) : Except IsoError ℚ :=
  let head := (latitude.takeWhile (fun c => c ≠ '.')).length
  if head = 3 then
    match pyFloat latitude with
    | some q => .ok q
    | none => .error .floatValueError
  else if head = 5 then
    match pyFloat (latitude.take 3), pyFloat (latitude.drop 3) with
    | some q1, some q2 => .ok (q1 + q2 / 60)
    | _, _ => .error .floatValueError
  else if head = 7 then
    match pyFloat (latitude.take 3), pyFloat ((latitude.drop 3).take 2),
        pyFloat (latitude.drop 5) with
    | some q1, some q2, some q3 => .ok (q1 + q2 / 60 + q3 / 3600)
    | _, _, _ => .error .floatValueError
  else .error (.formatLatitude (String.mk latitude))

/-- Longitude field decoding (`utils.py` lines 250-259). -/
def parse_longitude (longitude : List Char) : Except IsoError ℚ :=
  let head := (longitude.takeWhile (fun c => c ≠ '.')).length
  if head = 4 then
    match pyFloat longitude with
    | some q => .ok q
    | none => .error .floatValueError
  else if head = 6 then
    match pyFloat (longitude.take 4), pyFloat (longitude.drop 4) with
    | some q1, some q2 => .ok (q1 + q2 / 60)
    | _, _ => .error .floatValueError
  else if head = 8 then
    match pyFloat (longitude.take 4), pyFloat ((longitude.drop 4).take 2),
        pyFloat (longitude.drop 6) with
    | some q1, some q2, some q3 => .ok (q1 + q2 / 60 + q3 / 3600)
    | _, _, _ => .error .floatValueError
  else .error (.formatLongitude (String.mk longitude))

/-- `from_iso6709` (`utils.py` lines 164-262): match the anchored regex,
decode latitude then longitude by digit count, and convert the altitude with
`float()` when the (always nonempty) group is present. -/
def from_iso6709 (coordinates : String) : Except IsoError (ℚ × ℚ × Option ℚ) :=
  if coordinates.data.getLast? = some '/' then
    match splitSigned coordinates.data.dropLast with
    | some [latF, lonF] =>
      match parse_latitude latF with
      | .error e => .error e
      | .ok lat =>
        match parse_longitude lonF with
        | .error e => .error e
        | .ok lon => .ok (lat, lon, none)
    | some [latF, lonF, altF] =>
      match parse_latitude latF with
      | .error e => .error e
      | .ok lat =>
        match parse_longitude lonF with
        | .error e => .error e
        | .ok lon =>
          if altF ≠ [] then
            match pyFloat altF with
            | some alt => .ok (lat, lon, some alt)
            | none => .error .floatValueError
          else .ok (lat, lon, none)
    | _ => .error .formatString
  else .error .formatString

/-- C6: `from_iso6709` infers each field's sub-format solely from the length
of the field's part before any decimal point (sign included): 3/5/7 for the
latitude field and 4/6/8 for the longitude field.  Any other count fails
with the error naming the malformed field; well-formed fields are decoded by
the degrees / degrees+minutes/60 / degrees+minutes/60+seconds/3600 rule, and
`from_iso6709` composes the two field decoders on the regex split. -/
theorem c6_iso6709_field_dispatch :
    (∀ latF : List Char,
      (latF.takeWhile (fun c => c ≠ '.')).length ≠ 3 →
      (latF.takeWhile (fun c => c ≠ '.')).length ≠ 5 →
      (latF.takeWhile (fun c => c ≠ '.')).length ≠ 7 →
      parse_latitude latF = .error (.formatLatitude (String.mk latF))) ∧
    (∀ (latF : List Char) (q : ℚ),
      (latF.takeWhile (fun c => c ≠ '.')).length = 3 →
      pyFloat latF = some q → parse_latitude latF = .ok q) ∧
    (∀ (latF : List Char) (q1 q2 : ℚ),
      (latF.takeWhile (fun c => c ≠ '.')).length = 5 →
      pyFloat (latF.take 3) = some q1 → pyFloat (latF.drop 3) = some q2 →
      parse_latitude latF = .ok (q1 + q2 / 60)) ∧
    (∀ (latF : List Char) (q1 q2 q3 : ℚ),
      (latF.takeWhile (fun c => c ≠ '.')).length = 7 →
      pyFloat (latF.take 3) = some q1 → pyFloat ((latF.drop 3).take 2) = some q2 →
      pyFloat (latF.drop 5) = some q3 →
      parse_latitude latF = .ok (q1 + q2 / 60 + q3 / 3600)) ∧
    (∀ lonF : List Char,
      (lonF.takeWhile (fun c => c ≠ '.')).length ≠ 4 →
      (lonF.takeWhile (fun c => c ≠ '.')).length ≠ 6 →
      (lonF.takeWhile (fun c => c ≠ '.')).length ≠ 8 →
      parse_longitude lonF = .error (.formatLongitude (String.mk lonF))) ∧
    (∀ (lonF : List Char) (q : ℚ),
      (lonF.takeWhile (fun c => c ≠ '.')).length = 4 →
      pyFloat lonF = some q → parse_longitude lonF = .ok q) ∧
    (∀ (lonF : List Char) (q1 q2 : ℚ),
      (lonF.takeWhile (fun c => c ≠ '.')).length = 6 →
      pyFloat (lonF.take 4) = some q1 → pyFloat (lonF.drop 4) = some q2 →
      parse_longitude lonF = .ok (q1 + q2 / 60)) ∧
    (∀ (lonF : List Char) (q1 q2 q3 : ℚ),
      (lonF.takeWhile (fun c => c ≠ '.')).length = 8 →
      pyFloat (lonF.take 4) = some q1 → pyFloat ((lonF.drop 4).take 2) = some q2 →
      pyFloat (lonF.drop 6) = some q3 →
      parse_longitude lonF = .ok (q1 + q2 / 60 + q3 / 3600)) ∧
    (∀ (s : String) (latF lonF : List Char) (e : IsoError),
      s.data.getLast? = some '/' → splitSigned s.data.dropLast = some [latF, lonF] →
      parse_latitude latF = .error e → from_iso6709 s = .error e) ∧
    (∀ (s : String) (latF lonF : List Char) (lat : ℚ) (e : IsoError),
      s.data.getLast? = some '/' → splitSigned s.data.dropLast = some [latF, lonF] →
      parse_latitude latF = .ok lat → parse_longitude lonF = .error e →
      from_iso6709 s = .error e) ∧
    (∀ (s : String) (latF lonF : List Char) (lat lon : ℚ),
      s.data.getLast? = some '/' → splitSigned s.data.dropLast = some [latF, lonF] →
      parse_latitude latF = .ok lat → parse_longitude lonF = .ok lon →
      from_iso6709 s = .ok (lat, lon, none)) := by
  refine ⟨?_, ?_, ?_, ?_, ?_, ?_, ?_, ?_, ?_, ?_, ?_⟩
  · intro latF h3 h5 h7
    simp only [parse_latitude]
    rw [if_neg h3, if_neg h5, if_neg h7]
  · intro latF q h3 hq
    simp only [parse_latitude]
    rw [if_pos h3, hq]
  · intro latF q1 q2 h5 hq1 hq2
    simp only [parse_latitude]
    rw [if_neg (by omega : ¬ (latF.takeWhile (fun c => c ≠ '.')).length = 3),
      if_pos h5, hq1, hq2]
  · intro latF q1 q2 q3 h7 hq1 hq2 hq3
    simp only [parse_latitude]
    rw [if_neg (by omega : ¬ (latF.takeWhile (fun c => c ≠ '.')).length = 3),
      if_neg (by omega : ¬ (latF.takeWhile (fun c => c ≠ '.')).length = 5),
      if_pos h7, hq1, hq2, hq3]
  · intro lonF h4 h6 h8
    simp only [parse_longitude]
    rw [if_neg h4, if_neg h6, if_neg h8]
  · intro lonF q h4 hq
    simp only [parse_longitude]
    rw [if_pos h4, hq]
  · intro lonF q1 q2 h6 hq1 hq2
    simp only [parse_longitude]
    rw [if_neg (by omega : ¬ (lonF.takeWhile (fun c => c ≠ '.')).length = 4),
      if_pos h6, hq1, hq2]
  · intro lonF q1 q2 q3 h8 hq1 hq2 hq3
    simp only [parse_longitude]
    rw [if_neg (by omega : ¬ (lonF.takeWhile (fun c => c ≠ '.')).length = 4),
      if_neg (by omega : ¬ (lonF.takeWhile (fun c => c ≠ '.')).length = 6),
      if_pos h8, hq1, hq2, hq3]
  · intro s latF lonF e hlast hsplit hlat
    simp only [from_iso6709]
    rw [if_pos hlast, hsplit]
    simp only [hlat]
  · intro s latF lonF lat e hlast hsplit hlat hlon
    simp only [from_iso6709]
    rw [if_pos hlast, hsplit]
    simp only [hlat, hlon]
  · intro s latF lonF lat lon hlast hsplit hlat hlon
    simp only [from_iso6709]
    rw [if_pos hlast, hsplit]
    simp only [hlat, hlon]

/-- C6 (witness): the dispatch at the wikipedia example `+4852+00220/`
(degrees-minutes in both fields) and the malformed-longitude doctest
`+35.658632+1/`. -/
theorem c6_iso6709_witness :
    from_iso6709 "+4852+00220/" = .ok (48 + 52 / 60, 2 + 20 / 60, none) ∧
    from_iso6709 "+35.658632+1/" = .error (.formatLongitude "+1") := by
  constructor
  · apply c6_iso6709_field_dispatch.2.2.2.2.2.2.2.2.2.2 "+4852+00220/"
      ("+4852".data) ("+00220".data) (48 + 52 / 60) (2 + 20 / 60)
      (by decide) (by decide)
    · apply c6_iso6709_field_dispatch.2.2.1 ("+4852".data) 48 (52 : ℚ) (by decide)
      · show pyFloat ("+48".data) = some 48
        simp [pyFloat, natOfDigits]
      · show pyFloat ("52".data) = some 52
        simp [pyFloat, natOfDigits]
    · apply c6_iso6709_field_dispatch.2.2.2.2.2.2.1 ("+00220".data) 2 (20 : ℚ) (by decide)
      · show pyFloat ("+002".data) = some 2
        simp [pyFloat, natOfDigits]
      · show pyFloat ("20".data) = some 20
        simp [pyFloat, natOfDigits]
  · apply c6_iso6709_field_dispatch.2.2.2.2.2.2.2.2.2.1 "+35.658632+1/"
      ("+35.658632".data) ("+1".data) (35 + 658632 / 10 ^ 6)
      (.formatLongitude "+1") (by decide) (by decide)
    · apply c6_iso6709_field_dispatch.2.1 ("+35.658632".data) (35 + 658632 / 10 ^ 6) (by decide)
      show pyFloat ("+35.658632".data) = some _
      simp [pyFloat, natOfDigits]
    · exact c6_iso6709_field_dispatch.2.2.2.2.1 ("+1".data)
        (by decide) (by decide) (by decide)

/-! ### `to_iso6709` (`utils.py` lines 264-349) -/

/-- Zero padding to a total width, as the `0` flag of `%`-formatting does. -/
def padZeros (w : ℕ) (s : String) : String :=
  String.mk (List.replicate (w - s.length) '0') ++ s

/-- `"%+0Wi" % n` (sign flag set) or `"%0Wi" % n` (sign flag clear): the
sign, then the absolute value zero-padded so that the whole field is `W`
characters wide. -/
def fmtInt (flagSign : Bool) (width : ℕ) (n : ℤ) : String :=
  let sign := if n < 0 then "-" else if flagSign then "+" else ""
  sign ++ padZeros (width - sign.length) (toString n.natAbs)

/-- Round to the nearest integer, ties to even, as C `printf` (and hence
Python `%`-formatting of floats) does at the last printed digit. -/
def roundHalfEven (q : ℚ) : ℤ :=
  if q - ⌊q⌋ < 1/2 then ⌊q⌋
  else if 1/2 < q - ⌊q⌋ then ⌊q⌋ + 1
  else if ⌊q⌋ % 2 = 0 then ⌊q⌋ else ⌊q⌋ + 1

/-- `"%+0W.Pf" % q`: sign, then the magnitude with exactly `P` decimals,
zero-padded to total width `W`. -/
def fmtFixed (flagSign : Bool) (width prec : ℕ) (q : ℚ) : String :=
  let sign := if q < 0 then "-" else if flagSign then "+" else ""
  let scaled : ℕ := (roundHalfEven (|q| * 10 ^ prec)).toNat
  let body :=
    if prec = 0 then toString scaled
    else toString (scaled / 10 ^ prec) ++ "." ++ padZeros prec (toString (scaled % 10 ^ prec))
  sign ++ padZeros (width - sign.length) body

/-- The `format` argument of `to_iso6709`; `other` stands for any
unrecognised value, which reaches the `raise ValueError` branch. -/
inductive IsoStyle : Type
  | d | dd | dm | dms | other
  deriving DecidableEq, Repr

/-- The `raise` sites of `to_iso6709`: the unknown-format `ValueError` and
the `ZeroDivisionError` propagating out of `to_dms` when a coordinate is
zero and the format is `dm` or `dms`. -/
inductive IsoFmtError : Type
  | zeroDivisionError | unknownFormat
  deriving DecidableEq, Repr

/-- The altitude suffix of `to_iso6709` (`utils.py` lines 344-349): Python
`if altitude` is false for `None` and for `0`, integral altitudes print as
`"%+i"`, fractional ones as `"%+.3f"`, and `"/"` always terminates. -/
def iso_append_altitude (text : String) (altitude : Option ℚ) : String :=
  match altitude with
  | some alt =>
    if alt ≠ 0 ∧ ((pyInt alt : ℚ)) = alt then text ++ fmtInt true 0 (pyInt alt) ++ "/"
    else if alt ≠ 0 then text ++ fmtFixed true 0 3 alt ++ "/"
    else text ++ "/"
  | none => text ++ "/"

/-- `to_iso6709` (`utils.py` lines 264-349).  The `dm`/`dms` branches call
`to_dms`, whose `ZeroDivisionError` propagates; the fall-through branch
raises `ValueError` for an unknown format. -/
def to_iso6709 (latitude longitude : ℚ) (altitude : Option ℚ)
    (format : IsoStyle) (precision : ℕ) : Except IsoFmtError String :=
  match format with
  | .d =>
    .ok (iso_append_altitude
      (fmtInt true 3 (pyInt latitude) ++ fmtInt true 4 (pyInt longitude)) altitude)
  | .dd =>
    .ok (iso_append_altitude
      (fmtFixed true (precision + 4) precision latitude
        ++ fmtFixed true (precision + 5) precision longitude) altitude)
  | .dm =>
    match to_dms latitude .dm with
    | .ok (.dm dLat mLat) =>
      match to_dms longitude .dm with
      | .ok (.dm dLon mLon) =>
        .ok (iso_append_altitude
          (fmtInt true 3 dLat ++ fmtInt false 2 (pyInt mLat)
            ++ fmtInt true 4 dLon ++ fmtInt false 2 (pyInt mLon)) altitude)
      | _ => .error .zeroDivisionError
    | _ => .error .zeroDivisionError
  | .dms =>
    match to_dms latitude .dms with
    | .ok (.dms dLat mLat sLat) =>
      match to_dms longitude .dms with
      | .ok (.dms dLon mLon sLon) =>
        .ok (iso_append_altitude
          (fmtInt true 3 dLat ++ fmtInt false 2 mLat ++ fmtInt false 2 sLat
            ++ fmtInt true 4 dLon ++ fmtInt false 2 mLon ++ fmtInt false 2 sLon) altitude)
      | _ => .error .zeroDivisionError
    | _ => .error .zeroDivisionError
  | .other => .error .unknownFormat

theorem iso_append_altitude_slash (text : String) (altitude : Option ℚ) :
    ∃ t, iso_append_altitude text altitude = t ++ "/" := by
  cases altitude with
  | none => exact ⟨text, rfl⟩
  | some alt =>
    show (∃ t, (if alt ≠ 0 ∧ ((pyInt alt : ℚ)) = alt
        then text ++ fmtInt true 0 (pyInt alt) ++ "/"
        else if alt ≠ 0 then text ++ fmtFixed true 0 3 alt ++ "/"
        else text ++ "/") = t ++ "/")
    by_cases h1 : alt ≠ 0 ∧ ((pyInt alt : ℚ)) = alt
    · rw [if_pos h1]; exact ⟨_, rfl⟩
    · rw [if_neg h1]
      by_cases h2 : alt ≠ 0
      · rw [if_pos h2]; exact ⟨_, rfl⟩
      · rw [if_neg h2]; exact ⟨text, rfl⟩

theorem iso_append_altitude_int (text : String) (alt : ℚ) (h0 : alt ≠ 0)
    (hi : ((pyInt alt : ℚ)) = alt) :
    iso_append_altitude text (some alt) = text ++ fmtInt true 0 (pyInt alt) ++ "/" := by
  show (if alt ≠ 0 ∧ ((pyInt alt : ℚ)) = alt
      then text ++ fmtInt true 0 (pyInt alt) ++ "/"
      else if alt ≠ 0 then text ++ fmtFixed true 0 3 alt ++ "/"
      else text ++ "/") = _
  rw [if_pos ⟨h0, hi⟩]

theorem iso_append_altitude_frac (text : String) (alt : ℚ) (h0 : alt ≠ 0)
    (hi : ¬ ((pyInt alt : ℚ)) = alt) :
    iso_append_altitude text (some alt) = text ++ fmtFixed true 0 3 alt ++ "/" := by
  show (if alt ≠ 0 ∧ ((pyInt alt : ℚ)) = alt
      then text ++ fmtInt true 0 (pyInt alt) ++ "/"
      else if alt ≠ 0 then text ++ fmtFixed true 0 3 alt ++ "/"
      else text ++ "/") = _
  rw [if_neg (fun hc => hi hc.2), if_pos h0]

/-- Every successful `to_iso6709` result is a coordinate text passed through
the altitude-suffix step. -/
theorem to_iso6709_ok_shape (lat lon : ℚ) (altOpt : Option ℚ) (fmt : IsoStyle)
    (prec : ℕ) (s : String)
    (h : to_iso6709 lat lon altOpt fmt prec = .ok s) :
    ∃ text, s = iso_append_altitude text altOpt := by
  cases fmt <;> simp only [to_iso6709] at h
  case d => exact ⟨_, (Except.ok.inj h).symm⟩
  case dd => exact ⟨_, (Except.ok.inj h).symm⟩
  case dm =>
    rcases hd : to_dms lat .dm with _ | v
    · simp [hd] at h
    · cases v with
      | dms d m s' => simp [hd] at h
      | dm d m =>
        rcases hd2 : to_dms lon .dm with _ | w
        · simp [hd, hd2] at h
        · cases w with
          | dms _ _ _ => simp [hd, hd2] at h
          | dm d2 m2 =>
            simp only [hd, hd2] at h
            exact ⟨_, (Except.ok.inj h).symm⟩
  case dms =>
    rcases hd : to_dms lat .dms with _ | v
    · simp [hd] at h
    · cases v with
      | dm d m => simp [hd] at h
      | dms d m s' =>
        rcases hd2 : to_dms lon .dms with _ | w
        · simp [hd, hd2] at h
        · cases w with
          | dm _ _ => simp [hd, hd2] at h
          | dms d2 m2 s2 =>
            simp only [hd, hd2] at h
            exact ⟨_, (Except.ok.inj h).symm⟩
  case other => simp at h

/-- C8 (counterexample): a supplied altitude of `0` is NOT appended:
`to_iso6709(0, 0, 0, "d")` returns `+00+000/` with no altitude component
(Python `if altitude` is false for the float `0`), refuting the claim for
altitude `0`. -/
theorem c8_counterexample :
    to_iso6709 0 0 (some 0) .d 4 = .ok "+00+000/" ∧
    ¬ ∃ t : String, to_iso6709 0 0 (some 0) .d 4 = .ok (t ++ "+0/") := by
  have hp : pyInt (0:ℚ) = 0 := by norm_num [pyInt]
  have heval : to_iso6709 0 0 (some 0) .d 4 = .ok "+00+000/" := by
    simp only [to_iso6709, hp, iso_append_altitude]
    rw [if_neg (by simp), if_neg (by simp)]
    congr 1
  refine ⟨heval, ?_⟩
  rintro ⟨t, ht⟩
  rw [heval] at ht
  have h2 : "+00+000/" = t ++ "+0/" := Except.ok.inj ht
  have h3 : ("+00+000/").data.reverse = (t ++ "+0/").data.reverse :=
    congrArg (fun s => s.data.reverse) h2
  rw [String.data_append] at h3
  simp only [List.reverse_append] at h3
  have h4 : ['/', '0', '0', '0', '+', '0', '0', '+']
      = ['/', '0', '+'] ++ t.data.reverse := h3
  simp at h4

/-- C8 (amended): whenever `to_iso6709` returns a string and a NONZERO
altitude was supplied, the string ends with the altitude formatted as a
signed integer (`"%+i"`) when it is a whole number of metres, or as a signed
3-decimal value (`"%+.3f"`) when fractional, followed by `/`; and every
returned string, with or without altitude, terminates with `/`.  (A supplied
altitude of exactly `0` is skipped, because `if altitude` is false for `0`.) -/
theorem c8_altitude_amended :
    (∀ (lat lon alt : ℚ) (fmt : IsoStyle) (prec : ℕ) (s : String),
      to_iso6709 lat lon (some alt) fmt prec = .ok s → alt ≠ 0 →
      ((pyInt alt : ℚ)) = alt →
      ∃ t, s = t ++ fmtInt true 0 (pyInt alt) ++ "/") ∧
    (∀ (lat lon alt : ℚ) (fmt : IsoStyle) (prec : ℕ) (s : String),
      to_iso6709 lat lon (some alt) fmt prec = .ok s → alt ≠ 0 →
      ¬ ((pyInt alt : ℚ)) = alt →
      ∃ t, s = t ++ fmtFixed true 0 3 alt ++ "/") ∧
    (∀ (lat lon : ℚ) (altOpt : Option ℚ) (fmt : IsoStyle) (prec : ℕ) (s : String),
      to_iso6709 lat lon altOpt fmt prec = .ok s →
      ∃ t, s = t ++ "/") := by
  refine ⟨?_, ?_, ?_⟩
  · intro lat lon alt fmt prec s h h0 hi
    obtain ⟨text, rfl⟩ := to_iso6709_ok_shape lat lon (some alt) fmt prec s h
    rw [iso_append_altitude_int text alt h0 hi]
    exact ⟨text, rfl⟩
  · intro lat lon alt fmt prec s h h0 hi
    obtain ⟨text, rfl⟩ := to_iso6709_ok_shape lat lon (some alt) fmt prec s h
    rw [iso_append_altitude_frac text alt h0 hi]
    exact ⟨text, rfl⟩
  · intro lat lon altOpt fmt prec s h
    obtain ⟨text, rfl⟩ := to_iso6709_ok_shape lat lon altOpt fmt prec s h
    exact iso_append_altitude_slash text altOpt

/-- C8 (witness): the Mount Everest doctest
`to_iso6709(27.5916, 86.564, 8850.0)` ends with the whole-metre altitude
`+8850` and the terminating slash. -/
theorem c8_altitude_witness :
    ∃ t, (iso_append_altitude
        (fmtFixed true (4 + 4) 4 (275916/10000) ++ fmtFixed true (4 + 5) 4 (86564/1000))
        (some 8850))
      = t ++ fmtInt true 0 (pyInt (8850:ℚ)) ++ "/" := by
  exact c8_altitude_amended.1 (275916/10000) (86564/1000) 8850 .dd 4 _ rfl
    (by norm_num) (by norm_num [pyInt])

/-! ### `sun_rise_set` / `sun_events` (`utils.py` lines 416-641)

The solar code calls `math.sin`, `math.cos`, `math.tan`, `math.asin`,
`math.acos` and `math.atan`, so this part of the embedding lives over `ℝ`
with the genuine transcendental functions. -/

/-- The `ZENITH` table (`utils.py` lines 416-434); `official` stands for the
Python key `None` (actual sunrise/sunset, 50 arcminutes below the horizon).
An unknown key raises `KeyError` before any computation and is not
modelled. -/
inductive Zenith : Type
  | official | civil | nautical | astronomical
  deriving DecidableEq, Repr

noncomputable def ZENITH : Zenith → ℝ
  | .official => -50 / 60
  | .civil => -6
  | .nautical => -12
  | .astronomical => -18

/-- The `mode` argument of `sun_rise_set`; any other string raises
`ValueError` and is not modelled. -/
inductive Mode : Type
  | rise | set
  deriving DecidableEq, Repr

/-- `math.radians`. -/
noncomputable def radians (d : ℝ) : ℝ := d * Real.pi / 180

/-- `math.degrees`. -/
noncomputable def degreesR (r : ℝ) : ℝ := r * 180 / Real.pi

/-- Length of a Gregorian calendar month. -/
def monthLength (leap : Bool) : ℕ → ℕ
  | 1 => 31
  | 2 => if leap then 29 else 28
  | 3 => 31
  | 4 => 30
  | 5 => 31
  | 6 => 30
  | 7 => 31
  | 8 => 31
  | 9 => 30
  | 10 => 31
  | 11 => 30
  | 12 => 31
  | _ => 0

def isLeap (y : ℕ) : Bool := y % 4 == 0 && (y % 100 != 0 || y % 400 == 0)

/-- `n = (date - datetime.date(date.year - 1, 12, 31)).days`: the ordinal
day of the year. -/
def dayOfYear (y m d : ℕ) : ℕ :=
  d + ((List.range m).map (monthLength (isLeap y))).sum

/-- The hour/minute extraction at the tail of `sun_rise_set` (`utils.py`
lines 549-557): truncate the local time to an hour, take the minute from
`localT % hour` (Python semantics, sign of the divisor) unless the hour is
zero, then patch negative values by adding a fixed 23 or 60. -/
def hmOfLocalT {α : Type} [LinearOrderedField α] [FloorRing α]
    (localT : α) : ℤ × ℤ :=
  let hour := pyInt localT
  let minute := if hour = 0 then pyInt (60 * localT)
    else pyInt (60 * pyMod localT ((hour : α)))
  let hour' := if hour < 0 then hour + 23 else hour
  let minute' := if minute < 0 then minute + 60 else minute
  (hour', minute')

/-- Outcome of `sun_rise_set`: a `datetime.time`, the `None` of the polar
branches, or the `ValueError` that `datetime.time` raises on an
out-of-range hour or minute. -/
inductive SunResult : Type
  | time (hour minute : ℤ)
  | noEvent
  | exn
  deriving DecidableEq, Repr

/-- `t` (`utils.py` lines 491-496). -/
noncomputable def sunT (n lngHour : ℝ) : Mode → ℝ
  | .rise => n + ((6 - lngHour) / 24)
  | .set => n + ((18 - lngHour) / 24)

/-- The Sun's mean anomaly `m` (`utils.py` line 499). -/
noncomputable def sunM (t : ℝ) : ℝ := (0.9856 * t) - 3.289

/-- The Sun's true longitude `l` (`utils.py` lines 502-504), including the
`abs(l) % 360` reduction. -/
noncomputable def sunL (m : ℝ) : ℝ :=
  pyMod |m + 1.916 * Real.sin (radians m) + 0.020 * Real.sin (2 * radians m)
    + 282.634| 360

/-- The quadrant-corrected right ascension in hours (`utils.py` lines
507-515). -/
noncomputable def sunRA (l : ℝ) : ℝ :=
  let ra := degreesR (Real.arctan (0.91764 * Real.tan (radians l)))
  let lQ := (⌊l / 90⌋ : ℝ) * 90
  let raQ := (⌊ra / 90⌋ : ℝ) * 90
  (ra + (lQ - raQ)) / 15

/-- `sinDec` (`utils.py` line 518). -/
noncomputable def sunSinDec (l : ℝ) : ℝ := 0.39782 * Real.sin (radians l)

/-- `cosDec` (`utils.py` line 519). -/
noncomputable def sunCosDec (l : ℝ) : ℝ := Real.cos (Real.arcsin (sunSinDec l))

/-- `cosH` (`utils.py` lines 522-524). -/
noncomputable def sunCosH (latitude zen l : ℝ) : ℝ :=
  (radians zen - sunSinDec l * Real.sin (radians latitude))
    / (sunCosDec l * Real.cos (radians latitude))

/-- `sun_rise_set` (`utils.py` lines 436-558). -/
noncomputable def sun_rise_set (latitude longitude : ℝ) (year month day : ℕ)
    (mode : Mode) (timezone : ℤ) (zenith : Zenith) : SunResult :=
  let zen := ZENITH zenith
  let n : ℝ := (dayOfYear year month day : ℕ)
  let lngHour := longitude / 15
  let t := sunT n lngHour mode
  let m := sunM t
  let l := sunL m
  let ra := sunRA l
  let cosH := sunCosH latitude zen l
  if 1 < cosH then .noEvent
  else if cosH < -1 then .noEvent
  else
    let h := (match mode with
      | Mode.rise => 360 - degreesR (Real.arccos cosH)
      | Mode.set => degreesR (Real.arccos cosH)) / 15
    let T := h + ra - (0.06571 * t) - 6.622
    let UT := T - lngHour
    let localT := UT + (timezone : ℝ) / 60
    let hm := hmOfLocalT localT
    if 0 ≤ hm.1 ∧ hm.1 ≤ 23 ∧ 0 ≤ hm.2 ∧ hm.2 ≤ 59 then .time hm.1 hm.2
    else .exn

/-- `sun_events` (`utils.py` lines 560-641). -/
noncomputable def sun_events (latitude longitude : ℝ) (year month day : ℕ)
    (timezone : ℤ) (zenith : Zenith) : SunResult × SunResult :=
  (sun_rise_set latitude longitude year month day .rise timezone zenith,
   sun_rise_set latitude longitude year month day .set timezone zenith)

/-- C3: when the computed local time is negative before the hour and minute
are extracted, the code adds a fixed 23 to a negative hour and a fixed 60 to
a negative minute — a one-step additive patch, not a true modulo-24-hour
correction (at `localT = -1/2` the patched hour is 0, while a modulo-24
reduction would give hour 23). -/
theorem c3_negative_time_fixup (localT : ℚ) :
    (pyInt localT < 0 → (hmOfLocalT localT).1 = pyInt localT + 23) ∧
    (∀ m0 : ℤ, m0 = (if pyInt localT = 0 then pyInt (60 * localT)
        else pyInt (60 * pyMod localT ((pyInt localT : ℚ)))) →
      m0 < 0 → (hmOfLocalT localT).2 = m0 + 60) ∧
    (hmOfLocalT ((-1 : ℚ)/2)).1 ≠ ⌊pyMod ((-1 : ℚ)/2) 24⌋ := by
  refine ⟨?_, ?_, ?_⟩
  · intro h
    simp only [hmOfLocalT]
    rw [if_pos h]
  · intro m0 hm0 hneg
    simp only [hmOfLocalT]
    rw [← hm0, if_pos hneg]
  · have h1 : pyInt ((-1 : ℚ)/2) = 0 := by
      norm_num [pyInt]
    have h2 : (hmOfLocalT ((-1 : ℚ)/2)).1 = 0 := by
      simp only [hmOfLocalT, h1]
      norm_num
    have h3 : ⌊pyMod ((-1 : ℚ)/2) 24⌋ = 23 := by
      unfold pyMod
      norm_num
    rw [h2, h3]
    norm_num

/-- C3 (witness): at `localT = -3/2` the truncated hour is `-1`, and the
patched hour is `-1 + 23 = 22`. -/
theorem c3_negative_time_witness :
    pyInt ((-3 : ℚ)/2) < 0 ∧ (hmOfLocalT ((-3 : ℚ)/2)).1 = pyInt ((-3 : ℚ)/2) + 23 :=
  ⟨by norm_num [pyInt], (c3_negative_time_fixup ((-3 : ℚ)/2)).1 (by norm_num [pyInt])⟩

/-- C4: whenever the cosine of the Sun's local hour angle falls outside
`[-1, 1]`, `sun_rise_set` returns the explicit no-event result (`None`) and
does not raise. -/
theorem c4_no_event (latitude longitude : ℝ) (year month day : ℕ)
    (mode : Mode) (timezone : ℤ) (zenith : Zenith)
    (h : 1 < sunCosH latitude (ZENITH zenith)
        (sunL (sunM (sunT ((dayOfYear year month day : ℕ) : ℝ) (longitude / 15) mode)))
      ∨ sunCosH latitude (ZENITH zenith)
        (sunL (sunM (sunT ((dayOfYear year month day : ℕ) : ℝ) (longitude / 15) mode))) < -1) :
    sun_rise_set latitude longitude year month day mode timezone zenith = .noEvent := by
  simp only [sun_rise_set]
  rcases h with h | h
  · rw [if_pos h]
  · rcases lt_or_le 1 (sunCosH latitude (ZENITH zenith)
      (sunL (sunM (sunT ((dayOfYear year month day : ℕ) : ℝ) (longitude / 15) mode)))) with h2 | h2
    · rw [if_pos h2]
    · rw [if_neg (not_lt.mpr h2), if_pos h]

/-- Bounds on the true longitude `l` for the polar-night witness date
(day 355 of 2007, rise mode, longitude 0): the mean anomaly is exactly
`1734227/5000` degrees and `l` lands between 267.5 and 271.5 degrees. -/
theorem c4_sunL_bounds :
    (267.5 : ℝ) ≤ sunL (1734227/5000) ∧ sunL (1734227/5000) ≤ 271.5 := by
  have hs1 : -1 ≤ Real.sin (radians (1734227/5000)) := Real.neg_one_le_sin _
  have hs2 : Real.sin (radians (1734227/5000)) ≤ 1 := Real.sin_le_one _
  have hs3 : -1 ≤ Real.sin (2 * radians (1734227/5000)) := Real.neg_one_le_sin _
  have hs4 : Real.sin (2 * radians (1734227/5000)) ≤ 1 := Real.sin_le_one _
  unfold sunL pyMod
  have hlo : (627.5 : ℝ) ≤ (1734227/5000 : ℝ)
      + 1.916 * Real.sin (radians (1734227/5000))
      + 0.020 * Real.sin (2 * radians (1734227/5000)) + 282.634 := by
    nlinarith
  have hhi : (1734227/5000 : ℝ)
      + 1.916 * Real.sin (radians (1734227/5000))
      + 0.020 * Real.sin (2 * radians (1734227/5000)) + 282.634 ≤ 631.5 := by
    nlinarith
  rw [abs_of_nonneg (by linarith)]
  have hfl : ⌊((1734227/5000 : ℝ)
      + 1.916 * Real.sin (radians (1734227/5000))
      + 0.020 * Real.sin (2 * radians (1734227/5000)) + 282.634) / 360⌋ = 1 := by
    rw [Int.floor_eq_iff]
    constructor
    · rw [le_div_iff₀ (by norm_num)]
      push_cast
      linarith
    · rw [div_lt_iff₀ (by norm_num)]
      push_cast
      linarith
  rw [hfl]
  constructor <;> push_cast <;> linarith

/-- Near 270 degrees the sine is within a thousandth of `-1`, so `sinDec`
is at most `-0.397` there (and at least `-0.39782` everywhere). -/
theorem c4_sinDec_bounds (l : ℝ) (h1 : (267.5 : ℝ) ≤ l) (h2 : l ≤ 271.5) :
    sunSinDec l ≤ -0.397 ∧ (-0.39782 : ℝ) ≤ sunSinDec l := by
  have hpi1 : (3.141592 : ℝ) < Real.pi := Real.pi_gt_d6
  have hpi2 : Real.pi < 3.141593 := Real.pi_lt_d6
  -- write sin (radians l) as -cos (radians l - 3π/2)
  have hid : Real.sin (radians l) = -Real.cos (radians l - 3 * Real.pi / 2) := by
    have h3 : radians l - 3 * Real.pi / 2 = (radians l + Real.pi / 2) - 2 * Real.pi := by
      ring
    rw [h3, Real.cos_sub_two_pi, Real.cos_add_pi_div_two, neg_neg]
  have hmul_lo : (-2.5 : ℝ) * Real.pi ≤ (l - 270) * Real.pi :=
    mul_le_mul_of_nonneg_right (by linarith) Real.pi_pos.le
  have hmul_hi : (l - 270) * Real.pi ≤ (1.5 : ℝ) * Real.pi :=
    mul_le_mul_of_nonneg_right (by linarith) Real.pi_pos.le
  have hy1 : -0.0437 ≤ radians l - 3 * Real.pi / 2 := by
    unfold radians
    nlinarith
  have hy2 : radians l - 3 * Real.pi / 2 ≤ 0.0262 := by
    unfold radians
    nlinarith
  have hyabs : |radians l - 3 * Real.pi / 2| ≤ 1 := by
    rw [abs_le]; constructor <;> linarith
  have hcb := Real.cos_bound hyabs
  rw [abs_le] at hcb
  have hy4 : |radians l - 3 * Real.pi / 2| ^ 4 ≤ 0.0437 ^ 4 := by
    have : |radians l - 3 * Real.pi / 2| ≤ 0.0437 := by
      rw [abs_le]; constructor <;> linarith
    exact pow_le_pow_left₀ (abs_nonneg _) this 4
  have hcos : (0.999 : ℝ) ≤ Real.cos (radians l - 3 * Real.pi / 2) := by
    nlinarith [sq_nonneg (radians l - 3 * Real.pi / 2),
      sq_abs (radians l - 3 * Real.pi / 2)]
  have hsin : Real.sin (radians l) ≤ -0.999 := by
    rw [hid]; linarith
  have hsin2 : -1 ≤ Real.sin (radians l) := Real.neg_one_le_sin _
  unfold sunSinDec
  constructor <;> nlinarith

set_option maxHeartbeats 1000000 in
/-- The polar-night inequality: at latitude 89 on day 355 the cosine of the
hour angle exceeds 1. -/
theorem c4_cosH_gt_one :
    1 < sunCosH 89 (ZENITH .official) (sunL (1734227/5000)) := by
  obtain ⟨hl1, hl2⟩ := c4_sunL_bounds
  obtain ⟨hs1, hs2⟩ := c4_sinDec_bounds _ hl1 hl2
  have hpi1 : (3.141592 : ℝ) < Real.pi := Real.pi_gt_d6
  have hpi2 : Real.pi < 3.141593 := Real.pi_lt_d6
  set l := sunL (1734227/5000) with hldef
  set s := sunSinDec l with hsdef
  have hs_sq : s ^ 2 ≤ (0.39782 : ℝ) ^ 2 := sq_le_sq' (by linarith) (by linarith)
  have hcosDec_eq : sunCosDec l = Real.sqrt (1 - s ^ 2) := Real.cos_arcsin s
  have hcosDec_pos : 0 < sunCosDec l := by
    rw [hcosDec_eq]
    apply Real.sqrt_pos.mpr
    nlinarith
  have hcosDec_le : sunCosDec l ≤ 1 := by
    rw [hcosDec_eq]
    calc Real.sqrt (1 - s ^ 2) ≤ Real.sqrt 1 := Real.sqrt_le_sqrt (by nlinarith)
    _ = 1 := Real.sqrt_one
  have h89 : radians (89 : ℝ) = Real.pi / 2 - Real.pi / 180 := by
    unfold radians
    ring
  have hsin89 : Real.sin (radians (89 : ℝ)) = Real.cos (Real.pi / 180) := by
    rw [h89, Real.sin_pi_div_two_sub]
  have hcos89 : Real.cos (radians (89 : ℝ)) = Real.sin (Real.pi / 180) := by
    rw [h89, Real.cos_pi_div_two_sub]
  have hc0 : (0 : ℝ) < Real.pi / 180 := by positivity
  have hc1 : Real.pi / 180 < 0.01746 := by linarith
  have hsin_c_pos : 0 < Real.sin (Real.pi / 180) :=
    Real.sin_pos_of_pos_of_lt_pi hc0 (by linarith)
  have hsin_c_lt : Real.sin (Real.pi / 180) < 0.01746 :=
    lt_trans (Real.sin_lt hc0) hc1
  have hcos_c_le : Real.cos (Real.pi / 180) ≤ 1 := Real.cos_le_one _
  have hcos_c_ge : (0.999 : ℝ) ≤ Real.cos (Real.pi / 180) := by
    have habs : |Real.pi / 180| ≤ 1 := by
      rw [abs_le]; constructor <;> linarith
    have hcb := Real.cos_bound habs
    rw [abs_le] at hcb
    have h4 : |Real.pi / 180| ^ 4 ≤ 0.01746 ^ 4 := by
      have hle : |Real.pi / 180| ≤ 0.01746 := by
        rw [abs_le]; constructor <;> linarith
      exact pow_le_pow_left₀ (abs_nonneg _) hle 4
    nlinarith [sq_nonneg (Real.pi / 180), sq_abs (Real.pi / 180)]
  have hzen : radians (ZENITH .official) = -(5 * Real.pi) / 1080 := by
    unfold radians ZENITH
    ring
  unfold sunCosH
  rw [hsin89, hcos89, hzen, ← hsdef]
  have hsc : s * Real.cos (Real.pi / 180) ≤ s * 0.999 :=
    mul_le_mul_of_nonpos_left hcos_c_ge (by linarith)
  have hnum : (0.38 : ℝ) ≤ -(5 * Real.pi) / 1080 - s * Real.cos (Real.pi / 180) := by
    linarith
  have hden_pos : 0 < sunCosDec l * Real.sin (Real.pi / 180) :=
    mul_pos hcosDec_pos hsin_c_pos
  have hden_le : sunCosDec l * Real.sin (Real.pi / 180) ≤ 0.01746 := by
    have hm := mul_le_mul hcosDec_le hsin_c_lt.le hsin_c_pos.le zero_le_one
    linarith
  rw [lt_div_iff₀ hden_pos]
  linarith

/-- C4 (witness): at latitude 89 on 2007-12-21 (day 355) in rise mode the
hour-angle cosine exceeds 1, and `sun_rise_set` returns the no-event result. -/
theorem c4_no_event_witness :
    sun_rise_set 89 0 2007 12 21 .rise 0 .official = .noEvent := by
  apply c4_no_event
  left
  have hd : dayOfYear 2007 12 21 = 355 := by decide
  rw [hd]
  have h1 : ((355 : ℕ) : ℝ) = (355 : ℝ) := by norm_num
  rw [h1]
  have h2 : sunT (355 : ℝ) ((0 : ℝ) / 15) .rise = 1421/4 := by norm_num [sunT]
  rw [h2]
  have h3 : sunM ((1421 : ℝ)/4) = 1734227/5000 := by norm_num [sunM]
  rw [h3]
  exact c4_cosH_gt_one

section
open Complex Finset

theorem expSum10 (z : ℂ) : (∑ m in Finset.range 10, z ^ m / m.factorial) =
    1 + z + z^2/2 + z^3/6 + z^4/24 + z^5/120 + z^6/720 + z^7/5040 + z^8/40320 + z^9/362880 := by
  simp [Finset.sum_range_succ, Nat.factorial]

theorem cosSum10 (x : ℝ) :
    (∑ m in Finset.range 10, ((x:ℂ) * I) ^ m / m.factorial)
      + (∑ m in Finset.range 10, (-(x:ℂ) * I) ^ m / m.factorial)
    = 2 - (x:ℂ)^2 + (x:ℂ)^4/12 - (x:ℂ)^6/360 + (x:ℂ)^8/20160 := by
  rw [expSum10, expSum10]
  have p2 : (I:ℂ)^2 = -1 := Complex.I_sq
  have p3 : (I:ℂ)^3 = -I := by rw [pow_succ, p2]; ring
  have p4 : (I:ℂ)^4 = 1 := by rw [pow_succ, p3]; simp [Complex.I_mul_I]
  have p5 : (I:ℂ)^5 = I := by rw [pow_succ, p4]; ring
  have p6 : (I:ℂ)^6 = -1 := by rw [pow_succ, p5]; simp [Complex.I_mul_I]
  have p7 : (I:ℂ)^7 = -I := by rw [pow_succ, p6]; ring
  have p8 : (I:ℂ)^8 = 1 := by rw [pow_succ, p7]; simp [Complex.I_mul_I]
  have p9 : (I:ℂ)^9 = I := by rw [pow_succ, p8]; ring
  simp only [mul_pow, p2, p3, p4, p5, p6, p7, p8, p9]
  ring

theorem sinSum10 (x : ℝ) :
    ((∑ m in Finset.range 10, (-(x:ℂ) * I) ^ m / m.factorial)
      - (∑ m in Finset.range 10, ((x:ℂ) * I) ^ m / m.factorial)) * I
    = 2 * (x:ℂ) - (x:ℂ)^3/3 + (x:ℂ)^5/60 - (x:ℂ)^7/2520 + (x:ℂ)^9/181440 := by
  rw [expSum10, expSum10]
  have p2 : (I:ℂ)^2 = -1 := Complex.I_sq
  have p3 : (I:ℂ)^3 = -I := by rw [pow_succ, p2]; ring
  have p4 : (I:ℂ)^4 = 1 := by rw [pow_succ, p3]; simp [Complex.I_mul_I]
  have p5 : (I:ℂ)^5 = I := by rw [pow_succ, p4]; ring
  have p6 : (I:ℂ)^6 = -1 := by rw [pow_succ, p5]; simp [Complex.I_mul_I]
  have p7 : (I:ℂ)^7 = -I := by rw [pow_succ, p6]; ring
  have p8 : (I:ℂ)^8 = 1 := by rw [pow_succ, p7]; simp [Complex.I_mul_I]
  have p9 : (I:ℂ)^9 = I := by rw [pow_succ, p8]; ring
  simp only [mul_pow, p2, p3, p4, p5, p6, p7, p8, p9]
  ring_nf
  simp only [p2]
  ring

theorem cos_taylor9 {x : ℝ} (hx : |x| ≤ 1) :
    |Real.cos x - (1 - x^2/2 + x^4/24 - x^6/720 + x^8/40320)| ≤ |x|^10 * (11/36288000) :=
  calc
    |Real.cos x - (1 - x^2/2 + x^4/24 - x^6/720 + x^8/40320)|
        = Complex.abs (Complex.cos x - (1 - (x:ℂ)^2/2 + (x:ℂ)^4/24 - (x:ℂ)^6/720 + (x:ℂ)^8/40320)) := by
      rw [← Complex.abs_ofReal]
      congr 1
      push_cast
      simp
    _ = Complex.abs ((Complex.exp (x * I) + Complex.exp (-x * I)
          - (2 - (x:ℂ)^2 + (x:ℂ)^4/12 - (x:ℂ)^6/360 + (x:ℂ)^8/20160)) / 2) := by
      rw [Complex.cos]
      congr 1
      field_simp
      ring
    _ = Complex.abs (((Complex.exp (x * I) - ∑ m in range 10, (x * I) ^ m / m.factorial) +
          (Complex.exp (-x * I) - ∑ m in range 10, (-x * I) ^ m / m.factorial)) / 2) := by
      congr 2
      have h := cosSum10 x
      push_cast at h
      linear_combination h
    _ ≤ Complex.abs ((Complex.exp (x * I) - ∑ m in range 10, (x * I) ^ m / m.factorial) / 2) +
          Complex.abs ((Complex.exp (-x * I) - ∑ m in range 10, (-x * I) ^ m / m.factorial) / 2) := by
      rw [add_div]; exact Complex.abs.add_le _ _
    _ = Complex.abs (Complex.exp (x * I) - ∑ m in range 10, (x * I) ^ m / m.factorial) / 2 +
          Complex.abs (Complex.exp (-x * I) - ∑ m in range 10, (-x * I) ^ m / m.factorial) / 2 := by
      simp [map_div₀]
    _ ≤ Complex.abs ((x:ℂ) * I) ^ 10 * (Nat.succ 10 * ((Nat.factorial 10) * (10 : ℕ) : ℝ)⁻¹) / 2 +
          Complex.abs (-(x:ℂ) * I) ^ 10 * (Nat.succ 10 * ((Nat.factorial 10) * (10 : ℕ) : ℝ)⁻¹) / 2 := by
      gcongr
      · exact Complex.exp_bound (by simpa) (by decide)
      · exact Complex.exp_bound (by simpa) (by decide)
    _ ≤ |x| ^ 10 * (11/36288000) := by
      simp [map_mul, Complex.abs_I, Complex.abs_ofReal, Nat.factorial]
      norm_num

theorem sin_taylor9 {x : ℝ} (hx : |x| ≤ 1) :
    |Real.sin x - (x - x^3/6 + x^5/120 - x^7/5040 + x^9/362880)| ≤ |x|^10 * (11/36288000) :=
  calc
    |Real.sin x - (x - x^3/6 + x^5/120 - x^7/5040 + x^9/362880)|
        = Complex.abs (Complex.sin x - ((x:ℂ) - (x:ℂ)^3/6 + (x:ℂ)^5/120 - (x:ℂ)^7/5040 + (x:ℂ)^9/362880)) := by
      rw [← Complex.abs_ofReal]
      congr 1
      push_cast
      simp
    _ = Complex.abs (((Complex.exp (-x * I) - Complex.exp (x * I)) * I
          - (2 * (x:ℂ) - (x:ℂ)^3/3 + (x:ℂ)^5/60 - (x:ℂ)^7/2520 + (x:ℂ)^9/181440)) / 2) := by
      rw [Complex.sin]
      congr 1
      field_simp
      ring
    _ = Complex.abs ((((Complex.exp (-x * I) - ∑ m in range 10, (-x * I) ^ m / m.factorial) -
          (Complex.exp (x * I) - ∑ m in range 10, (x * I) ^ m / m.factorial)) * I) / 2) := by
      congr 2
      have h := sinSum10 x
      push_cast at h
      linear_combination h
    _ ≤ Complex.abs (((Complex.exp (-x * I) - ∑ m in range 10, (-x * I) ^ m / m.factorial) * I) / 2) +
          Complex.abs (((Complex.exp (x * I) - ∑ m in range 10, (x * I) ^ m / m.factorial) * I) / 2) := by
      rw [sub_mul, sub_div, sub_eq_add_neg]
      refine le_trans (Complex.abs.add_le _ _) ?_
      rw [AbsoluteValue.map_neg]
    _ = Complex.abs (Complex.exp (-x * I) - ∑ m in range 10, (-x * I) ^ m / m.factorial) / 2 +
          Complex.abs (Complex.exp (x * I) - ∑ m in range 10, (x * I) ^ m / m.factorial) / 2 := by
      simp [map_div₀, map_mul, Complex.abs_I]
    _ ≤ Complex.abs (-(x:ℂ) * I) ^ 10 * (Nat.succ 10 * ((Nat.factorial 10) * (10 : ℕ) : ℝ)⁻¹) / 2 +
          Complex.abs ((x:ℂ) * I) ^ 10 * (Nat.succ 10 * ((Nat.factorial 10) * (10 : ℕ) : ℝ)⁻¹) / 2 := by
      gcongr
      · exact Complex.exp_bound (by simpa) (by decide)
      · exact Complex.exp_bound (by simpa) (by decide)
    _ ≤ |x| ^ 10 * (11/36288000) := by
      simp [map_mul, Complex.abs_I, Complex.abs_ofReal, Nat.factorial]
      norm_num

end

theorem taylor_even_abs {a : ℝ} : |a|^10 = a^10 := by
  rw [pow_abs]
  exact abs_of_nonneg (by positivity)

theorem sin_taylor9_pt {c : ℝ} (hc : |c| ≤ 1) :
    c - c^3/6 + c^5/120 - c^7/5040 + c^9/362880 - c^10 * (11/36288000) ≤ Real.sin c ∧
      Real.sin c ≤ c - c^3/6 + c^5/120 - c^7/5040 + c^9/362880 + c^10 * (11/36288000) := by
  have h := sin_taylor9 hc
  rw [abs_le, taylor_even_abs] at h
  exact ⟨by linarith [h.1], by linarith [h.2]⟩

theorem cos_taylor9_pt {c : ℝ} (hc : |c| ≤ 1) :
    1 - c^2/2 + c^4/24 - c^6/720 + c^8/40320 - c^10 * (11/36288000) ≤ Real.cos c ∧
      Real.cos c ≤ 1 - c^2/2 + c^4/24 - c^6/720 + c^8/40320 + c^10 * (11/36288000) := by
  have h := cos_taylor9 hc
  rw [abs_le, taylor_even_abs] at h
  exact ⟨by linarith [h.1], by linarith [h.2]⟩

theorem sin_ge_lo {a x : ℝ} (ha1 : |a| ≤ 1) (hax : a ≤ x) (hx : x ≤ Real.pi / 2) :
    (a - a^3/6 + a^5/120 - a^7/5040 + a^9/362880) - a^10 * (11/36288000) ≤ Real.sin x := by
  have h := (sin_taylor9_pt ha1).1
  rw [abs_le] at ha1
  have hpi := Real.pi_gt_three
  have h2 : Real.sin a ≤ Real.sin x := by
    rcases eq_or_lt_of_le hax with h | h
    · rw [h]
    · exact (Real.sin_lt_sin_of_lt_of_le_pi_div_two (by linarith) hx h).le
  linarith

theorem sin_le_hi {x b : ℝ} (hb1 : |b| ≤ 1) (hxb : x ≤ b) (hx : -(Real.pi/2) ≤ x) :
    Real.sin x ≤ (b - b^3/6 + b^5/120 - b^7/5040 + b^9/362880) + b^10 * (11/36288000) := by
  have h := (sin_taylor9_pt hb1).2
  rw [abs_le] at hb1
  have hpi := Real.pi_gt_three
  have h2 : Real.sin x ≤ Real.sin b := by
    rcases eq_or_lt_of_le hxb with h | h
    · rw [h]
    · exact (Real.sin_lt_sin_of_lt_of_le_pi_div_two hx (by linarith) h).le
  linarith

theorem cos_le_hi {a x : ℝ} (ha1 : |a| ≤ 1) (h0 : 0 ≤ a) (hax : a ≤ x) (hx : x ≤ Real.pi) :
    Real.cos x ≤ (1 - a^2/2 + a^4/24 - a^6/720 + a^8/40320) + a^10 * (11/36288000) := by
  have h := (cos_taylor9_pt ha1).2
  have h2 : Real.cos x ≤ Real.cos a := by
    rcases eq_or_lt_of_le hax with h | h
    · rw [h]
    · exact (Real.cos_lt_cos_of_nonneg_of_le_pi h0 hx h).le
  linarith

theorem cos_ge_lo {x b : ℝ} (hb1 : |b| ≤ 1) (h0 : 0 ≤ x) (hxb : x ≤ b) :
    (1 - b^2/2 + b^4/24 - b^6/720 + b^8/40320) - b^10 * (11/36288000) ≤ Real.cos x := by
  have h := (cos_taylor9_pt hb1).1
  rw [abs_le] at hb1
  have hpi := Real.pi_gt_three
  have h2 : Real.cos b ≤ Real.cos x := by
    rcases eq_or_lt_of_le hxb with h | h
    · rw [h]
    · exact (Real.cos_lt_cos_of_nonneg_of_le_pi h0 (by linarith) h).le
  linarith

theorem arctan_ge {w c : ℝ} (hc1 : -(Real.pi/2) < c) (hc2 : c < Real.pi/2)
    (h : Real.tan c ≤ w) : c ≤ Real.arctan w :=
  calc c = Real.arctan (Real.tan c) := (Real.arctan_tan hc1 hc2).symm
  _ ≤ Real.arctan w := Real.arctan_strictMono.monotone h

theorem arctan_le {w c : ℝ} (hc1 : -(Real.pi/2) < c) (hc2 : c < Real.pi/2)
    (h : w ≤ Real.tan c) : Real.arctan w ≤ c :=
  calc Real.arctan w ≤ Real.arctan (Real.tan c) := Real.arctan_strictMono.monotone h
  _ = c := Real.arctan_tan hc1 hc2

theorem arcsin_ge {s c : ℝ} (hc1 : -(Real.pi/2) ≤ c) (hc2 : c ≤ Real.pi/2)
    (h : Real.sin c ≤ s) : c ≤ Real.arcsin s :=
  calc c = Real.arcsin (Real.sin c) := (Real.arcsin_sin hc1 hc2).symm
  _ ≤ Real.arcsin s := Real.monotone_arcsin h

theorem arcsin_le {s c : ℝ} (hc1 : -(Real.pi/2) ≤ c) (hc2 : c ≤ Real.pi/2)
    (h : s ≤ Real.sin c) : Real.arcsin s ≤ c :=
  calc Real.arcsin s ≤ Real.arcsin (Real.sin c) := Real.monotone_arcsin h
  _ = c := Real.arcsin_sin hc1 hc2

theorem hm_342 {L : ℝ} (h1 : (3.7:ℝ) ≤ L) (h2 : L < 3 + 43/60) :
    hmOfLocalT L = ((3:ℤ), (42:ℤ)) := by
  have hfl : ⌊L⌋ = (3:ℤ) := by
    rw [Int.floor_eq_iff]
    constructor
    · push_cast; linarith
    · push_cast; linarith
  have hint : pyInt L = 3 := by
    unfold pyInt
    rw [if_pos (by linarith : (0:ℝ) ≤ L), hfl]
  have hfl3 : ⌊L / 3⌋ = (1:ℤ) := by
    rw [Int.floor_eq_iff]
    constructor
    · push_cast; rw [le_div_iff₀ (by norm_num : (0:ℝ) < 3)]; linarith
    · push_cast; rw [div_lt_iff₀ (by norm_num : (0:ℝ) < 3)]; linarith
  have hmod : pyMod L ((3:ℤ):ℝ) = L - 3 := by
    unfold pyMod
    push_cast
    rw [hfl3]
    push_cast
    ring
  have hmin : pyInt (60 * pyMod L ((3:ℤ):ℝ)) = 42 := by
    rw [hmod]
    unfold pyInt
    rw [if_pos (by linarith : (0:ℝ) ≤ 60 * (L - 3))]
    rw [Int.floor_eq_iff]
    constructor
    · push_cast; linarith
    · push_cast; linarith
  unfold hmOfLocalT
  rw [hint]
  simp only [show ((3:ℤ) = 0) = False from by simp, if_false]
  rw [hmin]
  norm_num

theorem hm_2025 {L : ℝ} (h1 : (-3.6:ℝ) < L) (h2 : L ≤ -3 - 35/60) :
    hmOfLocalT L = ((20:ℤ), (25:ℤ)) := by
  have hfl : ⌊-L⌋ = (3:ℤ) := by
    rw [Int.floor_eq_iff]
    constructor
    · push_cast; linarith
    · push_cast; linarith
  have hint : pyInt L = -3 := by
    unfold pyInt
    rw [if_neg (by push_neg; linarith : ¬ (0:ℝ) ≤ L), hfl]
  have hfl3 : ⌊L / ((-3:ℤ):ℝ)⌋ = (1:ℤ) := by
    have : L / ((-3:ℤ):ℝ) = L / (-3) := by norm_num
    rw [this, Int.floor_eq_iff]
    constructor
    · push_cast
      rw [le_div_iff_of_neg (by norm_num : (-3:ℝ) < 0)]
      linarith
    · push_cast
      rw [div_lt_iff_of_neg (by norm_num : (-3:ℝ) < 0)]
      linarith
  have hmod : pyMod L ((-3:ℤ):ℝ) = L + 3 := by
    unfold pyMod
    rw [hfl3]
    push_cast
    ring
  have hmin : pyInt (60 * pyMod L ((-3:ℤ):ℝ)) = -35 := by
    rw [hmod]
    unfold pyInt
    rw [if_neg (by push_neg; linarith : ¬ (0:ℝ) ≤ 60 * (L + 3))]
    have : ⌊-(60 * (L + 3))⌋ = (35:ℤ) := by
      rw [Int.floor_eq_iff]
      constructor
      · push_cast; linarith
      · push_cast; linarith
    rw [this]
  unfold hmOfLocalT
  rw [hint]
  simp only [show ((-3:ℤ) = 0) = False from by simp, if_false]
  rw [hmin]
  norm_num

theorem sunL_bounds_r :
    (96.2306952041 : ℝ) ≤ sunL (1219080973/7031250) ∧
      sunL (1219080973/7031250) ≤ 96.23069520415 := by
  have hpl : (3.14159265358979323846 : ℝ) < Real.pi := Real.pi_gt_d20
  have hph : Real.pi < 3.14159265358979323847 := Real.pi_lt_d20
  have hy1 : (0.11553372704 : ℝ) ≤ Real.pi - radians (1219080973/7031250) := by
    unfold radians; linarith
  have hy2 : Real.pi - radians (1219080973/7031250) ≤ 0.11553372705 := by
    unfold radians; linarith
  have hs1 : (0.11527687368 : ℝ) ≤ Real.sin (Real.pi - radians (1219080973/7031250)) := by
    have hA := sin_ge_lo (abs_le.mpr (by norm_num)) hy1
      (show Real.pi - radians (1219080973/7031250) ≤ Real.pi/2 by unfold radians; linarith)
    linarith
  have hs2 : Real.sin (Real.pi - radians (1219080973/7031250)) ≤ 0.1152768737 := by
    have hA := sin_le_hi (abs_le.mpr (by norm_num)) hy2
      (show -(Real.pi/2) ≤ Real.pi - radians (1219080973/7031250) by unfold radians; linarith)
    linarith
  have h2y1 : (0.23106745408 : ℝ) ≤ 2*(Real.pi - radians (1219080973/7031250)) := by linarith
  have h2y2 : 2*(Real.pi - radians (1219080973/7031250)) ≤ 0.2310674541 := by linarith
  have hs21 : (0.22901673761 : ℝ) ≤ Real.sin (2*(Real.pi - radians (1219080973/7031250))) := by
    have hA := sin_ge_lo (abs_le.mpr (by norm_num)) h2y1
      (show 2*(Real.pi - radians (1219080973/7031250)) ≤ Real.pi/2 by unfold radians; linarith)
    linarith
  have hs22 : Real.sin (2*(Real.pi - radians (1219080973/7031250))) ≤ 0.22901673764 := by
    have hA := sin_le_hi (abs_le.mpr (by norm_num)) h2y2
      (show -(Real.pi/2) ≤ 2*(Real.pi - radians (1219080973/7031250)) by unfold radians; linarith)
    linarith
  have hsm : Real.sin (radians (1219080973/7031250))
      = Real.sin (Real.pi - radians (1219080973/7031250)) := (Real.sin_pi_sub _).symm
  have h2eq : Real.sin (2 * radians (1219080973/7031250))
      = -Real.sin (2*(Real.pi - radians (1219080973/7031250))) := by
    have harg : 2 * radians (1219080973/7031250) - 2*Real.pi
        = -(2*(Real.pi - radians (1219080973/7031250))) := by ring
    rw [← Real.sin_sub_two_pi (2 * radians (1219080973/7031250)), harg, Real.sin_neg]
  have hpos : (0:ℝ) < (1219080973/7031250 : ℝ) + 1.916 * Real.sin (radians (1219080973/7031250))
      + 0.020 * Real.sin (2 * radians (1219080973/7031250)) + 282.634 := by
    rw [hsm, h2eq]; linarith
  have hin1 : (456.2306952041 : ℝ) ≤ (1219080973/7031250 : ℝ)
      + 1.916 * Real.sin (radians (1219080973/7031250))
      + 0.020 * Real.sin (2 * radians (1219080973/7031250)) + 282.634 := by
    rw [hsm, h2eq]; linarith
  have hin2 : (1219080973/7031250 : ℝ) + 1.916 * Real.sin (radians (1219080973/7031250))
      + 0.020 * Real.sin (2 * radians (1219080973/7031250)) + 282.634 ≤ 456.23069520415 := by
    rw [hsm, h2eq]; linarith
  have habs : |(1219080973/7031250 : ℝ) + 1.916 * Real.sin (radians (1219080973/7031250))
      + 0.020 * Real.sin (2 * radians (1219080973/7031250)) + 282.634|
      = (1219080973/7031250 : ℝ) + 1.916 * Real.sin (radians (1219080973/7031250))
      + 0.020 * Real.sin (2 * radians (1219080973/7031250)) + 282.634 := abs_of_pos hpos
  have hfl : (⌊((1219080973/7031250 : ℝ) + 1.916 * Real.sin (radians (1219080973/7031250))
      + 0.020 * Real.sin (2 * radians (1219080973/7031250)) + 282.634) / 360⌋ : ℤ) = 1 := by
    rw [Int.floor_eq_iff]
    constructor
    · push_cast; rw [le_div_iff₀ (by norm_num : (0:ℝ) < 360)]; linarith
    · push_cast; rw [div_lt_iff₀ (by norm_num : (0:ℝ) < 360)]; linarith
  unfold sunL pyMod
  rw [habs, hfl]
  push_cast
  constructor
  · linarith
  · linarith

theorem trig_u_r {l : ℝ} (h1 : (96.2306952041:ℝ) ≤ l) (h2 : l ≤ 96.23069520415) :
    ((0.99409296255:ℝ) ≤ Real.cos (radians l - Real.pi/2)
      ∧ Real.cos (radians l - Real.pi/2) ≤ 0.99409296256)
    ∧ ((0.10853193903:ℝ) ≤ Real.sin (radians l - Real.pi/2)
      ∧ Real.sin (radians l - Real.pi/2) ≤ 0.10853193906) := by
  have hpl : (3.14159265358979323846 : ℝ) < Real.pi := Real.pi_gt_d20
  have hph : Real.pi < 3.14159265358979323847 := Real.pi_lt_d20
  have hueq : radians l - Real.pi/2 = ((l - 90)/180) * Real.pi := by unfold radians; ring
  have hu1 : (0.10874614599:ℝ) ≤ radians l - Real.pi/2 := by
    rw [hueq]
    have hm := mul_le_mul (show ((96.2306952041:ℝ) - 90)/180 ≤ (l - 90)/180 by linarith)
      hpl.le (by norm_num) (by linarith)
    linarith
  have hu2 : radians l - Real.pi/2 ≤ 0.10874614601 := by
    rw [hueq]
    have hm := mul_le_mul (show (l - 90)/180 ≤ ((96.23069520415:ℝ) - 90)/180 by linarith)
      hph.le Real.pi_pos.le (by norm_num)
    linarith
  refine ⟨⟨?_, ?_⟩, ?_, ?_⟩
  · have hA := cos_ge_lo (abs_le.mpr (by norm_num))
      (show (0:ℝ) ≤ radians l - Real.pi/2 by linarith) hu2
    linarith
  · have hA := cos_le_hi (abs_le.mpr (by norm_num)) (by norm_num) hu1
      (show radians l - Real.pi/2 ≤ Real.pi by linarith)
    linarith
  · have hA := sin_ge_lo (abs_le.mpr (by norm_num)) hu1
      (show radians l - Real.pi/2 ≤ Real.pi/2 by linarith)
    linarith
  · have hA := sin_le_hi (abs_le.mpr (by norm_num)) hu2
      (show -(Real.pi/2) ≤ radians l - Real.pi/2 by linarith)
    linarith

set_option maxHeartbeats 1000000 in
theorem sunRA_bounds_r {l : ℝ} (h1 : (96.2306952041:ℝ) ≤ l) (h2 : l ≤ 96.23069520415) :
    (6.45232738722:ℝ) ≤ sunRA l ∧ sunRA l ≤ 6.45232738818 := by
  have hpl : (3.14159265358979323846 : ℝ) < Real.pi := Real.pi_gt_d20
  have hph : Real.pi < 3.14159265358979323847 := Real.pi_lt_d20
  have hpi0 : (0:ℝ) < Real.pi := Real.pi_pos
  obtain ⟨⟨hcu1, hcu2⟩, hsu1, hsu2⟩ := trig_u_r h1 h2
  have hsu_pos : (0:ℝ) < Real.sin (radians l - Real.pi/2) := by linarith
  have hsinl : Real.sin (radians l) = Real.cos (radians l - Real.pi/2) :=
    (Real.cos_sub_pi_div_two _).symm
  have hcosl : Real.cos (radians l) = -Real.sin (radians l - Real.pi/2) := by
    have := Real.sin_sub_pi_div_two (radians l); linarith
  have htan : Real.tan (radians l)
      = Real.cos (radians l - Real.pi/2) / -Real.sin (radians l - Real.pi/2) := by
    rw [Real.tan_eq_sin_div_cos, hsinl, hcosl]
  have hv1 : (-8.40507848949:ℝ) ≤ 0.91764 * Real.tan (radians l) := by
    rw [htan, div_neg, mul_neg, le_neg, ← mul_div_assoc, div_le_iff₀ hsu_pos]
    linarith
  have hv2 : 0.91764 * Real.tan (radians l) ≤ -8.40507848708 := by
    rw [htan, div_neg, mul_neg, neg_le, ← mul_div_assoc, le_div_iff₀ hsu_pos]
    linarith
  have hv_neg : 0.91764 * Real.tan (radians l) < 0 := by linarith
  have hati := Real.arctan_inv_of_neg hv_neg
  have hw1 : (-0.11897568852:ℝ) ≤ (0.91764 * Real.tan (radians l))⁻¹ := by
    rw [inv_eq_one_div, le_div_iff_of_neg hv_neg]
    linarith [hv2]
  have hw2 : (0.91764 * Real.tan (radians l))⁻¹ ≤ -0.11897568847 := by
    rw [inv_eq_one_div, div_le_iff_of_neg hv_neg]
    linarith [hv1]
  have hc1 : (-0.11841903331:ℝ) ≤ Real.arctan ((0.91764 * Real.tan (radians l))⁻¹) := by
    apply arctan_ge (by linarith) (by linarith)
    rw [show Real.tan (-0.11841903331:ℝ) = Real.sin (-0.11841903331:ℝ) / Real.cos (-0.11841903331:ℝ) from Real.tan_eq_sin_div_cos _]
    have hs := sin_taylor9_pt (abs_le.mpr (by norm_num) : |(-0.11841903331:ℝ)| ≤ 1)
    have hc := cos_taylor9_pt (abs_le.mpr (by norm_num) : |(-0.11841903331:ℝ)| ≤ 1)
    have hcpos : (0:ℝ) < Real.cos (-0.11841903331:ℝ) := by linarith [hc.1]
    rw [div_le_iff₀ hcpos]
    have hcle : Real.cos (-0.11841903331:ℝ) ≤ 0.99299665605 := by linarith [hc.2]
    have hB := mul_le_mul_of_nonpos_left hcle (show (-0.11897568852:ℝ) ≤ 0 by norm_num)
    have hA := mul_le_mul_of_nonneg_right hw1 hcpos.le
    linarith [hs.2, hA, hB]
  have hc2 : Real.arctan ((0.91764 * Real.tan (radians l))⁻¹) ≤ -0.11841903306 := by
    apply arctan_le (by linarith) (by linarith)
    rw [show Real.tan (-0.11841903306:ℝ) = Real.sin (-0.11841903306:ℝ) / Real.cos (-0.11841903306:ℝ) from Real.tan_eq_sin_div_cos _]
    have hs := sin_taylor9_pt (abs_le.mpr (by norm_num) : |(-0.11841903306:ℝ)| ≤ 1)
    have hc := cos_taylor9_pt (abs_le.mpr (by norm_num) : |(-0.11841903306:ℝ)| ≤ 1)
    have hcpos : (0:ℝ) < Real.cos (-0.11841903306:ℝ) := by linarith [hc.1]
    rw [le_div_iff₀ hcpos]
    have hcge : (0.99299665607:ℝ) ≤ Real.cos (-0.11841903306:ℝ) := by linarith [hc.1]
    have hB := mul_le_mul_of_nonpos_left hcge (show (-0.11897568847:ℝ) ≤ 0 by norm_num)
    have hA := mul_le_mul_of_nonneg_right hw2 hcpos.le
    linarith [hs.1, hA, hB]
  have hat_v : Real.arctan (0.91764 * Real.tan (radians l))
      = -(Real.pi/2) - Real.arctan ((0.91764 * Real.tan (radians l))⁻¹) := by
    linarith [hati]
  have hX1 : (-6.78491082269:ℝ)
      ≤ Real.arctan ((0.91764 * Real.tan (radians l))⁻¹) * 180 / Real.pi := by
    rw [le_div_iff₀ hpi0]
    have hB := mul_le_mul_of_nonpos_left hpl.le (show (-6.78491082269:ℝ) ≤ 0 by norm_num)
    linarith [hc1, hB]
  have hX2 : Real.arctan ((0.91764 * Real.tan (radians l))⁻¹) * 180 / Real.pi
      ≤ -6.78491080835 := by
    rw [div_le_iff₀ hpi0]
    have hB := mul_le_mul_of_nonpos_left hph.le (show (-6.78491080835:ℝ) ≤ 0 by norm_num)
    linarith [hc2, hB]
  have hfl : (⌊l / 90⌋ : ℤ) = 1 := by
    rw [Int.floor_eq_iff]
    constructor
    · push_cast; rw [le_div_iff₀ (by norm_num : (0:ℝ) < 90)]; linarith
    · push_cast; rw [div_lt_iff₀ (by norm_num : (0:ℝ) < 90)]; linarith
  have hra_val : degreesR (Real.arctan (0.91764 * Real.tan (radians l)))
      = -90 - Real.arctan ((0.91764 * Real.tan (radians l))⁻¹) * 180 / Real.pi := by
    unfold degreesR
    rw [hat_v]
    field_simp
    ring
  have hfra : (⌊(-90 - Real.arctan ((0.91764 * Real.tan (radians l))⁻¹) * 180 / Real.pi) / 90⌋ : ℤ)
      = -1 := by
    rw [Int.floor_eq_iff]
    constructor
    · push_cast; rw [le_div_iff₀ (by norm_num : (0:ℝ) < 90)]; linarith
    · push_cast; rw [div_lt_iff₀ (by norm_num : (0:ℝ) < 90)]; linarith
  simp only [sunRA]
  rw [hra_val, hfl, hfra]
  push_cast
  constructor
  · rw [le_div_iff₀ (by norm_num : (0:ℝ) < 15)]
    linarith
  · rw [div_le_iff₀ (by norm_num : (0:ℝ) < 15)]
    linarith

theorem sinDec_bounds_r {l : ℝ} (h1 : (96.2306952041:ℝ) ≤ l) (h2 : l ≤ 96.23069520415) :
    (0.39547006236:ℝ) ≤ sunSinDec l ∧ sunSinDec l ≤ 0.39547006237 := by
  obtain ⟨⟨hcu1, hcu2⟩, _, _⟩ := trig_u_r h1 h2
  have hsinl : Real.sin (radians l) = Real.cos (radians l - Real.pi/2) :=
    (Real.cos_sub_pi_div_two _).symm
  unfold sunSinDec
  rw [hsinl]
  constructor
  · linarith
  · linarith

theorem cosDec_bounds_r {l : ℝ} (h1 : (96.2306952041:ℝ) ≤ l) (h2 : l ≤ 96.23069520415) :
    (0.91847886725:ℝ) ≤ sunCosDec l ∧ sunCosDec l ≤ 0.91847886746 := by
  obtain ⟨hsd1, hsd2⟩ := sinDec_bounds_r h1 h2
  unfold sunCosDec
  rw [Real.cos_arcsin]
  constructor
  · apply Real.le_sqrt_of_sq_le
    nlinarith
  · rw [Real.sqrt_le_iff]
    constructor
    · norm_num
    · nlinarith

theorem phi_bounds :
    ((0.78817179973:ℝ) ≤ Real.sin (radians 52.015) ∧ Real.sin (radians 52.015) ≤ 0.78817203027)
    ∧ ((0.61545514236:ℝ) ≤ Real.cos (radians 52.015)
      ∧ Real.cos (radians 52.015) ≤ 0.6154553729) := by
  have hpl : (3.14159265358979323846 : ℝ) < Real.pi := Real.pi_gt_d20
  have hph : Real.pi < 3.14159265358979323847 := Real.pi_lt_d20
  have hf1 : (0.90783301042:ℝ) ≤ radians 52.015 := by unfold radians; linarith
  have hf2 : radians 52.015 ≤ 0.90783301043 := by unfold radians; linarith
  refine ⟨⟨?_, ?_⟩, ?_, ?_⟩
  · have hA := sin_ge_lo (abs_le.mpr (by norm_num)) hf1
      (show radians 52.015 ≤ Real.pi/2 by unfold radians; linarith)
    linarith
  · have hA := sin_le_hi (abs_le.mpr (by norm_num)) hf2
      (show -(Real.pi/2) ≤ radians 52.015 by unfold radians; linarith)
    linarith
  · have hA := cos_ge_lo (abs_le.mpr (by norm_num))
      (show (0:ℝ) ≤ radians 52.015 by unfold radians; linarith) hf2
    linarith
  · have hA := cos_le_hi (abs_le.mpr (by norm_num)) (by norm_num) hf1
      (show radians 52.015 ≤ Real.pi by unfold radians; linarith)
    linarith

theorem cosH_bounds_r {l : ℝ} (h1 : (96.2306952041:ℝ) ≤ l) (h2 : l ≤ 96.23069520415) :
    (-0.57713236865:ℝ) ≤ sunCosH 52.015 (ZENITH .official) l
      ∧ sunCosH 52.015 (ZENITH .official) l ≤ -0.57713199097 := by
  have hpl : (3.14159265358979323846 : ℝ) < Real.pi := Real.pi_gt_d20
  have hph : Real.pi < 3.14159265358979323847 := Real.pi_lt_d20
  obtain ⟨⟨hsp1, hsp2⟩, hcp1, hcp2⟩ := phi_bounds
  obtain ⟨hsd1, hsd2⟩ := sinDec_bounds_r h1 h2
  obtain ⟨hcd1, hcd2⟩ := cosDec_bounds_r h1 h2
  have hz1 : (-0.01454441044:ℝ) ≤ radians (ZENITH .official) := by
    simp only [ZENITH]; unfold radians; linarith
  have hz2 : radians (ZENITH .official) ≤ -0.01454441043 := by
    simp only [ZENITH]; unfold radians; linarith
  have hm1 := mul_le_mul hsd2 hsp2 (by linarith) (by norm_num)
  have hm2 := mul_le_mul hsd1 hsp1 (by norm_num) (by linarith)
  have hN1 : (-0.32624285241:ℝ)
      ≤ radians (ZENITH .official) - sunSinDec l * Real.sin (radians 52.015) := by
    linarith
  have hN2 : radians (ZENITH .official) - sunSinDec l * Real.sin (radians 52.015)
      ≤ -0.32624276121 := by
    linarith
  have hd1 := mul_le_mul hcd1 hcp1 (by norm_num) (by linarith)
  have hd2 := mul_le_mul hcd2 hcp2 (by linarith) (by norm_num)
  have hD1 : (0.56528254199:ℝ) ≤ sunCosDec l * Real.cos (radians 52.015) := by linarith
  have hD2 : sunCosDec l * Real.cos (radians 52.015) ≤ 0.56528275388 := by linarith
  have hDpos : (0:ℝ) < sunCosDec l * Real.cos (radians 52.015) := by linarith
  unfold sunCosH
  constructor
  · rw [le_div_iff₀ hDpos]
    have hB := mul_le_mul_of_nonpos_left hD1 (show (-0.57713236865:ℝ) ≤ 0 by norm_num)
    linarith
  · rw [div_le_iff₀ hDpos]
    have hB := mul_le_mul_of_nonpos_left hD2 (show (-0.57713199097:ℝ) ≤ 0 by norm_num)
    linarith

theorem acos_bounds_r {x : ℝ} (h1 : (-0.57713236865:ℝ) ≤ x) (h2 : x ≤ -0.57713199097) :
    (2.18600870559:ℝ) ≤ Real.arccos x ∧ Real.arccos x ≤ 2.18600920808 := by
  have hpl : (3.14159265358979323846 : ℝ) < Real.pi := Real.pi_gt_d20
  have hph : Real.pi < 3.14159265358979323847 := Real.pi_lt_d20
  have hg1 : (-0.61521288128:ℝ) ≤ Real.arcsin x := by
    apply arcsin_ge (by linarith) (by linarith)
    have hs := sin_taylor9_pt (abs_le.mpr (by norm_num) : |(-0.61521288128:ℝ)| ≤ 1)
    linarith [hs.2]
  have hg2 : Real.arcsin x ≤ -0.6152123788 := by
    apply arcsin_le (by linarith) (by linarith)
    have hs := sin_taylor9_pt (abs_le.mpr (by norm_num) : |(-0.6152123788:ℝ)| ≤ 1)
    linarith [hs.1]
  rw [Real.arccos_eq_pi_div_two_sub_arcsin]
  constructor
  · linarith
  · linarith

theorem sun_tail_342 {L : ℝ} (h1 : (3.7:ℝ) ≤ L) (h2 : L < 3 + 43/60) :
    (if 0 ≤ (hmOfLocalT L).1 ∧ (hmOfLocalT L).1 ≤ 23 ∧ 0 ≤ (hmOfLocalT L).2 ∧ (hmOfLocalT L).2 ≤ 59
      then SunResult.time (hmOfLocalT L).1 (hmOfLocalT L).2 else SunResult.exn)
      = SunResult.time 3 42 := by
  rw [hm_342 h1 h2]
  norm_num

set_option maxHeartbeats 1000000 in
theorem rise_eval :
    sun_rise_set 52.015 (-0.221) 2007 6 28 .rise 0 .official = .time 3 42 := by
  have hpl : (3.14159265358979323846 : ℝ) < Real.pi := Real.pi_gt_d20
  have hph : Real.pi < 3.14159265358979323847 := Real.pi_lt_d20
  have hpi0 : (0:ℝ) < Real.pi := Real.pi_pos
  have hd : dayOfYear 2007 6 28 = 179 := by decide
  simp only [sun_rise_set, hd]
  have ht : sunT ((179:ℕ):ℝ) (-0.221 / 15) Mode.rise = 64530221/360000 := by
    simp [sunT]
    norm_num
  rw [ht]
  have hm : sunM (64530221/360000 : ℝ) = 1219080973/7031250 := by
    unfold sunM; norm_num
  rw [hm]
  obtain ⟨hl1, hl2⟩ := sunL_bounds_r
  obtain ⟨hch1, hch2⟩ := cosH_bounds_r hl1 hl2
  rw [if_neg (not_lt.mpr (by linarith :
    sunCosH 52.015 (ZENITH Zenith.official) (sunL (1219080973/7031250)) ≤ 1))]
  rw [if_neg (not_lt.mpr (by linarith :
    (-1:ℝ) ≤ sunCosH 52.015 (ZENITH Zenith.official) (sunL (1219080973/7031250))))]
  obtain ⟨hra1, hra2⟩ := sunRA_bounds_r hl1 hl2
  obtain ⟨hH1, hH2⟩ := acos_bounds_r hch1 hch2
  have hDA1 : (125.24907280905:ℝ) ≤ degreesR (Real.arccos
      (sunCosH 52.015 (ZENITH Zenith.official) (sunL (1219080973/7031250)))) := by
    unfold degreesR
    rw [le_div_iff₀ hpi0]
    have hB := mul_le_mul_of_nonneg_left hph.le (show (0:ℝ) ≤ 125.24907280905 by norm_num)
    linarith
  have hDA2 : degreesR (Real.arccos
      (sunCosH 52.015 (ZENITH Zenith.official) (sunL (1219080973/7031250)))) ≤ 125.24910159975 := by
    unfold degreesR
    rw [div_le_iff₀ hpi0]
    have hB := mul_le_mul_of_nonneg_left hpl.le (show (0:ℝ) ≤ 125.24910159975 by norm_num)
    linarith
  apply sun_tail_342
  · push_cast
    linarith
  · push_cast
    linarith

theorem sunL_bounds_s :
    (96.70745317261 : ℝ) ≤ sunL (1222545973/7031250) ∧
      sunL (1222545973/7031250) ≤ 96.70745317266 := by
  have hpl : (3.14159265358979323846 : ℝ) < Real.pi := Real.pi_gt_d20
  have hph : Real.pi < 3.14159265358979323847 := Real.pi_lt_d20
  have hy1 : (0.10693274449 : ℝ) ≤ Real.pi - radians (1222545973/7031250) := by
    unfold radians; linarith
  have hy2 : Real.pi - radians (1222545973/7031250) ≤ 0.1069327445 := by
    unfold radians; linarith
  have hs1 : (0.10672907189 : ℝ) ≤ Real.sin (Real.pi - radians (1222545973/7031250)) := by
    have hA := sin_ge_lo (abs_le.mpr (by norm_num)) hy1
      (show Real.pi - radians (1222545973/7031250) ≤ Real.pi/2 by unfold radians; linarith)
    linarith
  have hs2 : Real.sin (Real.pi - radians (1222545973/7031250)) ≤ 0.10672907191 := by
    have hA := sin_le_hi (abs_le.mpr (by norm_num)) hy2
      (show -(Real.pi/2) ≤ Real.pi - radians (1222545973/7031250) by unfold radians; linarith)
    linarith
  have h2y1 : (0.21386548898 : ℝ) ≤ 2*(Real.pi - radians (1222545973/7031250)) := by linarith
  have h2y2 : 2*(Real.pi - radians (1222545973/7031250)) ≤ 0.2138654890 := by linarith
  have hs21 : (0.21223890075 : ℝ) ≤ Real.sin (2*(Real.pi - radians (1222545973/7031250))) := by
    have hA := sin_ge_lo (abs_le.mpr (by norm_num)) h2y1
      (show 2*(Real.pi - radians (1222545973/7031250)) ≤ Real.pi/2 by unfold radians; linarith)
    linarith
  have hs22 : Real.sin (2*(Real.pi - radians (1222545973/7031250))) ≤ 0.21223890078 := by
    have hA := sin_le_hi (abs_le.mpr (by norm_num)) h2y2
      (show -(Real.pi/2) ≤ 2*(Real.pi - radians (1222545973/7031250)) by unfold radians; linarith)
    linarith
  have hsm : Real.sin (radians (1222545973/7031250))
      = Real.sin (Real.pi - radians (1222545973/7031250)) := (Real.sin_pi_sub _).symm
  have h2eq : Real.sin (2 * radians (1222545973/7031250))
      = -Real.sin (2*(Real.pi - radians (1222545973/7031250))) := by
    have harg : 2 * radians (1222545973/7031250) - 2*Real.pi
        = -(2*(Real.pi - radians (1222545973/7031250))) := by ring
    rw [← Real.sin_sub_two_pi (2 * radians (1222545973/7031250)), harg, Real.sin_neg]
  have hpos : (0:ℝ) < (1222545973/7031250 : ℝ) + 1.916 * Real.sin (radians (1222545973/7031250))
      + 0.020 * Real.sin (2 * radians (1222545973/7031250)) + 282.634 := by
    rw [hsm, h2eq]; linarith
  have hin1 : (456.70745317261 : ℝ) ≤ (1222545973/7031250 : ℝ)
      + 1.916 * Real.sin (radians (1222545973/7031250))
      + 0.020 * Real.sin (2 * radians (1222545973/7031250)) + 282.634 := by
    rw [hsm, h2eq]; linarith
  have hin2 : (1222545973/7031250 : ℝ) + 1.916 * Real.sin (radians (1222545973/7031250))
      + 0.020 * Real.sin (2 * radians (1222545973/7031250)) + 282.634 ≤ 456.70745317266 := by
    rw [hsm, h2eq]; linarith
  have habs : |(1222545973/7031250 : ℝ) + 1.916 * Real.sin (radians (1222545973/7031250))
      + 0.020 * Real.sin (2 * radians (1222545973/7031250)) + 282.634|
      = (1222545973/7031250 : ℝ) + 1.916 * Real.sin (radians (1222545973/7031250))
      + 0.020 * Real.sin (2 * radians (1222545973/7031250)) + 282.634 := abs_of_pos hpos
  have hfl : (⌊((1222545973/7031250 : ℝ) + 1.916 * Real.sin (radians (1222545973/7031250))
      + 0.020 * Real.sin (2 * radians (1222545973/7031250)) + 282.634) / 360⌋ : ℤ) = 1 := by
    rw [Int.floor_eq_iff]
    constructor
    · push_cast; rw [le_div_iff₀ (by norm_num : (0:ℝ) < 360)]; linarith
    · push_cast; rw [div_lt_iff₀ (by norm_num : (0:ℝ) < 360)]; linarith
  unfold sunL pyMod
  rw [habs, hfl]
  push_cast
  constructor
  · linarith
  · linarith

theorem trig_u_s {l : ℝ} (h1 : (96.70745317261:ℝ) ≤ l) (h2 : l ≤ 96.70745317266) :
    ((0.99315546432:ℝ) ≤ Real.cos (radians l - Real.pi/2)
      ∧ Real.cos (radians l - Real.pi/2) ≤ 0.99315546433)
    ∧ ((0.11679993012:ℝ) ≤ Real.sin (radians l - Real.pi/2)
      ∧ Real.sin (radians l - Real.pi/2) ≤ 0.11679993014) := by
  have hpl : (3.14159265358979323846 : ℝ) < Real.pi := Real.pi_gt_d20
  have hph : Real.pi < 3.14159265358979323847 := Real.pi_lt_d20
  have hueq : radians l - Real.pi/2 = ((l - 90)/180) * Real.pi := by unfold radians; ring
  have hu1 : (0.11706714228:ℝ) ≤ radians l - Real.pi/2 := by
    rw [hueq]
    have hm := mul_le_mul (show ((96.70745317261:ℝ) - 90)/180 ≤ (l - 90)/180 by linarith)
      hpl.le (by norm_num) (by linarith)
    linarith
  have hu2 : radians l - Real.pi/2 ≤ 0.11706714229 := by
    rw [hueq]
    have hm := mul_le_mul (show (l - 90)/180 ≤ ((96.70745317266:ℝ) - 90)/180 by linarith)
      hph.le Real.pi_pos.le (by norm_num)
    linarith
  refine ⟨⟨?_, ?_⟩, ?_, ?_⟩
  · have hA := cos_ge_lo (abs_le.mpr (by norm_num))
      (show (0:ℝ) ≤ radians l - Real.pi/2 by linarith) hu2
    linarith
  · have hA := cos_le_hi (abs_le.mpr (by norm_num)) (by norm_num) hu1
      (show radians l - Real.pi/2 ≤ Real.pi by linarith)
    linarith
  · have hA := sin_ge_lo (abs_le.mpr (by norm_num)) hu1
      (show radians l - Real.pi/2 ≤ Real.pi/2 by linarith)
    linarith
  · have hA := sin_le_hi (abs_le.mpr (by norm_num)) hu2
      (show -(Real.pi/2) ≤ radians l - Real.pi/2 by linarith)
    linarith

set_option maxHeartbeats 1000000 in
theorem sunRA_bounds_s {l : ℝ} (h1 : (96.70745317261:ℝ) ≤ l) (h2 : l ≤ 96.70745317266) :
    (6.48688161187:ℝ) ≤ sunRA l ∧ sunRA l ≤ 6.4868816128 := by
  have hpl : (3.14159265358979323846 : ℝ) < Real.pi := Real.pi_gt_d20
  have hph : Real.pi < 3.14159265358979323847 := Real.pi_lt_d20
  have hpi0 : (0:ℝ) < Real.pi := Real.pi_pos
  obtain ⟨⟨hcu1, hcu2⟩, hsu1, hsu2⟩ := trig_u_s h1 h2
  have hsu_pos : (0:ℝ) < Real.sin (radians l - Real.pi/2) := by linarith
  have hsinl : Real.sin (radians l) = Real.cos (radians l - Real.pi/2) :=
    (Real.cos_sub_pi_div_two _).symm
  have hcosl : Real.cos (radians l) = -Real.sin (radians l - Real.pi/2) := by
    have := Real.sin_sub_pi_div_two (radians l); linarith
  have htan : Real.tan (radians l)
      = Real.cos (radians l - Real.pi/2) / -Real.sin (radians l - Real.pi/2) := by
    rw [Real.tan_eq_sin_div_cos, hsinl, hcosl]
  have hv1 : (-7.80273737623:ℝ) ≤ 0.91764 * Real.tan (radians l) := by
    rw [htan, div_neg, mul_neg, le_neg, ← mul_div_assoc, div_le_iff₀ hsu_pos]
    linarith
  have hv2 : 0.91764 * Real.tan (radians l) ≤ -7.80273737481 := by
    rw [htan, div_neg, mul_neg, neg_le, ← mul_div_assoc, le_div_iff₀ hsu_pos]
    linarith
  have hv_neg : 0.91764 * Real.tan (radians l) < 0 := by linarith
  have hati := Real.arctan_inv_of_neg hv_neg
  have hw1 : (-0.12816015098:ℝ) ≤ (0.91764 * Real.tan (radians l))⁻¹ := by
    rw [inv_eq_one_div, le_div_iff_of_neg hv_neg]
    linarith [hv2]
  have hw2 : (0.91764 * Real.tan (radians l))⁻¹ ≤ -0.12816015095 := by
    rw [inv_eq_one_div, div_le_iff_of_neg hv_neg]
    linarith [hv1]
  have hc1 : (-0.12746530816:ℝ) ≤ Real.arctan ((0.91764 * Real.tan (radians l))⁻¹) := by
    apply arctan_ge (by linarith) (by linarith)
    rw [show Real.tan (-0.12746530816:ℝ) = Real.sin (-0.12746530816:ℝ) / Real.cos (-0.12746530816:ℝ) from Real.tan_eq_sin_div_cos _]
    have hs := sin_taylor9_pt (abs_le.mpr (by norm_num) : |(-0.12746530816:ℝ)| ≤ 1)
    have hc := cos_taylor9_pt (abs_le.mpr (by norm_num) : |(-0.12746530816:ℝ)| ≤ 1)
    have hcpos : (0:ℝ) < Real.cos (-0.12746530816:ℝ) := by linarith [hc.1]
    rw [div_le_iff₀ hcpos]
    have hcle : Real.cos (-0.12746530816:ℝ) ≤ 0.99188729075 := by linarith [hc.2]
    have hB := mul_le_mul_of_nonpos_left hcle (show (-0.12816015098:ℝ) ≤ 0 by norm_num)
    have hA := mul_le_mul_of_nonneg_right hw1 hcpos.le
    linarith [hs.2, hA, hB]
  have hc2 : Real.arctan ((0.91764 * Real.tan (radians l))⁻¹) ≤ -0.12746530792 := by
    apply arctan_le (by linarith) (by linarith)
    rw [show Real.tan (-0.12746530792:ℝ) = Real.sin (-0.12746530792:ℝ) / Real.cos (-0.12746530792:ℝ) from Real.tan_eq_sin_div_cos _]
    have hs := sin_taylor9_pt (abs_le.mpr (by norm_num) : |(-0.12746530792:ℝ)| ≤ 1)
    have hc := cos_taylor9_pt (abs_le.mpr (by norm_num) : |(-0.12746530792:ℝ)| ≤ 1)
    have hcpos : (0:ℝ) < Real.cos (-0.12746530792:ℝ) := by linarith [hc.1]
    rw [le_div_iff₀ hcpos]
    have hcge : (0.99188729077:ℝ) ≤ Real.cos (-0.12746530792:ℝ) := by linarith [hc.1]
    have hB := mul_le_mul_of_nonpos_left hcge (show (-0.12816015095:ℝ) ≤ 0 by norm_num)
    have hA := mul_le_mul_of_nonneg_right hw2 hcpos.le
    linarith [hs.1, hA, hB]
  have hat_v : Real.arctan (0.91764 * Real.tan (radians l))
      = -(Real.pi/2) - Real.arctan ((0.91764 * Real.tan (radians l))⁻¹) := by
    linarith [hati]
  have hX1 : (-7.30322419191:ℝ)
      ≤ Real.arctan ((0.91764 * Real.tan (radians l))⁻¹) * 180 / Real.pi := by
    rw [le_div_iff₀ hpi0]
    have hB := mul_le_mul_of_nonpos_left hpl.le (show (-7.30322419191:ℝ) ≤ 0 by norm_num)
    linarith [hc1, hB]
  have hX2 : Real.arctan ((0.91764 * Real.tan (radians l))⁻¹) * 180 / Real.pi
      ≤ -7.30322417815 := by
    rw [div_le_iff₀ hpi0]
    have hB := mul_le_mul_of_nonpos_left hph.le (show (-7.30322417815:ℝ) ≤ 0 by norm_num)
    linarith [hc2, hB]
  have hfl : (⌊l / 90⌋ : ℤ) = 1 := by
    rw [Int.floor_eq_iff]
    constructor
    · push_cast; rw [le_div_iff₀ (by norm_num : (0:ℝ) < 90)]; linarith
    · push_cast; rw [div_lt_iff₀ (by norm_num : (0:ℝ) < 90)]; linarith
  have hra_val : degreesR (Real.arctan (0.91764 * Real.tan (radians l)))
      = -90 - Real.arctan ((0.91764 * Real.tan (radians l))⁻¹) * 180 / Real.pi := by
    unfold degreesR
    rw [hat_v]
    field_simp
    ring
  have hfra : (⌊(-90 - Real.arctan ((0.91764 * Real.tan (radians l))⁻¹) * 180 / Real.pi) / 90⌋ : ℤ)
      = -1 := by
    rw [Int.floor_eq_iff]
    constructor
    · push_cast; rw [le_div_iff₀ (by norm_num : (0:ℝ) < 90)]; linarith
    · push_cast; rw [div_lt_iff₀ (by norm_num : (0:ℝ) < 90)]; linarith
  simp only [sunRA]
  rw [hra_val, hfl, hfra]
  push_cast
  constructor
  · rw [le_div_iff₀ (by norm_num : (0:ℝ) < 15)]
    linarith
  · rw [div_le_iff₀ (by norm_num : (0:ℝ) < 15)]
    linarith

theorem sinDec_bounds_s {l : ℝ} (h1 : (96.70745317261:ℝ) ≤ l) (h2 : l ≤ 96.70745317266) :
    (0.39509710681:ℝ) ≤ sunSinDec l ∧ sunSinDec l ≤ 0.39509710682 := by
  obtain ⟨⟨hcu1, hcu2⟩, _, _⟩ := trig_u_s h1 h2
  have hsinl : Real.sin (radians l) = Real.cos (radians l - Real.pi/2) :=
    (Real.cos_sub_pi_div_two _).symm
  unfold sunSinDec
  rw [hsinl]
  constructor
  · linarith
  · linarith

theorem cosDec_bounds_s {l : ℝ} (h1 : (96.70745317261:ℝ) ≤ l) (h2 : l ≤ 96.70745317266) :
    (0.91863936122:ℝ) ≤ sunCosDec l ∧ sunCosDec l ≤ 0.91863936144 := by
  obtain ⟨hsd1, hsd2⟩ := sinDec_bounds_s h1 h2
  unfold sunCosDec
  rw [Real.cos_arcsin]
  constructor
  · apply Real.le_sqrt_of_sq_le
    nlinarith
  · rw [Real.sqrt_le_iff]
    constructor
    · norm_num
    · nlinarith

theorem cosH_bounds_s {l : ℝ} (h1 : (96.70745317261:ℝ) ≤ l) (h2 : l ≤ 96.70745317266) :
    (-0.57651161867:ℝ) ≤ sunCosH 52.015 (ZENITH .official) l
      ∧ sunCosH 52.015 (ZENITH .official) l ≤ -0.57651124141 := by
  have hpl : (3.14159265358979323846 : ℝ) < Real.pi := Real.pi_gt_d20
  have hph : Real.pi < 3.14159265358979323847 := Real.pi_lt_d20
  obtain ⟨⟨hsp1, hsp2⟩, hcp1, hcp2⟩ := phi_bounds
  obtain ⟨hsd1, hsd2⟩ := sinDec_bounds_s h1 h2
  obtain ⟨hcd1, hcd2⟩ := cosDec_bounds_s h1 h2
  have hz1 : (-0.01454441044:ℝ) ≤ radians (ZENITH .official) := by
    simp only [ZENITH]; unfold radians; linarith
  have hz2 : radians (ZENITH .official) ≤ -0.01454441043 := by
    simp only [ZENITH]; unfold radians; linarith
  have hm1 := mul_le_mul hsd2 hsp2 (by linarith) (by norm_num)
  have hm2 := mul_le_mul hsd1 hsp1 (by norm_num) (by linarith)
  have hN1 : (-0.32594889928:ℝ)
      ≤ radians (ZENITH .official) - sunSinDec l * Real.sin (radians 52.015) := by
    linarith
  have hN2 : radians (ZENITH .official) - sunSinDec l * Real.sin (radians 52.015)
      ≤ -0.32594880817 := by
    linarith
  have hd1 := mul_le_mul hcd1 hcp1 (by norm_num) (by linarith)
  have hd2 := mul_le_mul hcd2 hcp2 (by linarith) (by norm_num)
  have hD1 : (0.56538131883:ℝ) ≤ sunCosDec l * Real.cos (radians 52.015) := by linarith
  have hD2 : sunCosDec l * Real.cos (radians 52.015) ≤ 0.56538153076 := by linarith
  have hDpos : (0:ℝ) < sunCosDec l * Real.cos (radians 52.015) := by linarith
  unfold sunCosH
  constructor
  · rw [le_div_iff₀ hDpos]
    have hB := mul_le_mul_of_nonpos_left hD1 (show (-0.57651161867:ℝ) ≤ 0 by norm_num)
    linarith
  · rw [div_le_iff₀ hDpos]
    have hB := mul_le_mul_of_nonpos_left hD2 (show (-0.57651124141:ℝ) ≤ 0 by norm_num)
    linarith

theorem acos_bounds_s {x : ℝ} (h1 : (-0.57651161867:ℝ) ≤ x) (h2 : x ≤ -0.57651124141) :
    (2.18524879337:ℝ) ≤ Real.arccos x ∧ Real.arccos x ≤ 2.1852492951 := by
  have hpl : (3.14159265358979323846 : ℝ) < Real.pi := Real.pi_gt_d20
  have hph : Real.pi < 3.14159265358979323847 := Real.pi_lt_d20
  have hg1 : (-0.6144529683:ℝ) ≤ Real.arcsin x := by
    apply arcsin_ge (by linarith) (by linarith)
    have hs := sin_taylor9_pt (abs_le.mpr (by norm_num) : |(-0.6144529683:ℝ)| ≤ 1)
    linarith [hs.2]
  have hg2 : Real.arcsin x ≤ -0.61445246658 := by
    apply arcsin_le (by linarith) (by linarith)
    have hs := sin_taylor9_pt (abs_le.mpr (by norm_num) : |(-0.61445246658:ℝ)| ≤ 1)
    linarith [hs.1]
  rw [Real.arccos_eq_pi_div_two_sub_arcsin]
  constructor
  · linarith
  · linarith

theorem sun_tail_2025 {L : ℝ} (h1 : (-3.6:ℝ) < L) (h2 : L ≤ -3 - 35/60) :
    (if 0 ≤ (hmOfLocalT L).1 ∧ (hmOfLocalT L).1 ≤ 23 ∧ 0 ≤ (hmOfLocalT L).2 ∧ (hmOfLocalT L).2 ≤ 59
      then SunResult.time (hmOfLocalT L).1 (hmOfLocalT L).2 else SunResult.exn)
      = SunResult.time 20 25 := by
  rw [hm_2025 h1 h2]
  norm_num

set_option maxHeartbeats 1000000 in
theorem set_eval :
    sun_rise_set 52.015 (-0.221) 2007 6 28 .set 0 .official = .time 20 25 := by
  have hpl : (3.14159265358979323846 : ℝ) < Real.pi := Real.pi_gt_d20
  have hph : Real.pi < 3.14159265358979323847 := Real.pi_lt_d20
  have hpi0 : (0:ℝ) < Real.pi := Real.pi_pos
  have hd : dayOfYear 2007 6 28 = 179 := by decide
  simp only [sun_rise_set, hd]
  have ht : sunT ((179:ℕ):ℝ) (-0.221 / 15) Mode.set = 64710221/360000 := by
    simp [sunT]
    norm_num
  rw [ht]
  have hm : sunM (64710221/360000 : ℝ) = 1222545973/7031250 := by
    unfold sunM; norm_num
  rw [hm]
  obtain ⟨hl1, hl2⟩ := sunL_bounds_s
  obtain ⟨hch1, hch2⟩ := cosH_bounds_s hl1 hl2
  rw [if_neg (not_lt.mpr (by linarith :
    sunCosH 52.015 (ZENITH Zenith.official) (sunL (1222545973/7031250)) ≤ 1))]
  rw [if_neg (not_lt.mpr (by linarith :
    (-1:ℝ) ≤ sunCosH 52.015 (ZENITH Zenith.official) (sunL (1222545973/7031250))))]
  obtain ⟨hra1, hra2⟩ := sunRA_bounds_s hl1 hl2
  obtain ⟨hH1, hH2⟩ := acos_bounds_s hch1 hch2
  have hDA1 : (125.20553304615:ℝ) ≤ degreesR (Real.arccos
      (sunCosH 52.015 (ZENITH Zenith.official) (sunL (1222545973/7031250)))) := by
    unfold degreesR
    rw [le_div_iff₀ hpi0]
    have hB := mul_le_mul_of_nonneg_left hph.le (show (0:ℝ) ≤ 125.20553304615 by norm_num)
    linarith
  have hDA2 : degreesR (Real.arccos
      (sunCosH 52.015 (ZENITH Zenith.official) (sunL (1222545973/7031250)))) ≤ 125.2055617932 := by
    unfold degreesR
    rw [div_le_iff₀ hpi0]
    have hB := mul_le_mul_of_nonneg_left hpl.le (show (0:ℝ) ≤ 125.2055617932 by norm_num)
    linarith
  apply sun_tail_2025
  · push_cast
    linarith
  · push_cast
    linarith

/-- C7: `sun_events(52.015, -0.221, 2007-06-28)` with timezone offset 0 returns the
pair of times (03:42, 20:25): the rise computation yields 03:42 and the set
computation yields 20:25, matching the doctest. -/
theorem c7_sun_events_doctest :
    sun_events 52.015 (-0.221) 2007 6 28 0 .official = (.time 3 42, .time 20 25) := by
  unfold sun_events
  rw [rise_eval, set_eval]
